import Mathlib

/-!
# Access box: envelope protocol and credential store

A shallow embedding of `creds/accessbox/accessbox.go` and
`creds/tokens/credentials.go`.

* Byte slices are lists of bytes, Go errors are values of the inductive `Err`
  (one constructor per error the source builds, wrappers keep the wrapped
  error), a run-time panic is the error `Err.panicSliceBounds`.
* Everything the source imports from other modules (key generation and
  encoding, the curve, HKDF, the AEAD, protobuf and token (de)serialisation)
  is a field of the record `Lib`; the random source is an explicit state `σ`.
  The algebraic facts about those collaborators that a theorem relies on are
  collected in `Lib.Laws` and are always explicit hypotheses.
* The storage backend is a record `Pool` of state transformers on a backend
  state `β`; the process-wide buffer pool is a list of buffers.
-/

namespace AccessBoxModel

/-! ## Bytes, errors and keys -/

abbrev Byte := Fin 256

abbrev Bytes := List Byte

/-- Go `error` values built or propagated by the two packages. -/
inductive Err where
  /-- an error returned by an imported library, kept as its message -/
  | lib (msg : String)
  /-- the AEAD reports that the authentication tag does not verify -/
  | aeadAuthFailed
  /-- `fmt.Errorf("not equal curves")` -/
  | notEqualCurves
  /-- `fmt.Errorf("shared key is point at infinity")` -/
  | pointAtInfinity
  /-- `fmt.Errorf("wrong data size (%d), should be greater than %d", ld, ns)` -/
  | wrongDataSize (ld ns : Nat)
  /-- `fmt.Errorf("no gate data for key  %x was found", ownerKey)` -/
  | noGateData (ownerKey : Bytes)
  /-- `fmt.Errorf("couldn't unmarshal OwnerPublicKey: %w", err)` -/
  | unmarshalOwnerPublicKey (err : Err)
  /-- `fmt.Errorf("failed to decode gate: %w", err)` -/
  | failedToDecodeGate (err : Err)
  /-- `fmt.Errorf("%w, sender = %d", err, i)` -/
  | sender (err : Err) (i : Nat)
  /-- `fmt.Errorf("failed to generate accessKey as hex: %w", err)` -/
  | failedToGenerateAccessKey (err : Err)
  /-- `fmt.Errorf("failed to add tokens to accessbox: %w", err)` -/
  | failedToAddTokens (err : Err)
  /-- `ErrEmptyPublicKeys` of package tokens -/
  | ErrEmptyPublicKeys
  /-- `ErrEmptyBearerToken` of package tokens -/
  | ErrEmptyBearerToken
  /-- run-time panic: slice bounds out of range -/
  | panicSliceBounds
  /-- run-time panic inside `curve.ScalarMult` (such as the nil pointer
  dereference on a nil coordinate) -/
  | panicScalarMult
  deriving DecidableEq, Repr

/-- Value of interface type `elliptic.Curve`; `P256` is `elliptic.P256()`. -/
inductive Curve where
  | P256
  | other (id : Nat)
  deriving DecidableEq, Repr

/-- The type `keys.PublicKey` (an `ecdsa.PublicKey`).  The coordinates are
`*big.Int`: `none` is the nil pointer.  The key with both coordinates nil is
how the key library represents the point at infinity. -/
structure PublicKey where
  Curve : Curve
  X : Option Nat
  Y : Option Nat
  deriving DecidableEq, Repr

/-- The type `keys.PrivateKey` (an `ecdsa.PrivateKey`): the embedded public key
and the scalar `D`.  `prv.PublicKey()` is the field `PublicKey`. -/
structure PrivateKey where
  PublicKey : PublicKey
  D : Nat
  deriving DecidableEq, Repr

/-! ## Wire messages (generated protobuf types used by the source) -/

/-- Modelled from the spec: the generated message type `AccessBox_Gate` is not
among the sources; fields as the source uses them (`GatePublicKey`, `Tokens`),
the spec calls them `recipientPublicKey` and `encryptedPayload`. -/
structure AccessBox_Gate where
  GatePublicKey : Bytes
  Tokens : Bytes
  deriving DecidableEq, Repr

/-- Modelled from the spec: the generated message type
`AccessBox_ContainerPolicy` is not among the sources; fields as the source uses
them. -/
structure AccessBox_ContainerPolicy where
  LocationConstraint : String
  Policy : Bytes
  deriving DecidableEq, Repr

/-- Modelled from the spec: the generated message type `AccessBox` is not among
the sources; fields as the source uses them. -/
structure AccessBox where
  OwnerPublicKey : Bytes
  Gates : List AccessBox_Gate
  ContainerPolicy : List AccessBox_ContainerPolicy
  deriving DecidableEq, Repr

/-- Modelled from the spec: the generated message type `Tokens` is not among
the sources; fields as the source uses them. -/
structure Tokens where
  AccessKey : Bytes
  BearerToken : Bytes
  SessionToken : Bytes
  deriving DecidableEq, Repr

/-! ## Friendly types of package accessbox -/

/-- `ContainerPolicy`: friendly `AccessBox_ContainerPolicy`; `PP` is
`netmap.PlacementPolicy`. -/
structure ContainerPolicy (PP : Type) where
  LocationConstraint : String
  Policy : PP
  deriving DecidableEq, Repr

/-- `GateData`: `BT` is `token.BearerToken`, `ST` is `session.Token`.  The
session token pointer may be nil (`none`); the bearer token and the gate key
are taken to be non-nil pointers. -/
structure GateData (BT ST : Type) where
  AccessKey : String
  BearerToken : BT
  SessionToken : Option ST
  GateKey : PublicKey
  deriving DecidableEq, Repr

/-- `Box`: friendly `AccessBox`. -/
structure Box (BT ST PP : Type) where
  Gate : GateData BT ST
  Policies : List (ContainerPolicy PP)
  deriving DecidableEq, Repr

/-- `Secrets`: the access key and the key used to encrypt gate tokens. -/
structure Secrets where
  AccessKey : String
  EphemeralKey : PrivateKey
  deriving DecidableEq, Repr

/-- `NewGateData` leaves `AccessKey` and `SessionToken` at their zero values. -/
def NewGateData {BT ST : Type} (gateKey : PublicKey) (bearerTkn : BT) : GateData BT ST :=
  { AccessKey := "", BearerToken := bearerTkn, SessionToken := none, GateKey := gateKey }

/-! ## Imported collaborators -/

/-- A `cipher.AEAD` value.  `Seal nonce plaintext additionalData` is the
ciphertext with its tag (the caller appends it to `dst`);
`Open nonce ciphertext additionalData` is the plaintext or an error. -/
structure AEAD where
  NonceSize : Nat
  Overhead : Nat
  Seal : Bytes → Bytes → Bytes → Bytes
  Open : Bytes → Bytes → Bytes → Except Err Bytes

/-- Outcome of a call `curve.ScalarMult(x, y, k)`: the call panics, or it
returns, and `returns x` carries its first result (`none` is a nil
`*big.Int`). -/
inductive ScalarResult where
  | panics
  | returns (x : Option Nat)
  deriving DecidableEq, Repr

/-- The imported functions the two packages call.  `σ` is the state of the
system random source. -/
structure Lib (σ BT ST PP : Type) where
  /-- `keys.NewPrivateKey()` -/
  NewPrivateKey : σ → Except Err (PrivateKey × σ)
  /-- `rand.Read(b)` and `io.ReadFull(rand.Reader, b)` for `len(b) = n` -/
  randRead : Nat → σ → Except Err (Bytes × σ)
  /-- `(*keys.PublicKey).Bytes()` -/
  PublicKeyBytes : PublicKey → Bytes
  /-- `keys.NewPublicKeyFromBytes(b, curve)` -/
  NewPublicKeyFromBytes : Bytes → Curve → Except Err PublicKey
  /-- `curve.ScalarMult(x, y, k)` on the pointers `x` and `y` (`none` is nil) -/
  ScalarMult : Curve → Option Nat → Option Nat → Bytes → ScalarResult
  /-- `io.ReadFull(hkdf.New(sha256.New, secret, nil, nil), key)` for `len(key) = n` -/
  hkdfRead : Bytes → Nat → Except Err Bytes
  /-- `chacha20poly1305.NewX(key)` -/
  NewX : Bytes → Except Err AEAD
  /-- `proto.Marshal` on `*Tokens` -/
  marshalTokens : Tokens → Except Err Bytes
  /-- `proto.Unmarshal` into `*Tokens` -/
  unmarshalTokens : Bytes → Except Err Tokens
  /-- `proto.Marshal` on `*AccessBox` -/
  marshalAccessBox : AccessBox → Except Err Bytes
  /-- `proto.Unmarshal` into `*AccessBox` -/
  unmarshalAccessBox : Bytes → Except Err AccessBox
  /-- `(*token.BearerToken).Marshal()` -/
  bearerMarshal : BT → Except Err Bytes
  /-- `token.NewBearerToken()` followed by `Unmarshal(data)` -/
  bearerUnmarshal : Bytes → Except Err BT
  /-- `(*session.Token).Marshal()` -/
  sessionMarshal : ST → Except Err Bytes
  /-- `session.NewToken()` followed by `Unmarshal(data)` -/
  sessionUnmarshal : Bytes → Except Err ST
  /-- `netmap.NewPlacementPolicy()` followed by `Unmarshal(data)` -/
  policyUnmarshal : Bytes → Except Err PP

/-! ## Standard-library helpers used by the source -/

/-- Auxiliary loop of `bigIntBytes`: big-endian base-256 digits of `n`,
pushed in front of `acc`. -/
def bigIntBytesAux : Nat → Nat → Bytes → Bytes
  | 0, _, acc => acc
  | fuel + 1, n, acc =>
    if n = 0 then acc
    else bigIntBytesAux fuel (n / 256) (⟨n % 256, Nat.mod_lt _ (by decide)⟩ :: acc)

/-- `(*big.Int).Bytes()` on a non-negative integer: the minimal big-endian
encoding (empty for 0). -/
def bigIntBytes (n : Nat) : Bytes := bigIntBytesAux n n []

/-- One digit of `hex.EncodeToString` (table `0123456789abcdef`). -/
def hexDigit (n : Nat) : Char :=
  "0123456789abcdef".toList.getD n '0'

/-- Character list of `hex.EncodeToString`. -/
def hexChars : Bytes → List Char
  | [] => []
  | b :: rest => hexDigit (b.val / 16) :: hexDigit (b.val % 16) :: hexChars rest

/-- `hex.EncodeToString`. -/
def hexEncodeToString (b : Bytes) : String := String.mk (hexChars b)

/-! ## Package accessbox -/

section accessbox

variable {σ BT ST PP : Type}

/-- `generateShared256`. -/
def generateShared256 (L : Lib σ BT ST PP) (prv : PrivateKey) (pub : PublicKey) :
    Except Err Bytes :=
  if prv.PublicKey.Curve ≠ pub.Curve then .error Err.notEqualCurves
  else
    match L.ScalarMult pub.Curve pub.X pub.Y (bigIntBytes prv.D) with
    | .panics => .error Err.panicScalarMult
    | .returns none => .error Err.pointAtInfinity
    | .returns (some x) =>
      let skBytes := bigIntBytes x
      if skBytes.length ≤ 32 then
        .ok (List.replicate (32 - skBytes.length) (0 : Byte) ++ skBytes)
      else .error Err.panicSliceBounds

/-- `deriveKey`. -/
def deriveKey (L : Lib σ BT ST PP) (secret : Bytes) : Except Err Bytes :=
  L.hkdfRead secret 32

/-- `getCipher`. -/
def getCipher (L : Lib σ BT ST PP) (owner : PrivateKey) (sender : PublicKey) :
    Except Err AEAD :=
  match generateShared256 L owner sender with
  | .error err => .error err
  | .ok secret =>
    match deriveKey L secret with
    | .error err => .error err
    | .ok key => L.NewX key

/-- `encrypt`: the nonce is read from the random source, the result is the
nonce followed by the sealed data. -/
def encrypt (L : Lib σ BT ST PP) (owner : PrivateKey) (sender : PublicKey) (data : Bytes)
    (s : σ) : Except Err (Bytes × σ) :=
  match getCipher L owner sender with
  | .error err => .error err
  | .ok enc =>
    match L.randRead enc.NonceSize s with
    | .error err => .error err
    | .ok (nonce, s1) => .ok (nonce ++ enc.Seal nonce data [], s1)

/-- `decrypt`. -/
def decrypt (L : Lib σ BT ST PP) (owner : PrivateKey) (sender : PublicKey) (data : Bytes) :
    Except Err Bytes :=
  match getCipher L owner sender with
  | .error err => .error err
  | .ok dec =>
    if data.length < dec.NonceSize then
      .error (Err.wrongDataSize data.length dec.NonceSize)
    else
      dec.Open (data.take dec.NonceSize) (data.drop dec.NonceSize) []

/-- `generateSecret`. -/
def generateSecret (L : Lib σ BT ST PP) (s : σ) : Except Err (Bytes × σ) :=
  L.randRead 32 s

/-- `encodeGate`. -/
def encodeGate (L : Lib σ BT ST PP) (ephemeralKey : PrivateKey) (ownerKey : PublicKey)
    (tokens : Tokens) (s : σ) : Except Err (AccessBox_Gate × σ) :=
  match L.marshalTokens tokens with
  | .error err => .error err
  | .ok data =>
    match encrypt L ephemeralKey ownerKey data s with
    | .error err => .error err
    | .ok (encrypted, s1) =>
      .ok ({ GatePublicKey := L.PublicKeyBytes ownerKey, Tokens := encrypted }, s1)

/-- `decodeGate`. -/
def decodeGate (L : Lib σ BT ST PP) (gate : AccessBox_Gate) (owner : PrivateKey)
    (sender : PublicKey) : Except Err (GateData BT ST) :=
  match decrypt L owner sender gate.Tokens with
  | .error err => .error err
  | .ok data =>
    match L.unmarshalTokens data with
    | .error err => .error err
    | .ok tokens =>
      match L.bearerUnmarshal tokens.BearerToken with
      | .error err => .error err
      | .ok bearerTkn =>
        match L.sessionUnmarshal tokens.SessionToken with
        | .error err => .error err
        | .ok sessionTkn =>
          let gateData : GateData BT ST := NewGateData owner.PublicKey bearerTkn
          .ok { gateData with
                SessionToken := some sessionTkn
                AccessKey := hexEncodeToString tokens.AccessKey }

/-- Serialisation of the optional session token in `addTokens`: a nil token
leaves `encSession` nil. -/
def encSessionOf (L : Lib σ BT ST PP) : Option ST → Except Err Bytes
  | none => .ok []
  | some st => L.sessionMarshal st

/-- The loop of `addTokens` from index `i` on; `x` is the box built so far. -/
def addTokensLoop (L : Lib σ BT ST PP) (ephemeralKey : PrivateKey) (secret : Bytes) :
    Nat → List (GateData BT ST) → AccessBox → σ → Except Err (AccessBox × σ)
  | _, [], x, s => .ok (x, s)
  | i, gate :: rest, x, s =>
    match L.bearerMarshal gate.BearerToken with
    | .error err => .error (Err.sender err i)
    | .ok encBearer =>
      match encSessionOf L gate.SessionToken with
      | .error err => .error (Err.sender err i)
      | .ok encSession =>
        let tokens : Tokens :=
          { AccessKey := secret, BearerToken := encBearer, SessionToken := encSession }
        match encodeGate L ephemeralKey gate.GateKey tokens s with
        | .error err => .error err
        | .ok (boxGate, s1) =>
          addTokensLoop L ephemeralKey secret (i + 1) rest
            { x with Gates := x.Gates ++ [boxGate] } s1

/-- `(*AccessBox).addTokens`. -/
def AccessBox.addTokens (L : Lib σ BT ST PP) (x : AccessBox) (gatesData : List (GateData BT ST))
    (ephemeralKey : PrivateKey) (secret : Bytes) (s : σ) : Except Err (AccessBox × σ) :=
  addTokensLoop L ephemeralKey secret 0 gatesData x s

/-- `PackTokens`: on success the box, the secrets and the new state of the
random source; on failure only the error (box and secrets are nil). -/
def PackTokens (L : Lib σ BT ST PP) (gatesData : List (GateData BT ST)) (s : σ) :
    Except Err (AccessBox × Secrets × σ) :=
  match L.NewPrivateKey s with
  | .error err => .error err
  | .ok (ephemeralKey, s1) =>
    let box : AccessBox :=
      { OwnerPublicKey := L.PublicKeyBytes ephemeralKey.PublicKey
        Gates := []
        ContainerPolicy := [] }
    match generateSecret L s1 with
    | .error err => .error (Err.failedToGenerateAccessKey err)
    | .ok (secret, s2) =>
      match box.addTokens L gatesData ephemeralKey secret s2 with
      | .error err => .error (Err.failedToAddTokens err)
      | .ok (box1, s3) =>
        .ok (box1, { AccessKey := hexEncodeToString secret, EphemeralKey := ephemeralKey }, s3)

/-- The loop of `(*AccessBox).GetTokens` over the gates. -/
def getTokensLoop (L : Lib σ BT ST PP) (owner : PrivateKey) (sender : PublicKey)
    (ownerKey : Bytes) : List AccessBox_Gate → Except Err (GateData BT ST)
  | [] => .error (Err.noGateData ownerKey)
  | gate :: rest =>
    if gate.GatePublicKey ≠ ownerKey then getTokensLoop L owner sender ownerKey rest
    else
      match decodeGate L gate owner sender with
      | .error err => .error (Err.failedToDecodeGate err)
      | .ok gateData => .ok gateData

/-- `(*AccessBox).GetTokens`. -/
def AccessBox.GetTokens (L : Lib σ BT ST PP) (x : AccessBox) (owner : PrivateKey) :
    Except Err (GateData BT ST) :=
  match L.NewPublicKeyFromBytes x.OwnerPublicKey Curve.P256 with
  | .error err => .error (Err.unmarshalOwnerPublicKey err)
  | .ok sender =>
    getTokensLoop L owner sender (L.PublicKeyBytes owner.PublicKey) x.Gates

/-- The loop of `(*AccessBox).GetPlacementPolicy`; `result` is the list built
so far. -/
def getPlacementPolicyLoop (L : Lib σ BT ST PP) :
    List AccessBox_ContainerPolicy → List (ContainerPolicy PP) →
      Except Err (List (ContainerPolicy PP))
  | [], result => .ok result
  | policy :: rest, result =>
    match L.policyUnmarshal policy.Policy with
    | .error err => .error err
    | .ok placementPolicy =>
      getPlacementPolicyLoop L rest
        (result ++ [{ LocationConstraint := policy.LocationConstraint
                      Policy := placementPolicy }])

/-- `(*AccessBox).GetPlacementPolicy`. -/
def AccessBox.GetPlacementPolicy (L : Lib σ BT ST PP) (x : AccessBox) :
    Except Err (List (AccessBoxModel.ContainerPolicy PP)) :=
  getPlacementPolicyLoop L x.ContainerPolicy []

/-- `(*AccessBox).GetBox`. -/
def AccessBox.GetBox (L : Lib σ BT ST PP) (x : AccessBox) (owner : PrivateKey) :
    Except Err (Box BT ST PP) :=
  match x.GetTokens L owner with
  | .error err => .error err
  | .ok tokens =>
    match x.GetPlacementPolicy L with
    | .error err => .error err
    | .ok policy => .ok { Gate := tokens, Policies := policy }

end accessbox

/-! ## Package tokens -/

section tokens

/-- Value of type `cid.ID`. -/
abbrev ContainerID := Bytes

/-- Value of type `object.ID`. -/
abbrev ObjectID := Bytes

/-- Value of type `owner.ID`. -/
abbrev OwnerID := Bytes

/-- Value of type `object.Address`. -/
structure Address where
  ContainerID : ContainerID
  ObjectID : ObjectID
  deriving DecidableEq, Repr

/-- Value of type `object.Attribute`. -/
structure Attribute where
  Key : String
  Value : String
  deriving DecidableEq, Repr

/-- The constant `object.AttributeTimestamp`. -/
def AttributeTimestamp : String := "Timestamp"

/-- The constant `object.AttributeFileName`. -/
def AttributeFileName : String := "FileName"

/-- The fields of `object.RawObject` that `Put` sets. -/
structure RawObject where
  ContainerID : ContainerID
  OwnerID : OwnerID
  Attributes : List Attribute
  deriving DecidableEq, Repr

/-- Value of type `client.PutObjectParams`: the object and the bytes of the
payload reader. -/
structure PutObjectParams where
  Object : RawObject
  Payload : Bytes
  deriving DecidableEq, Repr

/-- The two methods of `pool.Pool` the package calls, as transformers of the
backend state `β`.  `GetObject` returns the bytes it writes to the payload
writer. -/
structure Pool (β : Type) where
  GetObject : β → Address → Except Err Bytes × β
  PutObject : β → PutObjectParams → Except Err ObjectID × β

/-- The struct `cred`. -/
structure cred (β : Type) where
  key : PrivateKey
  pool : Pool β

/-- Everything `cred` reads and writes outside its arguments: the backend and
the package-level `bufferPool` (each buffer is its unread bytes). -/
structure World (β : Type) where
  backend : β
  bufferPool : List Bytes

/-- `strconv.FormatInt(t, 10)`. -/
def formatInt (t : Int) : String :=
  if t < 0 then "-" ++ Nat.repr t.natAbs else Nat.repr t.natAbs

variable {σ BT ST PP β : Type}

/-- `(*cred).acquireBuffer`: `bufferPool.Get()` takes a buffer out of the pool,
or makes a new empty one when the pool has none. -/
def cred.acquireBuffer (_c : cred β) (w : World β) : Bytes × World β :=
  match w.bufferPool with
  | [] => ([], w)
  | buf :: rest => (buf, { w with bufferPool := rest })

/-- `(*bytes.Buffer).Reset`. -/
def bufferReset (_buf : Bytes) : Bytes := []

/-- `(*cred).releaseBuffer`: reset, then `bufferPool.Put`. -/
def cred.releaseBuffer (_c : cred β) (buf : Bytes) (w : World β) : World β :=
  { w with bufferPool := bufferReset buf :: w.bufferPool }

/-- `(*cred).getAccessBox`; the deferred `releaseBuffer` runs on every return. -/
def cred.getAccessBox (L : Lib σ BT ST PP) (c : cred β) (address : Address) (w : World β) :
    Except Err AccessBox × World β :=
  let (buf, w1) := c.acquireBuffer w
  match c.pool.GetObject w1.backend address with
  | (.error err, b) => (.error err, c.releaseBuffer buf { w1 with backend := b })
  | (.ok payload, b) =>
    let buf1 := buf ++ payload
    match L.unmarshalAccessBox buf1 with
    | .error err => (.error err, c.releaseBuffer buf1 { w1 with backend := b })
    | .ok box => (.ok box, c.releaseBuffer buf1 { w1 with backend := b })

/-- `(*cred).GetTokens`. -/
def cred.GetTokens (L : Lib σ BT ST PP) (c : cred β) (address : Address) (w : World β) :
    Except Err (GateData BT ST) × World β :=
  match c.getAccessBox L address w with
  | (.error err, w1) => (.error err, w1)
  | (.ok box, w1) => (box.GetTokens L c.key, w1)

/-- `(*cred).GetBox`. -/
def cred.GetBox (L : Lib σ BT ST PP) (c : cred β) (address : Address) (w : World β) :
    Except Err (Box BT ST PP) × World β :=
  match c.getAccessBox L address w with
  | (.error err, w1) => (.error err, w1)
  | (.ok box, w1) => (box.GetBox L c.key, w1)

/-- `(*cred).Put`; `now` is the reading `time.Now().Unix()`, a nil `box` is
`none`, `keys` is the variadic argument. -/
def cred.Put (L : Lib σ BT ST PP) (c : cred β) (now : Int) (cid : ContainerID)
    (issuer : OwnerID) (box : Option AccessBox) (keys : List PublicKey) (w : World β) :
    Except Err Address × World β :=
  let created := formatInt now
  if keys.length = 0 then (.error Err.ErrEmptyPublicKeys, w)
  else
    match box with
    | none => (.error Err.ErrEmptyBearerToken, w)
    | some box =>
      match L.marshalAccessBox box with
      | .error err => (.error err, w)
      | .ok data =>
        let timestamp : Attribute := { Key := AttributeTimestamp, Value := created }
        let filename : Attribute :=
          { Key := AttributeFileName, Value := created ++ "_access.box" }
        let raw : RawObject :=
          { ContainerID := cid, OwnerID := issuer, Attributes := [filename, timestamp] }
        match c.pool.PutObject w.backend { Object := raw, Payload := data } with
        | (.error err, b) => (.error err, { w with backend := b })
        | (.ok oid, b) => (.ok { ContainerID := cid, ObjectID := oid }, { w with backend := b })

end tokens

/-! ## Assumptions on the imported collaborators

The source relies on the following facts about the libraries it calls; none of
them is a fact about the source itself, so each theorem names the ones it
uses. -/

section laws

variable {σ BT ST PP : Type}

/-- Facts about the imported functions.  `Valid k` says that `k` is a
well-formed P-256 key pair (its public key is the base point multiplied by its
scalar). -/
structure Lib.Laws (L : Lib σ BT ST PP) (Valid : PrivateKey → Prop) : Prop where
  /-- generated keys are well-formed -/
  newKey_valid : ∀ s k s1, L.NewPrivateKey s = .ok (k, s1) → Valid k
  /-- well-formed keys live on P-256 -/
  valid_curve : ∀ k, Valid k → k.PublicKey.Curve = Curve.P256
  /-- the byte encoding of a well-formed public key decodes to that key -/
  pub_roundtrip : ∀ k, Valid k →
    L.NewPublicKeyFromBytes (L.PublicKeyBytes k.PublicKey) Curve.P256 = .ok k.PublicKey
  /-- Diffie-Hellman: both parties compute the same x-coordinate -/
  ecdh_comm : ∀ a b, Valid a → Valid b →
    L.ScalarMult Curve.P256 b.PublicKey.X b.PublicKey.Y (bigIntBytes a.D) =
      L.ScalarMult Curve.P256 a.PublicKey.X a.PublicKey.Y (bigIntBytes b.D)
  /-- a successful read fills the whole slice -/
  rand_length : ∀ n s bs s1, L.randRead n s = .ok (bs, s1) → bs.length = n
  /-- AEAD correctness: opening a sealed message under the same nonce yields
  the plaintext -/
  aead_open_seal : ∀ key a, L.NewX key = .ok a → ∀ nonce p,
    nonce.length = a.NonceSize → a.Open nonce (a.Seal nonce p []) [] = .ok p
  /-- protobuf round trip of `Tokens` -/
  tokens_roundtrip : ∀ t d, L.marshalTokens t = .ok d → L.unmarshalTokens d = .ok t
  /-- round trip of bearer tokens -/
  bearer_roundtrip : ∀ t d, L.bearerMarshal t = .ok d → L.bearerUnmarshal d = .ok t
  /-- round trip of session tokens -/
  session_roundtrip : ∀ t d, L.sessionMarshal t = .ok d → L.sessionUnmarshal d = .ok t

/-- The mask with only bit `k` set (`k < 8`). -/
def bitMask (k : Nat) : Byte := ⟨2 ^ k % 256, Nat.mod_lt _ (by decide)⟩

/-- The byte string `data` with bit `k` of byte `i` flipped. -/
def flipBit : Bytes → Nat → Nat → Bytes
  | [], _, _ => []
  | b :: rest, 0, k => (b ^^^ bitMask k) :: rest
  | b :: rest, i + 1, k => b :: flipBit rest i k

/-- Integrity of the AEAD against single-bit flips, as an idealised
assumption on the primitive: if nonce and sealed message together are changed
in one bit, `Open` rejects with the authentication error.  (For the real
primitive this holds up to a negligible forgery probability.) -/
def Lib.TamperEvident (L : Lib σ BT ST PP) : Prop :=
  ∀ key a, L.NewX key = .ok a → ∀ nonce p i k,
    nonce.length = a.NonceSize → i < (nonce ++ a.Seal nonce p []).length → k < 8 →
    a.Open ((flipBit (nonce ++ a.Seal nonce p []) i k).take a.NonceSize)
      ((flipBit (nonce ++ a.Seal nonce p []) i k).drop a.NonceSize) [] =
      .error Err.aeadAuthFailed

/-- The gate `gate` is what one iteration of `addTokens` appends for the
recipient data `g`, for some state of the random source. -/
def PackedGate (L : Lib σ BT ST PP) (ephemeralKey : PrivateKey) (secret : Bytes)
    (g : GateData BT ST) (gate : AccessBox_Gate) : Prop :=
  ∃ encBearer encSession s s1,
    L.bearerMarshal g.BearerToken = .ok encBearer ∧
    encSessionOf L g.SessionToken = .ok encSession ∧
    encodeGate L ephemeralKey g.GateKey
      { AccessKey := secret, BearerToken := encBearer, SessionToken := encSession } s =
      .ok (gate, s1)

/-- The box `x` with the sealed payload of every gate addressed to the key
bytes `ownerKey` changed in bit `k` of byte `i`. -/
def tamperGate (x : AccessBox) (ownerKey : Bytes) (i k : Nat) : AccessBox :=
  { x with
    Gates := x.Gates.map fun gate =>
      if gate.GatePublicKey = ownerKey then { gate with Tokens := flipBit gate.Tokens i k }
      else gate }

end laws

/-! ## A small concrete instance of the collaborators

Used to evaluate the definitions on concrete inputs: a multiplicative
Diffie-Hellman group modulo 251 in place of P-256, a checksum in place of the
Poly1305 tag, length-prefixed encodings in place of protobuf. -/

section toy

/-- Big-endian value of a byte string (`new(big.Int).SetBytes`). -/
def beToNat (bs : Bytes) : Nat := bs.foldl (fun acc b => acc * 256 + b.val) 0

/-- The byte `n mod 256`. -/
def byteOfNat (n : Nat) : Byte := ⟨n % 256, Nat.mod_lt _ (by decide)⟩

/-- Toy public key of the scalar `d`. -/
def toyPublicKey (d : Nat) : PublicKey :=
  { Curve := Curve.P256, X := some (5 * d % 251), Y := some 0 }

/-- Toy key pair of the scalar `d`. -/
def toyKey (d : Nat) : PrivateKey := { PublicKey := toyPublicKey d, D := d }

/-- Well-formed toy key pairs. -/
def toyValid (k : PrivateKey) : Prop := k.PublicKey = toyPublicKey k.D

/-- Toy authentication tag: the byte sum of key, nonce and plaintext, padded
to 16 bytes. -/
def toyTag (key nonce p : Bytes) : Bytes := (key ++ nonce ++ p).sum :: List.replicate 15 0

/-- Toy `Open`: checks the tag and strips it. -/
def toyOpen (key nonce c : Bytes) : Except Err Bytes :=
  if c.length < 16 then .error Err.aeadAuthFailed
  else if c.drop (c.length - 16) = toyTag key nonce (c.take (c.length - 16)) then
    .ok (c.take (c.length - 16))
  else .error Err.aeadAuthFailed

/-- Toy AEAD under `key`. -/
def toyAEAD (key : Bytes) : AEAD :=
  { NonceSize := 24
    Overhead := 16
    Seal := fun nonce p _ => p ++ toyTag key nonce p
    Open := fun nonce c _ => toyOpen key nonce c }

/-- Length-prefixed encoding of a byte string shorter than 256 bytes. -/
def lpEncode (b : Bytes) : Bytes := byteOfNat b.length :: b

/-- Splits a length-prefixed byte string off the front. -/
def lpDecode : Bytes → Option (Bytes × Bytes)
  | [] => none
  | n :: rest => if rest.length < n.val then none else some (rest.take n.val, rest.drop n.val)

/-- Toy encoding of `Tokens`. -/
def toyMarshalTokens (t : Tokens) : Except Err Bytes :=
  if t.AccessKey.length < 256 ∧ t.BearerToken.length < 256 then
    .ok (lpEncode t.AccessKey ++ (lpEncode t.BearerToken ++ t.SessionToken))
  else .error (Err.lib "field too long")

/-- Toy decoding of `Tokens`. -/
def toyUnmarshalTokens (d : Bytes) : Except Err Tokens :=
  match lpDecode d with
  | none => .error (Err.lib "malformed tokens")
  | some (accessKey, r1) =>
    match lpDecode r1 with
    | none => .error (Err.lib "malformed tokens")
    | some (bearer, session) =>
      .ok { AccessKey := accessKey, BearerToken := bearer, SessionToken := session }

/-- Bytes of a string, one byte per character. -/
def stringBytes (s : String) : Bytes := s.toList.map fun c => byteOfNat c.toNat

/-- String of a byte string, one character per byte. -/
def bytesString (b : Bytes) : String := String.mk (b.map fun x => Char.ofNat x.val)

/-- Toy encoding of the gates of a box. -/
def toyMarshalGates : List AccessBox_Gate → Bytes
  | [] => []
  | g :: rest => lpEncode g.GatePublicKey ++ (lpEncode g.Tokens ++ toyMarshalGates rest)

/-- Toy encoding of the container policies of a box. -/
def toyMarshalPolicies : List AccessBox_ContainerPolicy → Bytes
  | [] => []
  | p :: rest =>
    lpEncode (stringBytes p.LocationConstraint) ++ (lpEncode p.Policy ++ toyMarshalPolicies rest)

/-- Toy encoding of `AccessBox`. -/
def toyMarshalAccessBox (x : AccessBox) : Except Err Bytes :=
  .ok (lpEncode x.OwnerPublicKey ++
    (byteOfNat x.Gates.length :: (toyMarshalGates x.Gates ++
      (byteOfNat x.ContainerPolicy.length :: toyMarshalPolicies x.ContainerPolicy))))

/-- Toy decoding of `n` gates. -/
def toyParseGates : Nat → Bytes → Option (List AccessBox_Gate × Bytes)
  | 0, bs => some ([], bs)
  | n + 1, bs =>
    match lpDecode bs with
    | none => none
    | some (key, r1) =>
      match lpDecode r1 with
      | none => none
      | some (tokens, r2) =>
        match toyParseGates n r2 with
        | none => none
        | some (gates, r3) => some ({ GatePublicKey := key, Tokens := tokens } :: gates, r3)

/-- Toy decoding of `n` container policies. -/
def toyParsePolicies : Nat → Bytes → Option (List AccessBox_ContainerPolicy × Bytes)
  | 0, bs => some ([], bs)
  | n + 1, bs =>
    match lpDecode bs with
    | none => none
    | some (loc, r1) =>
      match lpDecode r1 with
      | none => none
      | some (policy, r2) =>
        match toyParsePolicies n r2 with
        | none => none
        | some (policies, r3) =>
          some ({ LocationConstraint := bytesString loc, Policy := policy } :: policies, r3)

/-- Toy decoding of `AccessBox`. -/
def toyUnmarshalAccessBox (d : Bytes) : Except Err AccessBox :=
  match lpDecode d with
  | none => .error (Err.lib "malformed access box")
  | some (_, []) => .error (Err.lib "malformed access box")
  | some (owner, n :: r1) =>
    match toyParseGates n.val r1 with
    | none => .error (Err.lib "malformed access box")
    | some (_, []) => .error (Err.lib "malformed access box")
    | some (gates, m :: r2) =>
      match toyParsePolicies m.val r2 with
      | none => .error (Err.lib "malformed access box")
      | some (policies, _) =>
        .ok { OwnerPublicKey := owner, Gates := gates, ContainerPolicy := policies }

/-- Toy placement policy decoding: a policy is its bytes, and bytes starting
with 255 are malformed. -/
def toyPolicyUnmarshal (d : Bytes) : Except Err Bytes :=
  if d.head? = some 255 then .error (Err.lib "malformed placement policy") else .ok d

/-- Toy decoding of a public key: the tag byte 2 followed by the x-coordinate;
as in the key library, the single byte 0 is the encoding of the point at
infinity and decodes, without error, to the key with nil coordinates. -/
def toyNewPublicKeyFromBytes : Bytes → Curve → Except Err PublicKey
  | [t, x], Curve.P256 =>
    if t = 2 then .ok { Curve := Curve.P256, X := some x.val, Y := some 0 }
    else .error (Err.lib "invalid public key")
  | [t], Curve.P256 =>
    if t = 0 then .ok { Curve := Curve.P256, X := none, Y := none }
    else .error (Err.lib "invalid public key")
  | _, _ => .error (Err.lib "invalid public key")

/-- Toy encoding of a public key: the single byte 0 for the key with nil
coordinates, else the tag byte 2 followed by the x-coordinate. -/
def toyPublicKeyBytes (pk : PublicKey) : Bytes :=
  match pk.X with
  | some x => [2, byteOfNat x]
  | none => [0]

/-- Toy scalar multiplication in the group of integers modulo 251, whose
neutral element has the coordinate 0; like the curves of the standard library
it never returns a nil coordinate, and it dereferences its arguments. -/
def toyScalarMult (x y : Option Nat) (k : Bytes) : ScalarResult :=
  match x, y with
  | some x, some _ => .returns (some (x * beToNat k % 251))
  | _, _ => .panics

/-- The toy collaborators.  The random source is a counter; tokens and
placement policies are byte strings serialised as themselves. -/
def toyLib : Lib Nat Bytes Bytes Bytes :=
  { NewPrivateKey := fun s => .ok (toyKey (s % 250 + 1), s + 1)
    randRead := fun n s => .ok (List.replicate n (byteOfNat s), s + 1)
    PublicKeyBytes := toyPublicKeyBytes
    NewPublicKeyFromBytes := toyNewPublicKeyFromBytes
    ScalarMult := fun _ x y k => toyScalarMult x y k
    hkdfRead := fun secret n => .ok ((secret ++ List.replicate n 0).take n)
    NewX := fun key =>
      if key.length = 32 then .ok (toyAEAD key) else .error (Err.lib "bad key length")
    marshalTokens := toyMarshalTokens
    unmarshalTokens := toyUnmarshalTokens
    marshalAccessBox := toyMarshalAccessBox
    unmarshalAccessBox := toyUnmarshalAccessBox
    bearerMarshal := fun t => .ok t
    bearerUnmarshal := fun d => .ok d
    sessionMarshal := fun t => .ok t
    sessionUnmarshal := fun d => .ok d
    policyUnmarshal := toyPolicyUnmarshal }

/-- Toy backend: the stored payloads, newest first; object `i` is identified
by the one-byte id `i`. -/
def toyPool : Pool (List (Address × Bytes)) :=
  { GetObject := fun b address =>
      match b.lookup address with
      | none => (.error (Err.lib "object not found"), b)
      | some payload => (.ok payload, b)
    PutObject := fun b params =>
      (.ok [byteOfNat b.length],
        ({ ContainerID := params.Object.ContainerID, ObjectID := [byteOfNat b.length] },
          params.Payload) :: b) }

/-- First toy recipient: a bearer token and a session token. -/
def toyGate1 : GateData Bytes Bytes :=
  { AccessKey := "", BearerToken := [1, 2, 3], SessionToken := some [9],
    GateKey := toyPublicKey 7 }

/-- Second toy recipient: a bearer token and no session token. -/
def toyGate2 : GateData Bytes Bytes :=
  { AccessKey := "", BearerToken := [4], SessionToken := none, GateKey := toyPublicKey 11 }

/-- The box `PackTokens` builds for the two toy recipients from the random
state 0: nonce, length-prefixed tokens, tag. -/
def toyBox : AccessBox :=
  { OwnerPublicKey := [2, 5]
    Gates :=
      [{ GatePublicKey := [2, 35]
         Tokens := List.replicate 24 2 ++ (32 :: List.replicate 32 1 ++ [3, 1, 2, 3, 9]) ++
           (165 :: List.replicate 15 0) },
       { GatePublicKey := [2, 55]
         Tokens := List.replicate 24 3 ++ (32 :: List.replicate 32 1 ++ [1, 4]) ++
           (196 :: List.replicate 15 0) }]
    ContainerPolicy := [] }

/-- The secrets `PackTokens` returns with `toyBox`. -/
def toySecrets : Secrets :=
  { AccessKey := "0101010101010101010101010101010101010101010101010101010101010101"
    EphemeralKey := toyKey 1 }

/-- The toy box with two well-formed container policies attached. -/
def toyBoxPolicies : AccessBox :=
  { toyBox with
    ContainerPolicy :=
      [{ LocationConstraint := "ru", Policy := [1, 2] },
       { LocationConstraint := "eu", Policy := [3] }] }

/-- The toy box with a well-formed and a malformed container policy attached. -/
def toyBoxBadPolicy : AccessBox :=
  { toyBox with
    ContainerPolicy :=
      [{ LocationConstraint := "ru", Policy := [1, 2] },
       { LocationConstraint := "eu", Policy := [255] }] }

/-- The toy collaborators with an AEAD whose `Open` accepts every message. -/
def toyLibOpenAll : Lib Nat Bytes Bytes Bytes :=
  { toyLib with
    NewX := fun key => .ok { toyAEAD key with Open := fun _ c _ => .ok c } }

/-- A credential store of the second toy recipient over the toy backend. -/
def toyCred : cred (List (Address × Bytes)) := { key := toyKey 11, pool := toyPool }

/-- The world after `toyBoxBadPolicy` was stored in an empty backend. -/
def toyWorldBadPolicy : World (List (Address × Bytes)) :=
  (toyCred.Put toyLib 1700000000 [7] [8] (some toyBoxBadPolicy) [toyPublicKey 11]
    { backend := [], bufferPool := [] }).2

/-- The address `Put` returned for `toyWorldBadPolicy`. -/
def toyAddress : Address := { ContainerID := [7], ObjectID := [0] }

end toy

/-! ## The results of `PackTokens` as Go returns them -/

section goResults

variable {σ BT ST PP : Type}

/-- The loop of `addTokens` with its receiver as Go has it: the receiver is
changed in place, so the gates appended before a failing iteration stay in it.
Results: the receiver, the returned error (`none` is nil) and the state of the
random source. -/
def addTokensGo (L : Lib σ BT ST PP) (ephemeralKey : PrivateKey) (secret : Bytes) :
    Nat → List (GateData BT ST) → AccessBox → σ → AccessBox × Option Err × σ
  | _, [], x, s => (x, none, s)
  | i, gate :: rest, x, s =>
    match L.bearerMarshal gate.BearerToken with
    | .error err => (x, some (Err.sender err i), s)
    | .ok encBearer =>
      match encSessionOf L gate.SessionToken with
      | .error err => (x, some (Err.sender err i), s)
      | .ok encSession =>
        match encodeGate L ephemeralKey gate.GateKey
            { AccessKey := secret, BearerToken := encBearer, SessionToken := encSession } s with
        | .error err => (x, some err, s)
        | .ok (boxGate, s1) =>
          addTokensGo L ephemeralKey secret (i + 1) rest
            { x with Gates := x.Gates ++ [boxGate] } s1

/-- `PackTokens` with the three results Go returns: the box pointer, the
secrets pointer and the error (`none` is nil). -/
def PackTokensGo (L : Lib σ BT ST PP) (gatesData : List (GateData BT ST)) (s : σ) :
    Option AccessBox × Option Secrets × Option Err :=
  match L.NewPrivateKey s with
  | .error err => (none, none, some err)
  | .ok (ephemeralKey, s1) =>
    let box : AccessBox :=
      { OwnerPublicKey := L.PublicKeyBytes ephemeralKey.PublicKey
        Gates := []
        ContainerPolicy := [] }
    match generateSecret L s1 with
    | .error err => (none, none, some (Err.failedToGenerateAccessKey err))
    | .ok (secret, s2) =>
      match addTokensGo L ephemeralKey secret 0 gatesData box s2 with
      | (_, some err, _) => (none, none, some (Err.failedToAddTokens err))
      | (box1, none, _) =>
        (some box1,
          some { AccessKey := hexEncodeToString secret, EphemeralKey := ephemeralKey }, none)

/-- Some step of the iteration of `addTokens` for the recipient `g` at index
`i` fails in the random state `s`, and `err` is the error `addTokens` returns
for it: serialising the bearer token, serialising the session token,
serialising the `Tokens`, building the cipher (key agreement, key derivation,
cipher construction), or reading the nonce for sealing. -/
def GateStepFails (L : Lib σ BT ST PP) (ephemeralKey : PrivateKey) (secret : Bytes) (i : Nat)
    (g : GateData BT ST) (s : σ) (err : Err) : Prop :=
  (∃ e, L.bearerMarshal g.BearerToken = .error e ∧ err = Err.sender e i) ∨
  (∃ encBearer e, L.bearerMarshal g.BearerToken = .ok encBearer ∧
    encSessionOf L g.SessionToken = .error e ∧ err = Err.sender e i) ∨
  (∃ encBearer encSession, L.bearerMarshal g.BearerToken = .ok encBearer ∧
    encSessionOf L g.SessionToken = .ok encSession ∧
    (L.marshalTokens
        { AccessKey := secret, BearerToken := encBearer, SessionToken := encSession } =
        .error err ∨
      ∃ data, L.marshalTokens
          { AccessKey := secret, BearerToken := encBearer, SessionToken := encSession } =
          .ok data ∧
        (getCipher L ephemeralKey g.GateKey = .error err ∨
          ∃ enc, getCipher L ephemeralKey g.GateKey = .ok enc ∧
            L.randRead enc.NonceSize s = .error err)))

/-- The key `getCipher` hands to `chacha20poly1305.NewX`: the shared secret
of `generateShared256` put through `deriveKey`. -/
def getCipherKey (L : Lib σ BT ST PP) (owner : PrivateKey) (sender : PublicKey) :
    Except Err Bytes :=
  match generateShared256 L owner sender with
  | .error err => .error err
  | .ok secret => deriveKey L secret

/-- Sizes of the AEAD that `chacha20poly1305.NewX` returns: a 24-byte nonce,
a 16-byte tag, and a sealed message that is the plaintext length plus the
tag. -/
def Lib.XChaChaShape (L : Lib σ BT ST PP) : Prop :=
  ∀ key a, L.NewX key = .ok a →
    a.NonceSize = 24 ∧ a.Overhead = 16 ∧
      ∀ nonce p ad, (a.Seal nonce p ad).length = p.length + a.Overhead

/-- The only error `Open` of the AEAD returns is the authentication error. -/
def Lib.OpenErrors (L : Lib σ BT ST PP) : Prop :=
  ∀ key a, L.NewX key = .ok a → ∀ nonce c ad err,
    a.Open nonce c ad = .error err → err = Err.aeadAuthFailed

end goResults

section toyValues

/-- A toy recipient whose bearer token is too long for the toy `Tokens`
encoding. -/
def toyGateLong : GateData Bytes Bytes :=
  { AccessKey := "", BearerToken := List.replicate 256 0, SessionToken := none,
    GateKey := toyPublicKey 13 }

/-- The toy box with the sealed payload of the first gate cut to 10 bytes. -/
def toyBoxTruncated : AccessBox :=
  { toyBox with
    Gates := [{ GatePublicKey := [2, 35], Tokens := List.replicate 10 2 }] }

/-- The toy box with the sealed payload of the first gate cut to its nonce. -/
def toyBoxNonceOnly : AccessBox :=
  { toyBox with
    Gates := [{ GatePublicKey := [2, 35], Tokens := List.replicate 24 2 }] }

/-- A box whose owner key is not the encoding of a public key, with no gate. -/
def toyBoxBadOwner : AccessBox :=
  { OwnerPublicKey := [9], Gates := [], ContainerPolicy := [] }

/-- The toy collaborators with a curve whose scalar multiplication always
returns a nil coordinate. -/
def toyLibNoPoint : Lib Nat Bytes Bytes Bytes :=
  { toyLib with ScalarMult := fun _ _ _ _ => .returns none }

/-- A world over the toy backend of `toyWorldBadPolicy` whose buffer pool
holds two empty buffers. -/
def toyWorldTwoBuffers : World (List (Address × Bytes)) :=
  { toyWorldBadPolicy with bufferPool := [[], []] }

end toyValues

section lastSittingValues

variable {σ BT ST PP : Type}

/-- The x-coordinates that scalar multiplication on P-256 returns are field
elements, hence below 2^256. -/
def Lib.P256Coordinates (L : Lib σ BT ST PP) : Prop :=
  ∀ x y k r, L.ScalarMult Curve.P256 x y k = .returns (some r) → r < 2 ^ 256

/-- The toy box with a damaged copy of the first gate put in front of the
gates: two gates are addressed to the first recipient, and only the second of
them opens. -/
def toyBoxShadowed : AccessBox :=
  { toyBox with Gates := (tamperGate toyBox [2, 35] 30 2).Gates.take 1 ++ toyBox.Gates }

end lastSittingValues

/-! ## Package errors -/

namespace errors

/-- The type `ErrorCode` (an `int`). -/
abbrev ErrorCode := Int

/-- The struct `Error`: an API error. -/
structure Error where
  ErrCode : ErrorCode
  Code : String
  Description : String
  HTTPStatusCode : Int
  deriving DecidableEq, Repr

/-- The constant `maxEConfigJSONSize`. -/
def maxEConfigJSONSize : Nat := 262272

/-! The error codes, numbered by `iota` from 1. -/

def ErrAccessDenied : ErrorCode := 1
def ErrBadDigest : ErrorCode := 2
def ErrEntityTooSmall : ErrorCode := 3
def ErrEntityTooLarge : ErrorCode := 4
def ErrPolicyTooLarge : ErrorCode := 5
def ErrIllegalVersioningConfigurationException : ErrorCode := 6
def ErrIncompleteBody : ErrorCode := 7
def ErrInternalError : ErrorCode := 8
def ErrInvalidAccessKeyID : ErrorCode := 9
def ErrInvalidBucketName : ErrorCode := 10
def ErrInvalidDigest : ErrorCode := 11
def ErrInvalidRange : ErrorCode := 12
def ErrInvalidCopyPartRange : ErrorCode := 13
def ErrInvalidCopyPartRangeSource : ErrorCode := 14
def ErrInvalidMaxKeys : ErrorCode := 15
def ErrInvalidEncodingMethod : ErrorCode := 16
def ErrInvalidMaxUploads : ErrorCode := 17
def ErrInvalidMaxParts : ErrorCode := 18
def ErrInvalidPartNumberMarker : ErrorCode := 19
def ErrInvalidRequestBody : ErrorCode := 20
def ErrInvalidCopySource : ErrorCode := 21
def ErrInvalidMetadataDirective : ErrorCode := 22
def ErrInvalidCopyDest : ErrorCode := 23
def ErrInvalidPolicyDocument : ErrorCode := 24
def ErrInvalidObjectState : ErrorCode := 25
def ErrMalformedXML : ErrorCode := 26
def ErrMissingContentLength : ErrorCode := 27
def ErrMissingContentMD5 : ErrorCode := 28
def ErrMissingRequestBodyError : ErrorCode := 29
def ErrMissingSecurityHeader : ErrorCode := 30
def ErrNoSuchBucket : ErrorCode := 31
def ErrNoSuchBucketPolicy : ErrorCode := 32
def ErrNoSuchBucketLifecycle : ErrorCode := 33
def ErrNoSuchLifecycleConfiguration : ErrorCode := 34
def ErrNoSuchBucketSSEConfig : ErrorCode := 35
def ErrNoSuchCORSConfiguration : ErrorCode := 36
def ErrNoSuchWebsiteConfiguration : ErrorCode := 37
def ErrReplicationConfigurationNotFoundError : ErrorCode := 38
def ErrNoSuchKey : ErrorCode := 39
def ErrNoSuchUpload : ErrorCode := 40
def ErrNoSuchVersion : ErrorCode := 41
def ErrInvalidVersion : ErrorCode := 42
def ErrInvalidArgument : ErrorCode := 43
def ErrInvalidTagKey : ErrorCode := 44
def ErrInvalidTagValue : ErrorCode := 45
def ErrInvalidTagsSizeExceed : ErrorCode := 46
def ErrNotImplemented : ErrorCode := 47
def ErrPreconditionFailed : ErrorCode := 48
def ErrNotModified : ErrorCode := 49
def ErrRequestTimeTooSkewed : ErrorCode := 50
def ErrSignatureDoesNotMatch : ErrorCode := 51
def ErrMethodNotAllowed : ErrorCode := 52
def ErrInvalidPart : ErrorCode := 53
def ErrInvalidPartOrder : ErrorCode := 54
def ErrAuthorizationHeaderMalformed : ErrorCode := 55
def ErrMalformedPOSTRequest : ErrorCode := 56
def ErrPOSTFileRequired : ErrorCode := 57
def ErrSignatureVersionNotSupported : ErrorCode := 58
def ErrBucketNotEmpty : ErrorCode := 59
def ErrAllAccessDisabled : ErrorCode := 60
def ErrMalformedPolicy : ErrorCode := 61
def ErrMissingFields : ErrorCode := 62
def ErrMissingCredTag : ErrorCode := 63
def ErrCredMalformed : ErrorCode := 64
def ErrInvalidRegion : ErrorCode := 65
def ErrInvalidServiceS3 : ErrorCode := 66
def ErrInvalidServiceSTS : ErrorCode := 67
def ErrInvalidRequestVersion : ErrorCode := 68
def ErrMissingSignTag : ErrorCode := 69
def ErrMissingSignHeadersTag : ErrorCode := 70
def ErrMalformedDate : ErrorCode := 71
def ErrMalformedPresignedDate : ErrorCode := 72
def ErrMalformedCredentialDate : ErrorCode := 73
def ErrMalformedCredentialRegion : ErrorCode := 74
def ErrMalformedExpires : ErrorCode := 75
def ErrNegativeExpires : ErrorCode := 76
def ErrAuthHeaderEmpty : ErrorCode := 77
def ErrExpiredPresignRequest : ErrorCode := 78
def ErrRequestNotReadyYet : ErrorCode := 79
def ErrUnsignedHeaders : ErrorCode := 80
def ErrMissingDateHeader : ErrorCode := 81
def ErrInvalidQuerySignatureAlgo : ErrorCode := 82
def ErrInvalidQueryParams : ErrorCode := 83
def ErrBucketAlreadyOwnedByYou : ErrorCode := 84
def ErrInvalidDuration : ErrorCode := 85
def ErrBucketAlreadyExists : ErrorCode := 86
def ErrMetadataTooLarge : ErrorCode := 87
def ErrUnsupportedMetadata : ErrorCode := 88
def ErrMaximumExpires : ErrorCode := 89
def ErrSlowDown : ErrorCode := 90
def ErrInvalidPrefixMarker : ErrorCode := 91
def ErrBadRequest : ErrorCode := 92
def ErrKeyTooLongError : ErrorCode := 93
def ErrInvalidBucketObjectLockConfiguration : ErrorCode := 94
def ErrObjectLockConfigurationNotFound : ErrorCode := 95
def ErrObjectLockConfigurationNotAllowed : ErrorCode := 96
def ErrNoSuchObjectLockConfiguration : ErrorCode := 97
def ErrObjectLocked : ErrorCode := 98
def ErrInvalidRetentionDate : ErrorCode := 99
def ErrPastObjectLockRetainDate : ErrorCode := 100
def ErrUnknownWORMModeDirective : ErrorCode := 101
def ErrBucketTaggingNotFound : ErrorCode := 102
def ErrObjectLockInvalidHeaders : ErrorCode := 103
def ErrInvalidTagDirective : ErrorCode := 104
def ErrNotSupported : ErrorCode := 105
def ErrInvalidEncryptionMethod : ErrorCode := 106
def ErrInsecureSSECustomerRequest : ErrorCode := 107
def ErrSSEMultipartEncrypted : ErrorCode := 108
def ErrSSEEncryptedObject : ErrorCode := 109
def ErrInvalidEncryptionParameters : ErrorCode := 110
def ErrInvalidSSECustomerAlgorithm : ErrorCode := 111
def ErrInvalidSSECustomerKey : ErrorCode := 112
def ErrMissingSSECustomerKey : ErrorCode := 113
def ErrMissingSSECustomerKeyMD5 : ErrorCode := 114
def ErrSSECustomerKeyMD5Mismatch : ErrorCode := 115
def ErrInvalidSSECustomerParameters : ErrorCode := 116
def ErrIncompatibleEncryptionMethod : ErrorCode := 117
def ErrKMSNotConfigured : ErrorCode := 118
def ErrKMSAuthFailure : ErrorCode := 119
def ErrNoAccessKey : ErrorCode := 120
def ErrInvalidToken : ErrorCode := 121
def ErrEventNotification : ErrorCode := 122
def ErrARNNotification : ErrorCode := 123
def ErrRegionNotification : ErrorCode := 124
def ErrOverlappingFilterNotification : ErrorCode := 125
def ErrFilterNameInvalid : ErrorCode := 126
def ErrFilterNamePrefix : ErrorCode := 127
def ErrFilterNameSuffix : ErrorCode := 128
def ErrFilterValueInvalid : ErrorCode := 129
def ErrOverlappingConfigs : ErrorCode := 130
def ErrUnsupportedNotification : ErrorCode := 131
def ErrContentSHA256Mismatch : ErrorCode := 132
def ErrParentIsObject : ErrorCode := 133
def ErrStorageFull : ErrorCode := 134
def ErrRequestBodyParse : ErrorCode := 135
def ErrObjectExistsAsDirectory : ErrorCode := 136
def ErrInvalidObjectName : ErrorCode := 137
def ErrInvalidObjectNamePrefixSlash : ErrorCode := 138
def ErrInvalidResourceName : ErrorCode := 139
def ErrServerNotInitialized : ErrorCode := 140
def ErrOperationTimedOut : ErrorCode := 141
def ErrOperationMaxedOut : ErrorCode := 142
def ErrInvalidRequest : ErrorCode := 143
def ErrInvalidStorageClass : ErrorCode := 144
def ErrBackendDown : ErrorCode := 145
def ErrMalformedJSON : ErrorCode := 146
def ErrAdminNoSuchUser : ErrorCode := 147
def ErrAdminNoSuchGroup : ErrorCode := 148
def ErrAdminGroupNotEmpty : ErrorCode := 149
def ErrAdminNoSuchPolicy : ErrorCode := 150
def ErrAdminInvalidArgument : ErrorCode := 151
def ErrAdminInvalidAccessKey : ErrorCode := 152
def ErrAdminInvalidSecretKey : ErrorCode := 153
def ErrAdminConfigNoQuorum : ErrorCode := 154
def ErrAdminConfigTooLarge : ErrorCode := 155
def ErrAdminConfigBadJSON : ErrorCode := 156
def ErrAdminConfigDuplicateKeys : ErrorCode := 157
def ErrAdminCredentialsMismatch : ErrorCode := 158
def ErrInsecureClientRequest : ErrorCode := 159
def ErrObjectTampered : ErrorCode := 160
def ErrAdminBucketQuotaExceeded : ErrorCode := 161
def ErrAdminNoSuchQuotaConfiguration : ErrorCode := 162
def ErrAdminBucketQuotaDisabled : ErrorCode := 163
def ErrHealNotImplemented : ErrorCode := 164
def ErrHealNoSuchProcess : ErrorCode := 165
def ErrHealInvalidClientToken : ErrorCode := 166
def ErrHealMissingBucket : ErrorCode := 167
def ErrHealAlreadyRunning : ErrorCode := 168
def ErrHealOverlappingPaths : ErrorCode := 169
def ErrIncorrectContinuationToken : ErrorCode := 170
def ErrEmptyRequestBody : ErrorCode := 171
def ErrUnsupportedFunction : ErrorCode := 172
def ErrInvalidExpressionType : ErrorCode := 173
def ErrBusy : ErrorCode := 174
def ErrUnauthorizedAccess : ErrorCode := 175
def ErrExpressionTooLong : ErrorCode := 176
def ErrIllegalSQLFunctionArgument : ErrorCode := 177
def ErrInvalidKeyPath : ErrorCode := 178
def ErrInvalidCompressionFormat : ErrorCode := 179
def ErrInvalidFileHeaderInfo : ErrorCode := 180
def ErrInvalidJSONType : ErrorCode := 181
def ErrInvalidQuoteFields : ErrorCode := 182
def ErrInvalidRequestParameter : ErrorCode := 183
def ErrInvalidDataType : ErrorCode := 184
def ErrInvalidTextEncoding : ErrorCode := 185
def ErrInvalidDataSource : ErrorCode := 186
def ErrInvalidTableAlias : ErrorCode := 187
def ErrMissingRequiredParameter : ErrorCode := 188
def ErrObjectSerializationConflict : ErrorCode := 189
def ErrUnsupportedSQLOperation : ErrorCode := 190
def ErrUnsupportedSQLStructure : ErrorCode := 191
def ErrUnsupportedSyntax : ErrorCode := 192
def ErrUnsupportedRangeHeader : ErrorCode := 193
def ErrLexerInvalidChar : ErrorCode := 194
def ErrLexerInvalidOperator : ErrorCode := 195
def ErrLexerInvalidLiteral : ErrorCode := 196
def ErrLexerInvalidIONLiteral : ErrorCode := 197
def ErrParseExpectedDatePart : ErrorCode := 198
def ErrParseExpectedKeyword : ErrorCode := 199
def ErrParseExpectedTokenType : ErrorCode := 200
def ErrParseExpected2TokenTypes : ErrorCode := 201
def ErrParseExpectedNumber : ErrorCode := 202
def ErrParseExpectedRightParenBuiltinFunctionCall : ErrorCode := 203
def ErrParseExpectedTypeName : ErrorCode := 204
def ErrParseExpectedWhenClause : ErrorCode := 205
def ErrParseUnsupportedToken : ErrorCode := 206
def ErrParseUnsupportedLiteralsGroupBy : ErrorCode := 207
def ErrParseExpectedMember : ErrorCode := 208
def ErrParseUnsupportedSelect : ErrorCode := 209
def ErrParseUnsupportedCase : ErrorCode := 210
def ErrParseUnsupportedCaseClause : ErrorCode := 211
def ErrParseUnsupportedAlias : ErrorCode := 212
def ErrParseUnsupportedSyntax : ErrorCode := 213
def ErrParseUnknownOperator : ErrorCode := 214
def ErrParseMissingIdentAfterAt : ErrorCode := 215
def ErrParseUnexpectedOperator : ErrorCode := 216
def ErrParseUnexpectedTerm : ErrorCode := 217
def ErrParseUnexpectedToken : ErrorCode := 218
def ErrParseUnexpectedKeyword : ErrorCode := 219
def ErrParseExpectedExpression : ErrorCode := 220
def ErrParseExpectedLeftParenAfterCast : ErrorCode := 221
def ErrParseExpectedLeftParenValueConstructor : ErrorCode := 222
def ErrParseExpectedLeftParenBuiltinFunctionCall : ErrorCode := 223
def ErrParseExpectedArgumentDelimiter : ErrorCode := 224
def ErrParseCastArity : ErrorCode := 225
def ErrParseInvalidTypeParam : ErrorCode := 226
def ErrParseEmptySelect : ErrorCode := 227
def ErrParseSelectMissingFrom : ErrorCode := 228
def ErrParseExpectedIdentForGroupName : ErrorCode := 229
def ErrParseExpectedIdentForAlias : ErrorCode := 230
def ErrParseUnsupportedCallWithStar : ErrorCode := 231
def ErrParseNonUnaryAgregateFunctionCall : ErrorCode := 232
def ErrParseMalformedJoin : ErrorCode := 233
def ErrParseExpectedIdentForAt : ErrorCode := 234
def ErrParseAsteriskIsNotAloneInSelectList : ErrorCode := 235
def ErrParseCannotMixSqbAndWildcardInSelectList : ErrorCode := 236
def ErrParseInvalidContextForWildcardInSelectList : ErrorCode := 237
def ErrIncorrectSQLFunctionArgumentType : ErrorCode := 238
def ErrValueParseFailure : ErrorCode := 239
def ErrEvaluatorInvalidArguments : ErrorCode := 240
def ErrIntegerOverflow : ErrorCode := 241
def ErrLikeInvalidInputs : ErrorCode := 242
def ErrCastFailed : ErrorCode := 243
def ErrInvalidCast : ErrorCode := 244
def ErrEvaluatorInvalidTimestampFormatPattern : ErrorCode := 245
def ErrEvaluatorInvalidTimestampFormatPatternSymbolForParsing : ErrorCode := 246
def ErrEvaluatorTimestampFormatPatternDuplicateFields : ErrorCode := 247
def ErrEvaluatorTimestampFormatPatternHourClockAmPmMismatch : ErrorCode := 248
def ErrEvaluatorUnterminatedTimestampFormatPatternToken : ErrorCode := 249
def ErrEvaluatorInvalidTimestampFormatPatternToken : ErrorCode := 250
def ErrEvaluatorInvalidTimestampFormatPatternSymbol : ErrorCode := 251
def ErrEvaluatorBindingDoesNotExist : ErrorCode := 252
def ErrMissingHeaders : ErrorCode := 253
def ErrInvalidColumnIndex : ErrorCode := 254
def ErrAdminConfigNotificationTargetsFailed : ErrorCode := 255
def ErrAdminProfilerNotEnabled : ErrorCode := 256
def ErrInvalidDecompressedSize : ErrorCode := 257
def ErrAddUserInvalidArgument : ErrorCode := 258
def ErrAdminAccountNotEligible : ErrorCode := 259
def ErrServiceAccountNotFound : ErrorCode := 260
def ErrPostPolicyConditionInvalidFormat : ErrorCode := 261
/-- Entries 1 to 20 of the map literal `errorCodes`. -/
def errorCodesPart1 : List (ErrorCode × Error) :=
  [ ( ErrInvalidCopyDest ,
      { ErrCode := ErrInvalidCopyDest , Code := "InvalidRequest",
        Description := "This copy request is illegal because it is trying to copy an object to itself without changing the object\x27s metadata, storage class, website redirect location or encryption attributes.", HTTPStatusCode := 400 }),
    ( ErrInvalidCopySource ,
      { ErrCode := ErrInvalidCopySource , Code := "InvalidArgument",
        Description := "Copy Source must mention the source bucket and key: sourcebucket/sourcekey.", HTTPStatusCode := 400 }),
    ( ErrInvalidMetadataDirective ,
      { ErrCode := ErrInvalidMetadataDirective , Code := "InvalidArgument",
        Description := "Unknown metadata directive.", HTTPStatusCode := 400 }),
    ( ErrInvalidStorageClass ,
      { ErrCode := ErrInvalidStorageClass , Code := "InvalidStorageClass",
        Description := "Invalid storage class.", HTTPStatusCode := 400 }),
    ( ErrInvalidRequestBody ,
      { ErrCode := ErrInvalidRequestBody , Code := "InvalidArgument",
        Description := "Body shouldn\x27t be set for this request.", HTTPStatusCode := 400 }),
    ( ErrInvalidMaxUploads ,
      { ErrCode := ErrInvalidMaxUploads , Code := "InvalidArgument",
        Description := "Argument max-uploads must be an integer between 0 and 2147483647", HTTPStatusCode := 400 }),
    ( ErrInvalidMaxKeys ,
      { ErrCode := ErrInvalidMaxKeys , Code := "InvalidArgument",
        Description := "Argument maxKeys must be an integer between 0 and 2147483647", HTTPStatusCode := 400 }),
    ( ErrInvalidEncodingMethod ,
      { ErrCode := ErrInvalidEncodingMethod , Code := "InvalidArgument",
        Description := "Invalid Encoding Method specified in Request", HTTPStatusCode := 400 }),
    ( ErrInvalidMaxParts ,
      { ErrCode := ErrInvalidMaxParts , Code := "InvalidArgument",
        Description := "Argument max-parts must be an integer between 0 and 2147483647", HTTPStatusCode := 400 }),
    ( ErrInvalidPartNumberMarker ,
      { ErrCode := ErrInvalidPartNumberMarker , Code := "InvalidArgument",
        Description := "Argument partNumberMarker must be an integer.", HTTPStatusCode := 400 }),
    ( ErrInvalidPolicyDocument ,
      { ErrCode := ErrInvalidPolicyDocument , Code := "InvalidPolicyDocument",
        Description := "The content of the form does not meet the conditions specified in the policy document.", HTTPStatusCode := 400 }),
    ( ErrAccessDenied ,
      { ErrCode := ErrAccessDenied , Code := "AccessDenied",
        Description := "Access Denied.", HTTPStatusCode := 403 }),
    ( ErrBadDigest ,
      { ErrCode := ErrBadDigest , Code := "BadDigest",
        Description := "The Content-Md5 you specified did not match what we received.", HTTPStatusCode := 400 }),
    ( ErrEntityTooSmall ,
      { ErrCode := ErrEntityTooSmall , Code := "EntityTooSmall",
        Description := "Your proposed upload is smaller than the minimum allowed object size.", HTTPStatusCode := 400 }),
    ( ErrEntityTooLarge ,
      { ErrCode := ErrEntityTooLarge , Code := "EntityTooLarge",
        Description := "Your proposed upload exceeds the maximum allowed object size.", HTTPStatusCode := 400 }),
    ( ErrPolicyTooLarge ,
      { ErrCode := ErrPolicyTooLarge , Code := "PolicyTooLarge",
        Description := "Policy exceeds the maximum allowed document size.", HTTPStatusCode := 400 }),
    ( ErrIllegalVersioningConfigurationException ,
      { ErrCode := ErrIllegalVersioningConfigurationException , Code := "IllegalVersioningConfigurationException",
        Description := "Indicates that the versioning configuration specified in the request is invalid.", HTTPStatusCode := 400 }),
    ( ErrIncompleteBody ,
      { ErrCode := ErrIncompleteBody , Code := "IncompleteBody",
        Description := "You did not provide the number of bytes specified by the Content-Length HTTP header.", HTTPStatusCode := 400 }),
    ( ErrInternalError ,
      { ErrCode := ErrInternalError , Code := "InternalError",
        Description := "We encountered an internal error, please try again.", HTTPStatusCode := 500 }),
    ( ErrInvalidAccessKeyID ,
      { ErrCode := ErrInvalidAccessKeyID , Code := "InvalidAccessKeyId",
        Description := "The Access Key Id you provided does not exist in our records.", HTTPStatusCode := 403 })]

/-- Entries 21 to 40 of the map literal `errorCodes`. -/
def errorCodesPart2 : List (ErrorCode × Error) :=
  [ ( ErrInvalidBucketName ,
      { ErrCode := ErrInvalidBucketName , Code := "InvalidBucketName",
        Description := "The specified bucket is not valid.", HTTPStatusCode := 400 }),
    ( ErrInvalidDigest ,
      { ErrCode := ErrInvalidDigest , Code := "InvalidDigest",
        Description := "The Content-Md5 you specified is not valid.", HTTPStatusCode := 400 }),
    ( ErrInvalidRange ,
      { ErrCode := ErrInvalidRange , Code := "InvalidRange",
        Description := "The requested range is not satisfiable", HTTPStatusCode := 416 }),
    ( ErrMalformedXML ,
      { ErrCode := ErrMalformedXML , Code := "MalformedXML",
        Description := "The XML you provided was not well-formed or did not validate against our published schema.", HTTPStatusCode := 400 }),
    ( ErrMissingContentLength ,
      { ErrCode := ErrMissingContentLength , Code := "MissingContentLength",
        Description := "You must provide the Content-Length HTTP header.", HTTPStatusCode := 411 }),
    ( ErrMissingContentMD5 ,
      { ErrCode := ErrMissingContentMD5 , Code := "MissingContentMD5",
        Description := "Missing required header for this request: Content-Md5.", HTTPStatusCode := 400 }),
    ( ErrMissingSecurityHeader ,
      { ErrCode := ErrMissingSecurityHeader , Code := "MissingSecurityHeader",
        Description := "Your request was missing a required header", HTTPStatusCode := 400 }),
    ( ErrMissingRequestBodyError ,
      { ErrCode := ErrMissingRequestBodyError , Code := "MissingRequestBodyError",
        Description := "Request body is empty.", HTTPStatusCode := 411 }),
    ( ErrNoSuchBucket ,
      { ErrCode := ErrNoSuchBucket , Code := "NoSuchBucket",
        Description := "The specified bucket does not exist", HTTPStatusCode := 404 }),
    ( ErrNoSuchBucketPolicy ,
      { ErrCode := ErrNoSuchBucketPolicy , Code := "NoSuchBucketPolicy",
        Description := "The bucket policy does not exist", HTTPStatusCode := 404 }),
    ( ErrNoSuchBucketLifecycle ,
      { ErrCode := ErrNoSuchBucketLifecycle , Code := "NoSuchBucketLifecycle",
        Description := "The bucket lifecycle configuration does not exist", HTTPStatusCode := 404 }),
    ( ErrNoSuchLifecycleConfiguration ,
      { ErrCode := ErrNoSuchLifecycleConfiguration , Code := "NoSuchLifecycleConfiguration",
        Description := "The lifecycle configuration does not exist", HTTPStatusCode := 404 }),
    ( ErrNoSuchBucketSSEConfig ,
      { ErrCode := ErrNoSuchBucketSSEConfig , Code := "ServerSideEncryptionConfigurationNotFoundError",
        Description := "The server side encryption configuration was not found", HTTPStatusCode := 404 }),
    ( ErrNoSuchKey ,
      { ErrCode := ErrNoSuchKey , Code := "NoSuchKey",
        Description := "The specified key does not exist.", HTTPStatusCode := 404 }),
    ( ErrNoSuchUpload ,
      { ErrCode := ErrNoSuchUpload , Code := "NoSuchUpload",
        Description := "The specified multipart upload does not exist. The upload ID may be invalid, or the upload may have been aborted or completed.", HTTPStatusCode := 404 }),
    ( ErrNoSuchVersion ,
      { ErrCode := ErrNoSuchVersion , Code := "NoSuchVersion",
        Description := "Indicates that the version ID specified in the request does not match an existing version.", HTTPStatusCode := 404 }),
    ( ErrInvalidVersion ,
      { ErrCode := ErrInvalidVersion , Code := "InvalidArgument",
        Description := "Invalid version id specified", HTTPStatusCode := 400 }),
    ( ErrInvalidArgument ,
      { ErrCode := ErrInvalidArgument , Code := "InvalidArgument",
        Description := "The specified argument was invalid", HTTPStatusCode := 400 }),
    ( ErrInvalidTagKey ,
      { ErrCode := ErrInvalidTagKey , Code := "InvalidTag",
        Description := "The TagValue you have provided is invalid", HTTPStatusCode := 400 }),
    ( ErrInvalidTagValue ,
      { ErrCode := ErrInvalidTagValue , Code := "InvalidTag",
        Description := "The TagKey you have provided is invalid", HTTPStatusCode := 400 })]

/-- Entries 41 to 60 of the map literal `errorCodes`. -/
def errorCodesPart3 : List (ErrorCode × Error) :=
  [ ( ErrInvalidTagsSizeExceed ,
      { ErrCode := ErrInvalidTagsSizeExceed , Code := "BadRequest",
        Description := "Object tags cannot be greater than 10", HTTPStatusCode := 400 }),
    ( ErrNotImplemented ,
      { ErrCode := ErrNotImplemented , Code := "NotImplemented",
        Description := "A header you provided implies functionality that is not implemented", HTTPStatusCode := 501 }),
    ( ErrPreconditionFailed ,
      { ErrCode := ErrPreconditionFailed , Code := "PreconditionFailed",
        Description := "At least one of the pre-conditions you specified did not hold", HTTPStatusCode := 412 }),
    ( ErrNotModified ,
      { ErrCode := ErrNotModified , Code := "NotModified",
        Description := "The resource was not changed.", HTTPStatusCode := 304 }),
    ( ErrRequestTimeTooSkewed ,
      { ErrCode := ErrRequestTimeTooSkewed , Code := "RequestTimeTooSkewed",
        Description := "The difference between the request time and the server\x27s time is too large.", HTTPStatusCode := 403 }),
    ( ErrSignatureDoesNotMatch ,
      { ErrCode := ErrSignatureDoesNotMatch , Code := "SignatureDoesNotMatch",
        Description := "The request signature we calculated does not match the signature you provided. Check your key and signing method.", HTTPStatusCode := 403 }),
    ( ErrMethodNotAllowed ,
      { ErrCode := ErrMethodNotAllowed , Code := "MethodNotAllowed",
        Description := "The specified method is not allowed against this resource.", HTTPStatusCode := 405 }),
    ( ErrInvalidPart ,
      { ErrCode := ErrInvalidPart , Code := "InvalidPart",
        Description := "One or more of the specified parts could not be found.  The part may not have been uploaded, or the specified entity tag may not match the part\x27s entity tag.", HTTPStatusCode := 400 }),
    ( ErrInvalidPartOrder ,
      { ErrCode := ErrInvalidPartOrder , Code := "InvalidPartOrder",
        Description := "The list of parts was not in ascending order. The parts list must be specified in order by part number.", HTTPStatusCode := 400 }),
    ( ErrInvalidObjectState ,
      { ErrCode := ErrInvalidObjectState , Code := "InvalidObjectState",
        Description := "The operation is not valid for the current state of the object.", HTTPStatusCode := 403 }),
    ( ErrAuthorizationHeaderMalformed ,
      { ErrCode := ErrAuthorizationHeaderMalformed , Code := "AuthorizationHeaderMalformed",
        Description := "The authorization header is malformed; the region is wrong; expecting \x27us-east-1\x27.", HTTPStatusCode := 400 }),
    ( ErrMalformedPOSTRequest ,
      { ErrCode := ErrMalformedPOSTRequest , Code := "MalformedPOSTRequest",
        Description := "The body of your POST request is not well-formed multipart/form-data.", HTTPStatusCode := 400 }),
    ( ErrPOSTFileRequired ,
      { ErrCode := ErrPOSTFileRequired , Code := "InvalidArgument",
        Description := "POST requires exactly one file upload per request.", HTTPStatusCode := 400 }),
    ( ErrSignatureVersionNotSupported ,
      { ErrCode := ErrSignatureVersionNotSupported , Code := "InvalidRequest",
        Description := "The authorization mechanism you have provided is not supported. Please use AWS4-HMAC-SHA256.", HTTPStatusCode := 400 }),
    ( ErrBucketNotEmpty ,
      { ErrCode := ErrBucketNotEmpty , Code := "BucketNotEmpty",
        Description := "The bucket you tried to delete is not empty", HTTPStatusCode := 409 }),
    ( ErrBucketAlreadyExists ,
      { ErrCode := ErrBucketAlreadyExists , Code := "BucketAlreadyExists",
        Description := "The requested bucket name is not available. The bucket namespace is shared by all users of the system. Please select a different name and try again.", HTTPStatusCode := 409 }),
    ( ErrAllAccessDisabled ,
      { ErrCode := ErrAllAccessDisabled , Code := "AllAccessDisabled",
        Description := "All access to this bucket has been disabled.", HTTPStatusCode := 403 }),
    ( ErrMalformedPolicy ,
      { ErrCode := ErrMalformedPolicy , Code := "MalformedPolicy",
        Description := "Policy has invalid resource.", HTTPStatusCode := 400 }),
    ( ErrMissingFields ,
      { ErrCode := ErrMissingFields , Code := "MissingFields",
        Description := "Missing fields in request.", HTTPStatusCode := 400 }),
    ( ErrMissingCredTag ,
      { ErrCode := ErrMissingCredTag , Code := "InvalidRequest",
        Description := "Missing Credential field for this request.", HTTPStatusCode := 400 })]

/-- Entries 61 to 80 of the map literal `errorCodes`. -/
def errorCodesPart4 : List (ErrorCode × Error) :=
  [ ( ErrCredMalformed ,
      { ErrCode := ErrCredMalformed , Code := "AuthorizationQueryParametersError",
        Description := "Error parsing the X-Amz-Credential parameter; the Credential is mal-formed; expecting \"<YOUR-AKID>/YYYYMMDD/REGION/SERVICE/aws4_request\".", HTTPStatusCode := 400 }),
    ( ErrMalformedDate ,
      { ErrCode := ErrMalformedDate , Code := "MalformedDate",
        Description := "Invalid date format header, expected to be in ISO8601, RFC1123 or RFC1123Z time format.", HTTPStatusCode := 400 }),
    ( ErrMalformedPresignedDate ,
      { ErrCode := ErrMalformedPresignedDate , Code := "AuthorizationQueryParametersError",
        Description := "X-Amz-Date must be in the ISO8601 Long Format \"yyyyMMdd\x27T\x27HHmmss\x27Z\x27\"", HTTPStatusCode := 400 }),
    ( ErrMalformedCredentialDate ,
      { ErrCode := ErrMalformedCredentialDate , Code := "AuthorizationQueryParametersError",
        Description := "Error parsing the X-Amz-Credential parameter; incorrect date format \"%s\". This date in the credential must be in the format \"yyyyMMdd\".", HTTPStatusCode := 400 }),
    ( ErrMalformedCredentialRegion ,
      { ErrCode := ErrMalformedCredentialRegion , Code := "AuthorizationQueryParametersError",
        Description := "Error parsing the X-Amz-Credential parameter; the region is wrong;", HTTPStatusCode := 400 }),
    ( ErrInvalidRegion ,
      { ErrCode := ErrInvalidRegion , Code := "InvalidRegion",
        Description := "Region does not match.", HTTPStatusCode := 400 }),
    ( ErrInvalidServiceS3 ,
      { ErrCode := ErrInvalidServiceS3 , Code := "AuthorizationParametersError",
        Description := "Error parsing the Credential/X-Amz-Credential parameter; incorrect service. This endpoint belongs to \"s3\".", HTTPStatusCode := 400 }),
    ( ErrInvalidServiceSTS ,
      { ErrCode := ErrInvalidServiceSTS , Code := "AuthorizationParametersError",
        Description := "Error parsing the Credential parameter; incorrect service. This endpoint belongs to \"sts\".", HTTPStatusCode := 400 }),
    ( ErrInvalidRequestVersion ,
      { ErrCode := ErrInvalidRequestVersion , Code := "AuthorizationQueryParametersError",
        Description := "Error parsing the X-Amz-Credential parameter; incorrect terminal. This endpoint uses \"aws4_request\".", HTTPStatusCode := 400 }),
    ( ErrMissingSignTag ,
      { ErrCode := ErrMissingSignTag , Code := "AccessDenied",
        Description := "Signature header missing Signature field.", HTTPStatusCode := 400 }),
    ( ErrMissingSignHeadersTag ,
      { ErrCode := ErrMissingSignHeadersTag , Code := "InvalidArgument",
        Description := "Signature header missing SignedHeaders field.", HTTPStatusCode := 400 }),
    ( ErrMalformedExpires ,
      { ErrCode := ErrMalformedExpires , Code := "AuthorizationQueryParametersError",
        Description := "X-Amz-Expires should be a number", HTTPStatusCode := 400 }),
    ( ErrNegativeExpires ,
      { ErrCode := ErrNegativeExpires , Code := "AuthorizationQueryParametersError",
        Description := "X-Amz-Expires must be non-negative", HTTPStatusCode := 400 }),
    ( ErrAuthHeaderEmpty ,
      { ErrCode := ErrAuthHeaderEmpty , Code := "InvalidArgument",
        Description := "Authorization header is invalid -- one and only one \x27 \x27 (space) required.", HTTPStatusCode := 400 }),
    ( ErrMissingDateHeader ,
      { ErrCode := ErrMissingDateHeader , Code := "AccessDenied",
        Description := "AWS authentication requires a valid Date or x-amz-date header", HTTPStatusCode := 400 }),
    ( ErrInvalidQuerySignatureAlgo ,
      { ErrCode := ErrInvalidQuerySignatureAlgo , Code := "AuthorizationQueryParametersError",
        Description := "X-Amz-Algorithm only supports \"AWS4-HMAC-SHA256\".", HTTPStatusCode := 400 }),
    ( ErrExpiredPresignRequest ,
      { ErrCode := ErrExpiredPresignRequest , Code := "AccessDenied",
        Description := "Request has expired", HTTPStatusCode := 403 }),
    ( ErrRequestNotReadyYet ,
      { ErrCode := ErrRequestNotReadyYet , Code := "AccessDenied",
        Description := "Request is not valid yet", HTTPStatusCode := 403 }),
    ( ErrSlowDown ,
      { ErrCode := ErrSlowDown , Code := "SlowDown",
        Description := "Please reduce your request", HTTPStatusCode := 503 }),
    ( ErrInvalidPrefixMarker ,
      { ErrCode := ErrInvalidPrefixMarker , Code := "InvalidPrefixMarker",
        Description := "Invalid marker prefix combination", HTTPStatusCode := 400 })]

/-- Entries 81 to 100 of the map literal `errorCodes`. -/
def errorCodesPart5 : List (ErrorCode × Error) :=
  [ ( ErrBadRequest ,
      { ErrCode := ErrBadRequest , Code := "BadRequest",
        Description := "400 BadRequest", HTTPStatusCode := 400 }),
    ( ErrKeyTooLongError ,
      { ErrCode := ErrKeyTooLongError , Code := "KeyTooLongError",
        Description := "Your key is too long", HTTPStatusCode := 400 }),
    ( ErrUnsignedHeaders ,
      { ErrCode := ErrUnsignedHeaders , Code := "AccessDenied",
        Description := "There were headers present in the request which were not signed", HTTPStatusCode := 400 }),
    ( ErrInvalidQueryParams ,
      { ErrCode := ErrInvalidQueryParams , Code := "AuthorizationQueryParametersError",
        Description := "Query-string authentication version 4 requires the X-Amz-Algorithm, X-Amz-Credential, X-Amz-Signature, X-Amz-Date, X-Amz-SignedHeaders, and X-Amz-Expires parameters.", HTTPStatusCode := 400 }),
    ( ErrBucketAlreadyOwnedByYou ,
      { ErrCode := ErrBucketAlreadyOwnedByYou , Code := "BucketAlreadyOwnedByYou",
        Description := "Your previous request to create the named bucket succeeded and you already own it.", HTTPStatusCode := 409 }),
    ( ErrInvalidDuration ,
      { ErrCode := ErrInvalidDuration , Code := "InvalidDuration",
        Description := "Duration provided in the request is invalid.", HTTPStatusCode := 400 }),
    ( ErrInvalidBucketObjectLockConfiguration ,
      { ErrCode := ErrInvalidBucketObjectLockConfiguration , Code := "InvalidRequest",
        Description := "Bucket is missing ObjectLockConfiguration", HTTPStatusCode := 400 }),
    ( ErrBucketTaggingNotFound ,
      { ErrCode := ErrBucketTaggingNotFound , Code := "NoSuchTagSet",
        Description := "The TagSet does not exist", HTTPStatusCode := 404 }),
    ( ErrObjectLockConfigurationNotFound ,
      { ErrCode := ErrObjectLockConfigurationNotFound , Code := "ObjectLockConfigurationNotFoundError",
        Description := "Object Lock configuration does not exist for this bucket", HTTPStatusCode := 404 }),
    ( ErrObjectLockConfigurationNotAllowed ,
      { ErrCode := ErrObjectLockConfigurationNotAllowed , Code := "InvalidBucketState",
        Description := "Object Lock configuration cannot be enabled on existing buckets", HTTPStatusCode := 409 }),
    ( ErrNoSuchCORSConfiguration ,
      { ErrCode := ErrNoSuchCORSConfiguration , Code := "NoSuchCORSConfiguration",
        Description := "The CORS configuration does not exist", HTTPStatusCode := 404 }),
    ( ErrNoSuchWebsiteConfiguration ,
      { ErrCode := ErrNoSuchWebsiteConfiguration , Code := "NoSuchWebsiteConfiguration",
        Description := "The specified bucket does not have a website configuration", HTTPStatusCode := 404 }),
    ( ErrReplicationConfigurationNotFoundError ,
      { ErrCode := ErrReplicationConfigurationNotFoundError , Code := "ReplicationConfigurationNotFoundError",
        Description := "The replication configuration was not found", HTTPStatusCode := 404 }),
    ( ErrNoSuchObjectLockConfiguration ,
      { ErrCode := ErrNoSuchObjectLockConfiguration , Code := "NoSuchObjectLockConfiguration",
        Description := "The specified object does not have a ObjectLock configuration", HTTPStatusCode := 400 }),
    ( ErrObjectLocked ,
      { ErrCode := ErrObjectLocked , Code := "InvalidRequest",
        Description := "Object is WORM protected and cannot be overwritten", HTTPStatusCode := 400 }),
    ( ErrInvalidRetentionDate ,
      { ErrCode := ErrInvalidRetentionDate , Code := "InvalidRequest",
        Description := "Date must be provided in ISO 8601 format", HTTPStatusCode := 400 }),
    ( ErrPastObjectLockRetainDate ,
      { ErrCode := ErrPastObjectLockRetainDate , Code := "InvalidRequest",
        Description := "the retain until date must be in the future", HTTPStatusCode := 400 }),
    ( ErrUnknownWORMModeDirective ,
      { ErrCode := ErrUnknownWORMModeDirective , Code := "InvalidRequest",
        Description := "unknown wormMode directive", HTTPStatusCode := 400 }),
    ( ErrObjectLockInvalidHeaders ,
      { ErrCode := ErrObjectLockInvalidHeaders , Code := "InvalidRequest",
        Description := "x-amz-object-lock-retain-until-date and x-amz-object-lock-mode must both be supplied", HTTPStatusCode := 400 }),
    ( ErrEventNotification ,
      { ErrCode := ErrEventNotification , Code := "InvalidArgument",
        Description := "A specified event is not supported for notifications.", HTTPStatusCode := 400 })]

/-- Entries 101 to 120 of the map literal `errorCodes`. -/
def errorCodesPart6 : List (ErrorCode × Error) :=
  [ ( ErrARNNotification ,
      { ErrCode := ErrARNNotification , Code := "InvalidArgument",
        Description := "A specified destination ARN does not exist or is not well-formed. Verify the destination ARN.", HTTPStatusCode := 400 }),
    ( ErrRegionNotification ,
      { ErrCode := ErrRegionNotification , Code := "InvalidArgument",
        Description := "A specified destination is in a different region than the bucket. You must use a destination that resides in the same region as the bucket.", HTTPStatusCode := 400 }),
    ( ErrOverlappingFilterNotification ,
      { ErrCode := ErrOverlappingFilterNotification , Code := "InvalidArgument",
        Description := "An object key name filtering rule defined with overlapping prefixes, overlapping suffixes, or overlapping combinations of prefixes and suffixes for the same event types.", HTTPStatusCode := 400 }),
    ( ErrFilterNameInvalid ,
      { ErrCode := ErrFilterNameInvalid , Code := "InvalidArgument",
        Description := "filter rule name must be either prefix or suffix", HTTPStatusCode := 400 }),
    ( ErrFilterNamePrefix ,
      { ErrCode := ErrFilterNamePrefix , Code := "InvalidArgument",
        Description := "Cannot specify more than one prefix rule in a filter.", HTTPStatusCode := 400 }),
    ( ErrFilterNameSuffix ,
      { ErrCode := ErrFilterNameSuffix , Code := "InvalidArgument",
        Description := "Cannot specify more than one suffix rule in a filter.", HTTPStatusCode := 400 }),
    ( ErrFilterValueInvalid ,
      { ErrCode := ErrFilterValueInvalid , Code := "InvalidArgument",
        Description := "Size of filter rule value cannot exceed 1024 bytes in UTF-8 representation", HTTPStatusCode := 400 }),
    ( ErrOverlappingConfigs ,
      { ErrCode := ErrOverlappingConfigs , Code := "InvalidArgument",
        Description := "Configurations overlap. Configurations on the same bucket cannot share a common event type.", HTTPStatusCode := 400 }),
    ( ErrUnsupportedNotification ,
      { ErrCode := ErrUnsupportedNotification , Code := "UnsupportedNotification",
        Description := "MinIO server does not support Topic or Cloud Function based notifications.", HTTPStatusCode := 400 }),
    ( ErrInvalidCopyPartRange ,
      { ErrCode := ErrInvalidCopyPartRange , Code := "InvalidArgument",
        Description := "The x-amz-copy-source-range value must be of the form bytes=first-last where first and last are the zero-based offsets of the first and last bytes to copy", HTTPStatusCode := 400 }),
    ( ErrInvalidCopyPartRangeSource ,
      { ErrCode := ErrInvalidCopyPartRangeSource , Code := "InvalidArgument",
        Description := "Range specified is not valid for source object", HTTPStatusCode := 400 }),
    ( ErrMetadataTooLarge ,
      { ErrCode := ErrMetadataTooLarge , Code := "InvalidArgument",
        Description := "Your metadata headers exceed the maximum allowed metadata size.", HTTPStatusCode := 400 }),
    ( ErrInvalidTagDirective ,
      { ErrCode := ErrInvalidTagDirective , Code := "InvalidArgument",
        Description := "Unknown tag directive.", HTTPStatusCode := 400 }),
    ( ErrNotSupported ,
      { ErrCode := ErrNotSupported , Code := "BadRequest",
        Description := "Not supported by NeoFS S3 Gateway", HTTPStatusCode := 501 }),
    ( ErrInvalidEncryptionMethod ,
      { ErrCode := ErrInvalidEncryptionMethod , Code := "InvalidRequest",
        Description := "The encryption method specified is not supported", HTTPStatusCode := 400 }),
    ( ErrInsecureSSECustomerRequest ,
      { ErrCode := ErrInsecureSSECustomerRequest , Code := "InvalidRequest",
        Description := "Requests specifying Server Side Encryption with Customer provided keys must be made over a secure connection.", HTTPStatusCode := 400 }),
    ( ErrSSEMultipartEncrypted ,
      { ErrCode := ErrSSEMultipartEncrypted , Code := "InvalidRequest",
        Description := "The multipart upload initiate requested encryption. Subsequent part requests must include the appropriate encryption parameters.", HTTPStatusCode := 400 }),
    ( ErrSSEEncryptedObject ,
      { ErrCode := ErrSSEEncryptedObject , Code := "InvalidRequest",
        Description := "The object was stored using a form of Server Side Encryption. The correct parameters must be provided to retrieve the object.", HTTPStatusCode := 400 }),
    ( ErrInvalidEncryptionParameters ,
      { ErrCode := ErrInvalidEncryptionParameters , Code := "InvalidRequest",
        Description := "The encryption parameters are not applicable to this object.", HTTPStatusCode := 400 }),
    ( ErrInvalidSSECustomerAlgorithm ,
      { ErrCode := ErrInvalidSSECustomerAlgorithm , Code := "InvalidArgument",
        Description := "Requests specifying Server Side Encryption with Customer provided keys must provide a valid encryption algorithm.", HTTPStatusCode := 400 })]

/-- Entries 121 to 140 of the map literal `errorCodes`. -/
def errorCodesPart7 : List (ErrorCode × Error) :=
  [ ( ErrInvalidSSECustomerKey ,
      { ErrCode := ErrInvalidSSECustomerKey , Code := "InvalidArgument",
        Description := "The secret key was invalid for the specified algorithm.", HTTPStatusCode := 400 }),
    ( ErrMissingSSECustomerKey ,
      { ErrCode := ErrMissingSSECustomerKey , Code := "InvalidArgument",
        Description := "Requests specifying Server Side Encryption with Customer provided keys must provide an appropriate secret key.", HTTPStatusCode := 400 }),
    ( ErrMissingSSECustomerKeyMD5 ,
      { ErrCode := ErrMissingSSECustomerKeyMD5 , Code := "InvalidArgument",
        Description := "Requests specifying Server Side Encryption with Customer provided keys must provide the client calculated MD5 of the secret key.", HTTPStatusCode := 400 }),
    ( ErrSSECustomerKeyMD5Mismatch ,
      { ErrCode := ErrSSECustomerKeyMD5Mismatch , Code := "InvalidArgument",
        Description := "The calculated MD5 hash of the key did not match the hash that was provided.", HTTPStatusCode := 400 }),
    ( ErrInvalidSSECustomerParameters ,
      { ErrCode := ErrInvalidSSECustomerParameters , Code := "InvalidArgument",
        Description := "The provided encryption parameters did not match the ones used originally.", HTTPStatusCode := 400 }),
    ( ErrIncompatibleEncryptionMethod ,
      { ErrCode := ErrIncompatibleEncryptionMethod , Code := "InvalidArgument",
        Description := "Server side encryption specified with both SSE-C and SSE-S3 headers", HTTPStatusCode := 400 }),
    ( ErrKMSNotConfigured ,
      { ErrCode := ErrKMSNotConfigured , Code := "InvalidArgument",
        Description := "Server side encryption specified but KMS is not configured", HTTPStatusCode := 400 }),
    ( ErrKMSAuthFailure ,
      { ErrCode := ErrKMSAuthFailure , Code := "InvalidArgument",
        Description := "Server side encryption specified but KMS authorization failed", HTTPStatusCode := 400 }),
    ( ErrNoAccessKey ,
      { ErrCode := ErrNoAccessKey , Code := "AccessDenied",
        Description := "No AWSAccessKey was presented", HTTPStatusCode := 403 }),
    ( ErrInvalidToken ,
      { ErrCode := ErrInvalidToken , Code := "InvalidTokenId",
        Description := "The security token included in the request is invalid", HTTPStatusCode := 403 }),
    ( ErrContentSHA256Mismatch ,
      { ErrCode := ErrContentSHA256Mismatch , Code := "XAmzContentSHA256Mismatch",
        Description := "The provided \x27x-amz-content-sha256\x27 header does not match what was computed.", HTTPStatusCode := 400 }),
    ( ErrStorageFull ,
      { ErrCode := ErrStorageFull , Code := "XMinioStorageFull",
        Description := "Storage backend has reached its minimum free disk threshold. Please delete a few objects to proceed.", HTTPStatusCode := 507 }),
    ( ErrParentIsObject ,
      { ErrCode := ErrParentIsObject , Code := "XMinioParentIsObject",
        Description := "Object-prefix is already an object, please choose a different object-prefix name.", HTTPStatusCode := 400 }),
    ( ErrRequestBodyParse ,
      { ErrCode := ErrRequestBodyParse , Code := "XMinioRequestBodyParse",
        Description := "The request body failed to parse.", HTTPStatusCode := 400 }),
    ( ErrObjectExistsAsDirectory ,
      { ErrCode := ErrObjectExistsAsDirectory , Code := "XMinioObjectExistsAsDirectory",
        Description := "Object name already exists as a directory.", HTTPStatusCode := 409 }),
    ( ErrInvalidObjectName ,
      { ErrCode := ErrInvalidObjectName , Code := "XMinioInvalidObjectName",
        Description := "Object name contains unsupported characters.", HTTPStatusCode := 400 }),
    ( ErrInvalidObjectNamePrefixSlash ,
      { ErrCode := ErrInvalidObjectNamePrefixSlash , Code := "XMinioInvalidObjectName",
        Description := "Object name contains a leading slash.", HTTPStatusCode := 400 }),
    ( ErrInvalidResourceName ,
      { ErrCode := ErrInvalidResourceName , Code := "XMinioInvalidResourceName",
        Description := "Resource name contains bad components such as \"..\" or \".\".", HTTPStatusCode := 400 }),
    ( ErrServerNotInitialized ,
      { ErrCode := ErrServerNotInitialized , Code := "XMinioServerNotInitialized",
        Description := "Server not initialized, please try again.", HTTPStatusCode := 503 }),
    ( ErrMalformedJSON ,
      { ErrCode := ErrMalformedJSON , Code := "XMinioMalformedJSON",
        Description := "The JSON you provided was not well-formed or did not validate against our published format.", HTTPStatusCode := 400 })]

/-- Entries 141 to 160 of the map literal `errorCodes`. -/
def errorCodesPart8 : List (ErrorCode × Error) :=
  [ ( ErrAdminNoSuchUser ,
      { ErrCode := ErrAdminNoSuchUser , Code := "XMinioAdminNoSuchUser",
        Description := "The specified user does not exist.", HTTPStatusCode := 404 }),
    ( ErrAdminNoSuchGroup ,
      { ErrCode := ErrAdminNoSuchGroup , Code := "XMinioAdminNoSuchGroup",
        Description := "The specified group does not exist.", HTTPStatusCode := 404 }),
    ( ErrAdminGroupNotEmpty ,
      { ErrCode := ErrAdminGroupNotEmpty , Code := "XMinioAdminGroupNotEmpty",
        Description := "The specified group is not empty - cannot remove it.", HTTPStatusCode := 400 }),
    ( ErrAdminNoSuchPolicy ,
      { ErrCode := ErrAdminNoSuchPolicy , Code := "XMinioAdminNoSuchPolicy",
        Description := "The canned policy does not exist.", HTTPStatusCode := 404 }),
    ( ErrAdminInvalidArgument ,
      { ErrCode := ErrAdminInvalidArgument , Code := "XMinioAdminInvalidArgument",
        Description := "Invalid arguments specified.", HTTPStatusCode := 400 }),
    ( ErrAdminInvalidAccessKey ,
      { ErrCode := ErrAdminInvalidAccessKey , Code := "XMinioAdminInvalidAccessKey",
        Description := "The access key is invalid.", HTTPStatusCode := 400 }),
    ( ErrAdminInvalidSecretKey ,
      { ErrCode := ErrAdminInvalidSecretKey , Code := "XMinioAdminInvalidSecretKey",
        Description := "The secret key is invalid.", HTTPStatusCode := 400 }),
    ( ErrAdminConfigNoQuorum ,
      { ErrCode := ErrAdminConfigNoQuorum , Code := "XMinioAdminConfigNoQuorum",
        Description := "Configuration update failed because server quorum was not met", HTTPStatusCode := 503 }),
    ( ErrAdminConfigTooLarge ,
      { ErrCode := ErrAdminConfigTooLarge , Code := "XMinioAdminConfigTooLarge",
        Description := ("Configuration data provided exceeds the allowed maximum of " ++
          Nat.repr maxEConfigJSONSize ++ " bytes"), HTTPStatusCode := 400 }),
    ( ErrAdminConfigBadJSON ,
      { ErrCode := ErrAdminConfigBadJSON , Code := "XMinioAdminConfigBadJSON",
        Description := "JSON configuration provided is of incorrect format", HTTPStatusCode := 400 }),
    ( ErrAdminConfigDuplicateKeys ,
      { ErrCode := ErrAdminConfigDuplicateKeys , Code := "XMinioAdminConfigDuplicateKeys",
        Description := "JSON configuration provided has objects with duplicate keys", HTTPStatusCode := 400 }),
    ( ErrAdminConfigNotificationTargetsFailed ,
      { ErrCode := ErrAdminConfigNotificationTargetsFailed , Code := "XMinioAdminNotificationTargetsTestFailed",
        Description := "Configuration update failed due an unsuccessful attempt to connect to one or more notification servers", HTTPStatusCode := 400 }),
    ( ErrAdminProfilerNotEnabled ,
      { ErrCode := ErrAdminProfilerNotEnabled , Code := "XMinioAdminProfilerNotEnabled",
        Description := "Unable to perform the requested operation because profiling is not enabled", HTTPStatusCode := 400 }),
    ( ErrAdminCredentialsMismatch ,
      { ErrCode := ErrAdminCredentialsMismatch , Code := "XMinioAdminCredentialsMismatch",
        Description := "Credentials in config mismatch with server environment variables", HTTPStatusCode := 503 }),
    ( ErrAdminBucketQuotaExceeded ,
      { ErrCode := ErrAdminBucketQuotaExceeded , Code := "XMinioAdminBucketQuotaExceeded",
        Description := "Bucket quota exceeded", HTTPStatusCode := 400 }),
    ( ErrAdminNoSuchQuotaConfiguration ,
      { ErrCode := ErrAdminNoSuchQuotaConfiguration , Code := "XMinioAdminNoSuchQuotaConfiguration",
        Description := "The quota configuration does not exist", HTTPStatusCode := 404 }),
    ( ErrAdminBucketQuotaDisabled ,
      { ErrCode := ErrAdminBucketQuotaDisabled , Code := "XMinioAdminBucketQuotaDisabled",
        Description := "Quota specified but disk usage crawl is disabled on MinIO server", HTTPStatusCode := 400 }),
    ( ErrInsecureClientRequest ,
      { ErrCode := ErrInsecureClientRequest , Code := "XMinioInsecureClientRequest",
        Description := "Cannot respond to plain-text request from TLS-encrypted server", HTTPStatusCode := 400 }),
    ( ErrOperationTimedOut ,
      { ErrCode := ErrOperationTimedOut , Code := "RequestTimeout",
        Description := "A timeout occurred while trying to lock a resource, please reduce your request rate", HTTPStatusCode := 503 }),
    ( ErrOperationMaxedOut ,
      { ErrCode := ErrOperationMaxedOut , Code := "SlowDown",
        Description := "A timeout exceeded while waiting to proceed with the request, please reduce your request rate", HTTPStatusCode := 503 })]

/-- Entries 161 to 180 of the map literal `errorCodes`. -/
def errorCodesPart9 : List (ErrorCode × Error) :=
  [ ( ErrUnsupportedMetadata ,
      { ErrCode := ErrUnsupportedMetadata , Code := "InvalidArgument",
        Description := "Your metadata headers are not supported.", HTTPStatusCode := 400 }),
    ( ErrObjectTampered ,
      { ErrCode := ErrObjectTampered , Code := "XMinioObjectTampered",
        Description := "The requested object was modified and may be compromised", HTTPStatusCode := 206 }),
    ( ErrMaximumExpires ,
      { ErrCode := ErrMaximumExpires , Code := "AuthorizationQueryParametersError",
        Description := "X-Amz-Expires must be less than a week (in seconds); that is, the given X-Amz-Expires must be less than 604800 seconds", HTTPStatusCode := 400 }),
    ( ErrInvalidRequest ,
      { ErrCode := ErrInvalidRequest , Code := "InvalidRequest",
        Description := "Invalid Request", HTTPStatusCode := 400 }),
    ( ErrHealNotImplemented ,
      { ErrCode := ErrHealNotImplemented , Code := "XMinioHealNotImplemented",
        Description := "This server does not implement heal functionality.", HTTPStatusCode := 400 }),
    ( ErrHealNoSuchProcess ,
      { ErrCode := ErrHealNoSuchProcess , Code := "XMinioHealNoSuchProcess",
        Description := "No such heal process is running on the server", HTTPStatusCode := 400 }),
    ( ErrHealInvalidClientToken ,
      { ErrCode := ErrHealInvalidClientToken , Code := "XMinioHealInvalidClientToken",
        Description := "Client token mismatch", HTTPStatusCode := 400 }),
    ( ErrHealMissingBucket ,
      { ErrCode := ErrHealMissingBucket , Code := "XMinioHealMissingBucket",
        Description := "A heal start request with a non-empty object-prefix parameter requires a bucket to be specified.", HTTPStatusCode := 400 }),
    ( ErrHealAlreadyRunning ,
      { ErrCode := ErrHealAlreadyRunning , Code := "XMinioHealAlreadyRunning",
        Description := "", HTTPStatusCode := 400 }),
    ( ErrHealOverlappingPaths ,
      { ErrCode := ErrHealOverlappingPaths , Code := "XMinioHealOverlappingPaths",
        Description := "", HTTPStatusCode := 400 }),
    ( ErrBackendDown ,
      { ErrCode := ErrBackendDown , Code := "XMinioBackendDown",
        Description := "Object storage backend is unreachable", HTTPStatusCode := 503 }),
    ( ErrIncorrectContinuationToken ,
      { ErrCode := ErrIncorrectContinuationToken , Code := "InvalidArgument",
        Description := "The continuation token provided is incorrect", HTTPStatusCode := 400 }),
    ( ErrEmptyRequestBody ,
      { ErrCode := ErrEmptyRequestBody , Code := "EmptyRequestBody",
        Description := "Request body cannot be empty.", HTTPStatusCode := 400 }),
    ( ErrUnsupportedFunction ,
      { ErrCode := ErrUnsupportedFunction , Code := "UnsupportedFunction",
        Description := "Encountered an unsupported SQL function.", HTTPStatusCode := 400 }),
    ( ErrInvalidDataSource ,
      { ErrCode := ErrInvalidDataSource , Code := "InvalidDataSource",
        Description := "Invalid data source type. Only CSV and JSON are supported at this time.", HTTPStatusCode := 400 }),
    ( ErrInvalidExpressionType ,
      { ErrCode := ErrInvalidExpressionType , Code := "InvalidExpressionType",
        Description := "The ExpressionType is invalid. Only SQL expressions are supported at this time.", HTTPStatusCode := 400 }),
    ( ErrBusy ,
      { ErrCode := ErrBusy , Code := "Busy",
        Description := "The service is unavailable. Please retry.", HTTPStatusCode := 503 }),
    ( ErrUnauthorizedAccess ,
      { ErrCode := ErrUnauthorizedAccess , Code := "UnauthorizedAccess",
        Description := "You are not authorized to perform this operation", HTTPStatusCode := 401 }),
    ( ErrExpressionTooLong ,
      { ErrCode := ErrExpressionTooLong , Code := "ExpressionTooLong",
        Description := "The SQL expression is too long: The maximum byte-length for the SQL expression is 256 KB.", HTTPStatusCode := 400 }),
    ( ErrIllegalSQLFunctionArgument ,
      { ErrCode := ErrIllegalSQLFunctionArgument , Code := "IllegalSqlFunctionArgument",
        Description := "Illegal argument was used in the SQL function.", HTTPStatusCode := 400 })]

/-- Entries 181 to 200 of the map literal `errorCodes`. -/
def errorCodesPart10 : List (ErrorCode × Error) :=
  [ ( ErrInvalidKeyPath ,
      { ErrCode := ErrInvalidKeyPath , Code := "InvalidKeyPath",
        Description := "Key path in the SQL expression is invalid.", HTTPStatusCode := 400 }),
    ( ErrInvalidCompressionFormat ,
      { ErrCode := ErrInvalidCompressionFormat , Code := "InvalidCompressionFormat",
        Description := "The file is not in a supported compression format. Only GZIP is supported at this time.", HTTPStatusCode := 400 }),
    ( ErrInvalidFileHeaderInfo ,
      { ErrCode := ErrInvalidFileHeaderInfo , Code := "InvalidFileHeaderInfo",
        Description := "The FileHeaderInfo is invalid. Only NONE, USE, and IGNORE are supported.", HTTPStatusCode := 400 }),
    ( ErrInvalidJSONType ,
      { ErrCode := ErrInvalidJSONType , Code := "InvalidJsonType",
        Description := "The JsonType is invalid. Only DOCUMENT and LINES are supported at this time.", HTTPStatusCode := 400 }),
    ( ErrInvalidQuoteFields ,
      { ErrCode := ErrInvalidQuoteFields , Code := "InvalidQuoteFields",
        Description := "The QuoteFields is invalid. Only ALWAYS and ASNEEDED are supported.", HTTPStatusCode := 400 }),
    ( ErrInvalidRequestParameter ,
      { ErrCode := ErrInvalidRequestParameter , Code := "InvalidRequestParameter",
        Description := "The value of a parameter in SelectRequest element is invalid. Check the service API documentation and try again.", HTTPStatusCode := 400 }),
    ( ErrInvalidDataType ,
      { ErrCode := ErrInvalidDataType , Code := "InvalidDataType",
        Description := "The SQL expression contains an invalid data type.", HTTPStatusCode := 400 }),
    ( ErrInvalidTextEncoding ,
      { ErrCode := ErrInvalidTextEncoding , Code := "InvalidTextEncoding",
        Description := "Invalid encoding type. Only UTF-8 encoding is supported at this time.", HTTPStatusCode := 400 }),
    ( ErrInvalidTableAlias ,
      { ErrCode := ErrInvalidTableAlias , Code := "InvalidTableAlias",
        Description := "The SQL expression contains an invalid table alias.", HTTPStatusCode := 400 }),
    ( ErrMissingRequiredParameter ,
      { ErrCode := ErrMissingRequiredParameter , Code := "MissingRequiredParameter",
        Description := "The SelectRequest entity is missing a required parameter. Check the service documentation and try again.", HTTPStatusCode := 400 }),
    ( ErrObjectSerializationConflict ,
      { ErrCode := ErrObjectSerializationConflict , Code := "ObjectSerializationConflict",
        Description := "The SelectRequest entity can only contain one of CSV or JSON. Check the service documentation and try again.", HTTPStatusCode := 400 }),
    ( ErrUnsupportedSQLOperation ,
      { ErrCode := ErrUnsupportedSQLOperation , Code := "UnsupportedSqlOperation",
        Description := "Encountered an unsupported SQL operation.", HTTPStatusCode := 400 }),
    ( ErrUnsupportedSQLStructure ,
      { ErrCode := ErrUnsupportedSQLStructure , Code := "UnsupportedSqlStructure",
        Description := "Encountered an unsupported SQL structure. Check the SQL Reference.", HTTPStatusCode := 400 }),
    ( ErrUnsupportedSyntax ,
      { ErrCode := ErrUnsupportedSyntax , Code := "UnsupportedSyntax",
        Description := "Encountered invalid syntax.", HTTPStatusCode := 400 }),
    ( ErrUnsupportedRangeHeader ,
      { ErrCode := ErrUnsupportedRangeHeader , Code := "UnsupportedRangeHeader",
        Description := "Range header is not supported for this operation.", HTTPStatusCode := 400 }),
    ( ErrLexerInvalidChar ,
      { ErrCode := ErrLexerInvalidChar , Code := "LexerInvalidChar",
        Description := "The SQL expression contains an invalid character.", HTTPStatusCode := 400 }),
    ( ErrLexerInvalidOperator ,
      { ErrCode := ErrLexerInvalidOperator , Code := "LexerInvalidOperator",
        Description := "The SQL expression contains an invalid literal.", HTTPStatusCode := 400 }),
    ( ErrLexerInvalidLiteral ,
      { ErrCode := ErrLexerInvalidLiteral , Code := "LexerInvalidLiteral",
        Description := "The SQL expression contains an invalid operator.", HTTPStatusCode := 400 }),
    ( ErrLexerInvalidIONLiteral ,
      { ErrCode := ErrLexerInvalidIONLiteral , Code := "LexerInvalidIONLiteral",
        Description := "The SQL expression contains an invalid operator.", HTTPStatusCode := 400 }),
    ( ErrParseExpectedDatePart ,
      { ErrCode := ErrParseExpectedDatePart , Code := "ParseExpectedDatePart",
        Description := "Did not find the expected date part in the SQL expression.", HTTPStatusCode := 400 })]

/-- Entries 201 to 220 of the map literal `errorCodes`. -/
def errorCodesPart11 : List (ErrorCode × Error) :=
  [ ( ErrParseExpectedKeyword ,
      { ErrCode := ErrParseExpectedKeyword , Code := "ParseExpectedKeyword",
        Description := "Did not find the expected keyword in the SQL expression.", HTTPStatusCode := 400 }),
    ( ErrParseExpectedTokenType ,
      { ErrCode := ErrParseExpectedTokenType , Code := "ParseExpectedTokenType",
        Description := "Did not find the expected token in the SQL expression.", HTTPStatusCode := 400 }),
    ( ErrParseExpected2TokenTypes ,
      { ErrCode := ErrParseExpected2TokenTypes , Code := "ParseExpected2TokenTypes",
        Description := "Did not find the expected token in the SQL expression.", HTTPStatusCode := 400 }),
    ( ErrParseExpectedNumber ,
      { ErrCode := ErrParseExpectedNumber , Code := "ParseExpectedNumber",
        Description := "Did not find the expected number in the SQL expression.", HTTPStatusCode := 400 }),
    ( ErrParseExpectedRightParenBuiltinFunctionCall ,
      { ErrCode := ErrParseExpectedRightParenBuiltinFunctionCall , Code := "ParseExpectedRightParenBuiltinFunctionCall",
        Description := "Did not find the expected right parenthesis character in the SQL expression.", HTTPStatusCode := 400 }),
    ( ErrParseExpectedTypeName ,
      { ErrCode := ErrParseExpectedTypeName , Code := "ParseExpectedTypeName",
        Description := "Did not find the expected type name in the SQL expression.", HTTPStatusCode := 400 }),
    ( ErrParseExpectedWhenClause ,
      { ErrCode := ErrParseExpectedWhenClause , Code := "ParseExpectedWhenClause",
        Description := "Did not find the expected WHEN clause in the SQL expression. CASE is not supported.", HTTPStatusCode := 400 }),
    ( ErrParseUnsupportedToken ,
      { ErrCode := ErrParseUnsupportedToken , Code := "ParseUnsupportedToken",
        Description := "The SQL expression contains an unsupported token.", HTTPStatusCode := 400 }),
    ( ErrParseUnsupportedLiteralsGroupBy ,
      { ErrCode := ErrParseUnsupportedLiteralsGroupBy , Code := "ParseUnsupportedLiteralsGroupBy",
        Description := "The SQL expression contains an unsupported use of GROUP BY.", HTTPStatusCode := 400 }),
    ( ErrParseExpectedMember ,
      { ErrCode := ErrParseExpectedMember , Code := "ParseExpectedMember",
        Description := "The SQL expression contains an unsupported use of MEMBER.", HTTPStatusCode := 400 }),
    ( ErrParseUnsupportedSelect ,
      { ErrCode := ErrParseUnsupportedSelect , Code := "ParseUnsupportedSelect",
        Description := "The SQL expression contains an unsupported use of SELECT.", HTTPStatusCode := 400 }),
    ( ErrParseUnsupportedCase ,
      { ErrCode := ErrParseUnsupportedCase , Code := "ParseUnsupportedCase",
        Description := "The SQL expression contains an unsupported use of CASE.", HTTPStatusCode := 400 }),
    ( ErrParseUnsupportedCaseClause ,
      { ErrCode := ErrParseUnsupportedCaseClause , Code := "ParseUnsupportedCaseClause",
        Description := "The SQL expression contains an unsupported use of CASE.", HTTPStatusCode := 400 }),
    ( ErrParseUnsupportedAlias ,
      { ErrCode := ErrParseUnsupportedAlias , Code := "ParseUnsupportedAlias",
        Description := "The SQL expression contains an unsupported use of ALIAS.", HTTPStatusCode := 400 }),
    ( ErrParseUnsupportedSyntax ,
      { ErrCode := ErrParseUnsupportedSyntax , Code := "ParseUnsupportedSyntax",
        Description := "The SQL expression contains unsupported syntax.", HTTPStatusCode := 400 }),
    ( ErrParseUnknownOperator ,
      { ErrCode := ErrParseUnknownOperator , Code := "ParseUnknownOperator",
        Description := "The SQL expression contains an invalid operator.", HTTPStatusCode := 400 }),
    ( ErrParseMissingIdentAfterAt ,
      { ErrCode := ErrParseMissingIdentAfterAt , Code := "ParseMissingIdentAfterAt",
        Description := "Did not find the expected identifier after the @ symbol in the SQL expression.", HTTPStatusCode := 400 }),
    ( ErrParseUnexpectedOperator ,
      { ErrCode := ErrParseUnexpectedOperator , Code := "ParseUnexpectedOperator",
        Description := "The SQL expression contains an unexpected operator.", HTTPStatusCode := 400 }),
    ( ErrParseUnexpectedTerm ,
      { ErrCode := ErrParseUnexpectedTerm , Code := "ParseUnexpectedTerm",
        Description := "The SQL expression contains an unexpected term.", HTTPStatusCode := 400 }),
    ( ErrParseUnexpectedToken ,
      { ErrCode := ErrParseUnexpectedToken , Code := "ParseUnexpectedToken",
        Description := "The SQL expression contains an unexpected token.", HTTPStatusCode := 400 })]

/-- Entries 221 to 240 of the map literal `errorCodes`. -/
def errorCodesPart12 : List (ErrorCode × Error) :=
  [ ( ErrParseUnexpectedKeyword ,
      { ErrCode := ErrParseUnexpectedKeyword , Code := "ParseUnexpectedKeyword",
        Description := "The SQL expression contains an unexpected keyword.", HTTPStatusCode := 400 }),
    ( ErrParseExpectedExpression ,
      { ErrCode := ErrParseExpectedExpression , Code := "ParseExpectedExpression",
        Description := "Did not find the expected SQL expression.", HTTPStatusCode := 400 }),
    ( ErrParseExpectedLeftParenAfterCast ,
      { ErrCode := ErrParseExpectedLeftParenAfterCast , Code := "ParseExpectedLeftParenAfterCast",
        Description := "Did not find expected the left parenthesis in the SQL expression.", HTTPStatusCode := 400 }),
    ( ErrParseExpectedLeftParenValueConstructor ,
      { ErrCode := ErrParseExpectedLeftParenValueConstructor , Code := "ParseExpectedLeftParenValueConstructor",
        Description := "Did not find expected the left parenthesis in the SQL expression.", HTTPStatusCode := 400 }),
    ( ErrParseExpectedLeftParenBuiltinFunctionCall ,
      { ErrCode := ErrParseExpectedLeftParenBuiltinFunctionCall , Code := "ParseExpectedLeftParenBuiltinFunctionCall",
        Description := "Did not find the expected left parenthesis in the SQL expression.", HTTPStatusCode := 400 }),
    ( ErrParseExpectedArgumentDelimiter ,
      { ErrCode := ErrParseExpectedArgumentDelimiter , Code := "ParseExpectedArgumentDelimiter",
        Description := "Did not find the expected argument delimiter in the SQL expression.", HTTPStatusCode := 400 }),
    ( ErrParseCastArity ,
      { ErrCode := ErrParseCastArity , Code := "ParseCastArity",
        Description := "The SQL expression CAST has incorrect arity.", HTTPStatusCode := 400 }),
    ( ErrParseInvalidTypeParam ,
      { ErrCode := ErrParseInvalidTypeParam , Code := "ParseInvalidTypeParam",
        Description := "The SQL expression contains an invalid parameter value.", HTTPStatusCode := 400 }),
    ( ErrParseEmptySelect ,
      { ErrCode := ErrParseEmptySelect , Code := "ParseEmptySelect",
        Description := "The SQL expression contains an empty SELECT.", HTTPStatusCode := 400 }),
    ( ErrParseSelectMissingFrom ,
      { ErrCode := ErrParseSelectMissingFrom , Code := "ParseSelectMissingFrom",
        Description := "GROUP is not supported in the SQL expression.", HTTPStatusCode := 400 }),
    ( ErrParseExpectedIdentForGroupName ,
      { ErrCode := ErrParseExpectedIdentForGroupName , Code := "ParseExpectedIdentForGroupName",
        Description := "GROUP is not supported in the SQL expression.", HTTPStatusCode := 400 }),
    ( ErrParseExpectedIdentForAlias ,
      { ErrCode := ErrParseExpectedIdentForAlias , Code := "ParseExpectedIdentForAlias",
        Description := "Did not find the expected identifier for the alias in the SQL expression.", HTTPStatusCode := 400 }),
    ( ErrParseUnsupportedCallWithStar ,
      { ErrCode := ErrParseUnsupportedCallWithStar , Code := "ParseUnsupportedCallWithStar",
        Description := "Only COUNT with (*) as a parameter is supported in the SQL expression.", HTTPStatusCode := 400 }),
    ( ErrParseNonUnaryAgregateFunctionCall ,
      { ErrCode := ErrParseNonUnaryAgregateFunctionCall , Code := "ParseNonUnaryAgregateFunctionCall",
        Description := "Only one argument is supported for aggregate functions in the SQL expression.", HTTPStatusCode := 400 }),
    ( ErrParseMalformedJoin ,
      { ErrCode := ErrParseMalformedJoin , Code := "ParseMalformedJoin",
        Description := "JOIN is not supported in the SQL expression.", HTTPStatusCode := 400 }),
    ( ErrParseExpectedIdentForAt ,
      { ErrCode := ErrParseExpectedIdentForAt , Code := "ParseExpectedIdentForAt",
        Description := "Did not find the expected identifier for AT name in the SQL expression.", HTTPStatusCode := 400 }),
    ( ErrParseAsteriskIsNotAloneInSelectList ,
      { ErrCode := ErrParseAsteriskIsNotAloneInSelectList , Code := "ParseAsteriskIsNotAloneInSelectList",
        Description := "Other expressions are not allowed in the SELECT list when \x27*\x27 is used without dot notation in the SQL expression.", HTTPStatusCode := 400 }),
    ( ErrParseCannotMixSqbAndWildcardInSelectList ,
      { ErrCode := ErrParseCannotMixSqbAndWildcardInSelectList , Code := "ParseCannotMixSqbAndWildcardInSelectList",
        Description := "Cannot mix [] and * in the same expression in a SELECT list in SQL expression.", HTTPStatusCode := 400 }),
    ( ErrParseInvalidContextForWildcardInSelectList ,
      { ErrCode := ErrParseInvalidContextForWildcardInSelectList , Code := "ParseInvalidContextForWildcardInSelectList",
        Description := "Invalid use of * in SELECT list in the SQL expression.", HTTPStatusCode := 400 }),
    ( ErrIncorrectSQLFunctionArgumentType ,
      { ErrCode := ErrIncorrectSQLFunctionArgumentType , Code := "IncorrectSqlFunctionArgumentType",
        Description := "Incorrect type of arguments in function call in the SQL expression.", HTTPStatusCode := 400 })]

/-- Entries 241 to 260 of the map literal `errorCodes`. -/
def errorCodesPart13 : List (ErrorCode × Error) :=
  [ ( ErrValueParseFailure ,
      { ErrCode := ErrValueParseFailure , Code := "ValueParseFailure",
        Description := "Time stamp parse failure in the SQL expression.", HTTPStatusCode := 400 }),
    ( ErrEvaluatorInvalidArguments ,
      { ErrCode := ErrEvaluatorInvalidArguments , Code := "EvaluatorInvalidArguments",
        Description := "Incorrect number of arguments in the function call in the SQL expression.", HTTPStatusCode := 400 }),
    ( ErrIntegerOverflow ,
      { ErrCode := ErrIntegerOverflow , Code := "IntegerOverflow",
        Description := "Int overflow or underflow in the SQL expression.", HTTPStatusCode := 400 }),
    ( ErrLikeInvalidInputs ,
      { ErrCode := ErrLikeInvalidInputs , Code := "LikeInvalidInputs",
        Description := "Invalid argument given to the LIKE clause in the SQL expression.", HTTPStatusCode := 400 }),
    ( ErrCastFailed ,
      { ErrCode := ErrCastFailed , Code := "CastFailed",
        Description := "Attempt to convert from one data type to another using CAST failed in the SQL expression.", HTTPStatusCode := 400 }),
    ( ErrInvalidCast ,
      { ErrCode := ErrInvalidCast , Code := "InvalidCast",
        Description := "Attempt to convert from one data type to another using CAST failed in the SQL expression.", HTTPStatusCode := 400 }),
    ( ErrEvaluatorInvalidTimestampFormatPattern ,
      { ErrCode := ErrEvaluatorInvalidTimestampFormatPattern , Code := "EvaluatorInvalidTimestampFormatPattern",
        Description := "Time stamp format pattern requires additional fields in the SQL expression.", HTTPStatusCode := 400 }),
    ( ErrEvaluatorInvalidTimestampFormatPatternSymbolForParsing ,
      { ErrCode := ErrEvaluatorInvalidTimestampFormatPatternSymbolForParsing , Code := "EvaluatorInvalidTimestampFormatPatternSymbolForParsing",
        Description := "Time stamp format pattern contains a valid format symbol that cannot be applied to time stamp parsing in the SQL expression.", HTTPStatusCode := 400 }),
    ( ErrEvaluatorTimestampFormatPatternDuplicateFields ,
      { ErrCode := ErrEvaluatorTimestampFormatPatternDuplicateFields , Code := "EvaluatorTimestampFormatPatternDuplicateFields",
        Description := "Time stamp format pattern contains multiple format specifiers representing the time stamp field in the SQL expression.", HTTPStatusCode := 400 }),
    ( ErrEvaluatorTimestampFormatPatternHourClockAmPmMismatch ,
      { ErrCode := ErrEvaluatorTimestampFormatPatternHourClockAmPmMismatch , Code := "EvaluatorUnterminatedTimestampFormatPatternToken",
        Description := "Time stamp format pattern contains unterminated token in the SQL expression.", HTTPStatusCode := 400 }),
    ( ErrEvaluatorUnterminatedTimestampFormatPatternToken ,
      { ErrCode := ErrEvaluatorUnterminatedTimestampFormatPatternToken , Code := "EvaluatorInvalidTimestampFormatPatternToken",
        Description := "Time stamp format pattern contains an invalid token in the SQL expression.", HTTPStatusCode := 400 }),
    ( ErrEvaluatorInvalidTimestampFormatPatternToken ,
      { ErrCode := ErrEvaluatorInvalidTimestampFormatPatternToken , Code := "EvaluatorInvalidTimestampFormatPatternToken",
        Description := "Time stamp format pattern contains an invalid token in the SQL expression.", HTTPStatusCode := 400 }),
    ( ErrEvaluatorInvalidTimestampFormatPatternSymbol ,
      { ErrCode := ErrEvaluatorInvalidTimestampFormatPatternSymbol , Code := "EvaluatorInvalidTimestampFormatPatternSymbol",
        Description := "Time stamp format pattern contains an invalid symbol in the SQL expression.", HTTPStatusCode := 400 }),
    ( ErrEvaluatorBindingDoesNotExist ,
      { ErrCode := ErrEvaluatorBindingDoesNotExist , Code := "ErrEvaluatorBindingDoesNotExist",
        Description := "A column name or a path provided does not exist in the SQL expression", HTTPStatusCode := 400 }),
    ( ErrMissingHeaders ,
      { ErrCode := ErrMissingHeaders , Code := "MissingHeaders",
        Description := "Some headers in the query are missing from the file. Check the file and try again.", HTTPStatusCode := 400 }),
    ( ErrInvalidColumnIndex ,
      { ErrCode := ErrInvalidColumnIndex , Code := "InvalidColumnIndex",
        Description := "The column index is invalid. Please check the service documentation and try again.", HTTPStatusCode := 400 }),
    ( ErrInvalidDecompressedSize ,
      { ErrCode := ErrInvalidDecompressedSize , Code := "XMinioInvalidDecompressedSize",
        Description := "The data provided is unfit for decompression", HTTPStatusCode := 400 }),
    ( ErrAddUserInvalidArgument ,
      { ErrCode := ErrAddUserInvalidArgument , Code := "XMinioInvalidIAMCredentials",
        Description := "User is not allowed to be same as admin access key", HTTPStatusCode := 409 }),
    ( ErrAdminAccountNotEligible ,
      { ErrCode := ErrAdminAccountNotEligible , Code := "XMinioInvalidIAMCredentials",
        Description := "The administrator key is not eligible for this operation", HTTPStatusCode := 409 }),
    ( ErrServiceAccountNotFound ,
      { ErrCode := ErrServiceAccountNotFound , Code := "XMinioInvalidIAMCredentials",
        Description := "The specified service account is not found", HTTPStatusCode := 404 })]

/-- Entries 261 to 261 of the map literal `errorCodes`. -/
def errorCodesPart14 : List (ErrorCode × Error) :=
  [ ( ErrPostPolicyConditionInvalidFormat ,
      { ErrCode := ErrPostPolicyConditionInvalidFormat , Code := "PostPolicyInvalidKeyName",
        Description := "Invalid according to Policy: Policy Condition failed", HTTPStatusCode := 403 })]

/-- The table `errorCodes`: the entries of the map literal in source order.
The keys of a Go map literal are pairwise distinct. -/
def errorCodes : List (ErrorCode × Error) :=
  errorCodesPart1 ++
    errorCodesPart2 ++
    errorCodesPart3 ++
    errorCodesPart4 ++
    errorCodesPart5 ++
    errorCodesPart6 ++
    errorCodesPart7 ++
    errorCodesPart8 ++
    errorCodesPart9 ++
    errorCodesPart10 ++
    errorCodesPart11 ++
    errorCodesPart12 ++
    errorCodesPart13 ++
    errorCodesPart14

/-- The zero value of `Error`, which indexing the map with an absent key
yields. -/
def zeroError : Error := { ErrCode := 0, Code := "", Description := "", HTTPStatusCode := 0 }

/-- `errorCodeMap.toAPIErrWithErr`; `err` is the message of the error, `none`
for nil. -/
def toAPIErrWithErr (e : List (ErrorCode × Error)) (errCode : ErrorCode) (err : Option String) :
    Error :=
  let apiErr :=
    match e.lookup errCode with
    | some apiErr => apiErr
    | none => (e.lookup ErrInternalError).getD zeroError
  match err with
  | some msg => { apiErr with Description := apiErr.Description ++ " (" ++ msg ++ ")" }
  | none => apiErr

/-- `errorCodeMap.toAPIErr`. -/
def toAPIErr (e : List (ErrorCode × Error)) (errCode : ErrorCode) : Error :=
  toAPIErrWithErr e errCode none

/-- `GetAPIError`. -/
def GetAPIError (code : ErrorCode) : Error :=
  match errorCodes.lookup code with
  | some apiErr => apiErr
  | none => toAPIErr errorCodes ErrInternalError

end errors

/-! ## Go strings

A Go string is a sequence of bytes; string constants and the strings of
protobuf messages are the UTF-8 encoding of their text. -/

section goStrings

/-- A Go `string`. -/
abbrev GoString := Bytes

/-- UTF-8 encoding of one character. -/
def utf8EncodeChar (c : Char) : Bytes :=
  let n := c.toNat
  if n < 0x80 then [byteOfNat n]
  else if n < 0x800 then [byteOfNat (0xC0 + n / 64), byteOfNat (0x80 + n % 64)]
  else if n < 0x10000 then
    [byteOfNat (0xE0 + n / 4096), byteOfNat (0x80 + n / 64 % 64), byteOfNat (0x80 + n % 64)]
  else
    [byteOfNat (0xF0 + n / 262144), byteOfNat (0x80 + n / 4096 % 64),
      byteOfNat (0x80 + n / 64 % 64), byteOfNat (0x80 + n % 64)]

/-- The Go string of a text: its UTF-8 encoding. -/
def goString (s : String) : GoString := s.toList.flatMap utf8EncodeChar

/-- `strings.HasPrefix`. -/
def stringsHasPrefix (s pre : GoString) : Bool := pre.isPrefixOf s

/-- `strings.HasSuffix`. -/
def stringsHasSuffix (s suffix : GoString) : Bool := suffix.isSuffixOf s

/-- `strings.TrimPrefix`. -/
def stringsTrimPrefix (s pre : GoString) : GoString :=
  if stringsHasPrefix s pre then s.drop pre.length else s

/-- `strings.Index`: the index of the first occurrence of `substr` in `s`, or
-1. -/
def stringsIndex (substr : GoString) : GoString → Int
  | [] => if substr = [] then 0 else -1
  | b :: rest =>
    if substr.isPrefixOf (b :: rest) then 0
    else
      let r := stringsIndex substr rest
      if r < 0 then -1 else r + 1

/-- `strings.LastIndex`: the index of the last occurrence of `substr` in `s`,
or -1. -/
def stringsLastIndex (substr : GoString) : GoString → Int
  | [] => if substr = [] then 0 else -1
  | b :: rest =>
    let r := stringsLastIndex substr rest
    if 0 ≤ r then r + 1
    else if substr.isPrefixOf (b :: rest) then 0
    else -1

/-- `strings.Split(s, sep)` for a separator of one byte, as the sources call
it (with `.` and with `,`). -/
def stringsSplit (sep : Byte) : GoString → List GoString
  | [] => [[]]
  | b :: rest =>
    if b = sep then [] :: stringsSplit sep rest
    else
      match stringsSplit sep rest with
      | [] => [[b]]
      | piece :: pieces => (b :: piece) :: pieces

/-- The comparison `a <= b` of Go strings: lexicographic on bytes. -/
def stringLE : GoString → GoString → Bool
  | [], _ => true
  | _ :: _, [] => false
  | a :: as, b :: bs => if a < b then true else if b < a then false else stringLE as bs

/-- The constant `utf8.RuneError`. -/
def RuneError : Nat := 0xFFFD

/-- For a leading byte of a multi-byte encoding: the size of the encoding and
the accepted range of the second byte (the tables `first` and `acceptRanges`
of package `unicode/utf8`). -/
def runeShape (s0 : Nat) : Option (Nat × Nat × Nat) :=
  if 0xC2 ≤ s0 ∧ s0 ≤ 0xDF then some (2, 0x80, 0xBF)
  else if s0 = 0xE0 then some (3, 0xA0, 0xBF)
  else if (0xE1 ≤ s0 ∧ s0 ≤ 0xEC) ∨ s0 = 0xEE ∨ s0 = 0xEF then some (3, 0x80, 0xBF)
  else if s0 = 0xED then some (3, 0x80, 0x9F)
  else if s0 = 0xF0 then some (4, 0x90, 0xBF)
  else if 0xF1 ≤ s0 ∧ s0 ≤ 0xF3 then some (4, 0x80, 0xBF)
  else if s0 = 0xF4 then some (4, 0x80, 0x8F)
  else none

/-- Decoding of the first rune of a non-empty string, as `for range` over a
string and `utf8.DecodeRuneInString` do: the rune and its width in bytes; an
invalid encoding yields `RuneError` with width 1. -/
def decodeRune : GoString → Nat × Nat
  | [] => (RuneError, 0)
  | s0 :: rest =>
    if s0.val < 0x80 then (s0.val, 1)
    else
      match runeShape s0.val with
      | none => (RuneError, 1)
      | some (sz, lo, hi) =>
        if rest.length + 1 < sz then (RuneError, 1)
        else
          let s1 := (rest.getD 0 0).val
          let s2 := (rest.getD 1 0).val
          let s3 := (rest.getD 2 0).val
          if s1 < lo ∨ hi < s1 then (RuneError, 1)
          else if sz ≤ 2 then (s0.val % 32 * 64 + s1 % 64, 2)
          else if s2 < 0x80 ∨ 0xBF < s2 then (RuneError, 1)
          else if sz ≤ 3 then (s0.val % 16 * 4096 + s1 % 64 * 64 + s2 % 64, 3)
          else if s3 < 0x80 ∨ 0xBF < s3 then (RuneError, 1)
          else (s0.val % 8 * 262144 + s1 % 64 * 4096 + s2 % 64 * 64 + s3 % 64, 4)

/-- `int64(n)` for an unsigned 64-bit `n`. -/
def toInt64 (n : Nat) : Int :=
  if n % 2 ^ 64 < 2 ^ 63 then (n % 2 ^ 64 : Nat) else (n % 2 ^ 64 : Nat) - 2 ^ 64

/-- Value of a string of decimal digits, `none` when a character is no digit
or the string is empty. -/
def parseDigits : List Char → Option Nat
  | [] => none
  | cs =>
    cs.foldl
      (fun acc c =>
        match acc with
        | none => none
        | some n => if '0' ≤ c ∧ c ≤ '9' then some (n * 10 + (c.toNat - '0'.toNat)) else none)
      (some 0)

/-- `strconv.ParseInt(s, 10, 64)`: `none` when it returns an error (bad syntax
or out of range). -/
def parseInt64 (s : String) : Option Int :=
  match s.toList with
  | [] => none
  | c :: rest =>
    if c = '-' then
      match parseDigits rest with
      | some n => if n ≤ 2 ^ 63 then some (-(n : Int)) else none
      | none => none
    else
      match parseDigits (if c = '+' then rest else c :: rest) with
      | some n => if n < 2 ^ 63 then some (n : Int) else none
      | none => none

end goStrings

/-! ## Package handler -/

namespace handler

/-- The constant `api.ContentType`. -/
def ContentType : GoString := goString "Content-Type"

/-- The struct `policyCondition`. -/
structure policyCondition where
  Matching : GoString
  Key : GoString
  Value : GoString
  Matched : Bool
  deriving DecidableEq, Repr

/-- The struct `postPolicy`; `Expiration` in Unix seconds. -/
structure postPolicy where
  Expiration : Int
  Conditions : List policyCondition
  empty : Bool
  deriving DecidableEq, Repr

/-- The loop of `CheckContentLength` over the conditions. -/
def contentLengthLoop (size : Int) : List policyCondition → Bool
  | [] => true
  | condition :: rest =>
    if condition.Matching = goString "content-length-range" then
      let length := goString (formatInt size)
      stringLE condition.Key length && stringLE length condition.Value
    else contentLengthLoop size rest

/-- `(*postPolicy).CheckContentLength`. -/
def postPolicy.CheckContentLength (p : postPolicy) (size : Int) : Bool :=
  if p.empty then true else contentLengthLoop size p.Conditions

/-- `(*policyCondition).match`: the returned value and the condition after
the call. -/
def policyCondition.match_ (p : policyCondition) (value : GoString) : Bool × policyCondition :=
  let p1 : policyCondition :=
    if p.Matching = goString "eq" then { p with Matched := decide (p.Value = value) }
    else if p.Matching = goString "starts-with" then
      if p.Key = ContentType then
        (stringsSplit 44 value).foldl
          (fun q contentType =>
            if !stringsHasPrefix contentType q.Value then { q with Matched := false } else q)
          { p with Matched := true }
      else { p with Matched := stringsHasPrefix value p.Value }
    else p
  (p1.Matched, p1)

/-- `isAlphaNum`. -/
def isAlphaNum (char : Nat) : Bool :=
  ('a'.toNat ≤ char && char ≤ 'z'.toNat) || ('0'.toNat ≤ char && char ≤ '9'.toNat)

/-- The loop `for i, r := range label` of `checkBucketName`: `i` is the byte
index of the rune decoded next, `s` the rest of the label from there, the
first argument bounds the number of iterations.  The result is `true` when the
loop runs through without returning an error. -/
def checkLabelRunes (labelLen : Nat) : Nat → Nat → GoString → Bool
  | 0, _, _ => true
  | _ + 1, _, [] => true
  | fuel + 1, i, b :: rest =>
    let r := (decodeRune (b :: rest)).1
    let w := (decodeRune (b :: rest)).2
    if !isAlphaNum r && r != '-'.toNat then false
    else if (i == 0 || i == labelLen - 1) && r == '-'.toNat then false
    else checkLabelRunes labelLen fuel (i + w) ((b :: rest).drop w)

/-- The loop of `checkBucketName` over the labels: `true` when no label makes
it return an error. -/
def checkLabels : List GoString → Bool
  | [] => true
  | label :: rest =>
    if label.length = 0 then false
    else if !checkLabelRunes label.length label.length 0 label then false
    else checkLabels rest

/-- `checkBucketName`; `parseIP s` tells whether `net.ParseIP(s)` is not nil;
the result is the returned error, `none` for nil. -/
def checkBucketName (parseIP : GoString → Bool) (bucketName : GoString) : Option errors.Error :=
  if bucketName.length < 3 ∨ bucketName.length > 63 then
    some (errors.GetAPIError errors.ErrInvalidBucketName)
  else if stringsHasPrefix bucketName (goString "xn--") ∨
      stringsHasSuffix bucketName (goString "-s3alias") then
    some (errors.GetAPIError errors.ErrInvalidBucketName)
  else if parseIP bucketName then some (errors.GetAPIError errors.ErrInvalidBucketName)
  else if !checkLabels (stringsSplit 46 bucketName) then
    some (errors.GetAPIError errors.ErrInvalidBucketName)
  else none

end handler

/-! ## Package layer -/

namespace layer

/-- The constant `PathSeparator`, `string(os.PathSeparator)`: the slash on the
Unix targets of the gateway. -/
def PathSeparator : GoString := goString "/"

/-- `NameFromString`: base file name and directory path. -/
def NameFromString (name : GoString) : GoString × GoString :=
  let ind := stringsLastIndex PathSeparator name
  (name.drop (ind + 1).toNat, name.take (ind + 1).toNat)

/-- The constant `object.AttributeContentType`. -/
def AttributeContentType : String := "Content-Type"

/-- What the sources read of an `object.Object`: `IDString` is `ID().String()`,
`PayloadChecksumString` is `PayloadChecksum().String()`, `PayloadSize` is an
unsigned 64-bit number. -/
structure Object where
  ID : ObjectID
  IDString : String
  Attributes : List Attribute
  PayloadSize : Nat
  CreationEpoch : Nat
  OwnerID : OwnerID
  PayloadChecksumString : String
  deriving DecidableEq, Repr

/-- The fields of `api.BucketInfo` the sources read. -/
structure BucketInfo where
  Name : String
  CID : ContainerID
  deriving DecidableEq, Repr

/-- A Go `map[string]string`, as the list of its entries with pairwise
distinct keys. -/
abbrev StringMap := List (String × String)

/-- The map lookup `m[k]` with its `ok` result. -/
def mapGet (m : StringMap) (k : String) : Option String :=
  match m with
  | [] => none
  | (k1, v1) :: rest => if k1 = k then some v1 else mapGet rest k

/-- The assignment `m[k] = v`. -/
def mapSet (m : StringMap) (k v : String) : StringMap :=
  match m with
  | [] => [(k, v)]
  | (k1, v1) :: rest => if k1 = k then (k, v) :: rest else (k1, v1) :: mapSet rest k v

/-- The builtin `delete(m, k)`. -/
def mapDelete (m : StringMap) (k : String) : StringMap :=
  match m with
  | [] => []
  | (k1, v1) :: rest => if k1 = k then mapDelete rest k else (k1, v1) :: mapDelete rest k

/-- `userHeaders`. -/
def userHeaders (attrs : List Attribute) : StringMap :=
  attrs.foldl (fun result attr => mapSet result attr.Key attr.Value) []

/-- The loop of `filenameFromObject`. -/
def filenameLoop (name : String) : List Attribute → String
  | [] => name
  | attr :: rest => if attr.Key = AttributeFileName then attr.Value else filenameLoop name rest

/-- `filenameFromObject`. -/
def filenameFromObject (o : Object) : GoString :=
  goString (filenameLoop o.IDString o.Attributes)

/-- The fields of `api.ObjectInfo` that `objectInfoFromMeta` sets (the struct
is declared outside the sources at hand).  `Created` is `none` for the zero
`time.Time` and `some dt` for `time.Unix(dt, 0)`; `Headers` is `none` for a nil
map. -/
structure ObjectInfo where
  ID : ObjectID
  CID : ContainerID
  IsDir : Bool
  Bucket : String
  Name : GoString
  Created : Option Int
  CreationEpoch : Nat
  ContentType : String
  Headers : Option StringMap
  Owner : OwnerID
  Size : Int
  HashSum : String
  deriving DecidableEq, Repr

/-- `objectInfoFromMeta`; the result is `none` for a nil pointer. -/
def objectInfoFromMeta (bkt : BucketInfo) (meta : Object) (pfx delimiter : GoString) :
    Option ObjectInfo :=
  let filename := filenameFromObject meta
  if !stringsHasPrefix filename pfx then none
  else
    let userHeaders0 := mapDelete (userHeaders meta.Attributes) AttributeFileName
    let contentType := mapGet userHeaders0 AttributeContentType
    let mimeType := contentType.getD ""
    let userHeaders1 :=
      match contentType with
      | some _ => mapDelete userHeaders0 AttributeContentType
      | none => userHeaders0
    let creation := (mapGet userHeaders1 AttributeTimestamp).bind parseInt64
    let userHeaders2 :=
      match creation with
      | some _ => mapDelete userHeaders1 AttributeTimestamp
      | none => userHeaders1
    let file : ObjectInfo :=
      { ID := meta.ID, CID := bkt.CID, IsDir := false, Bucket := bkt.Name,
        Name := filename, Created := creation, CreationEpoch := meta.CreationEpoch,
        ContentType := mimeType, Headers := some userHeaders2, Owner := meta.OwnerID,
        Size := toInt64 meta.PayloadSize, HashSum := meta.PayloadChecksumString }
    if 0 < delimiter.length then
      let tail := stringsTrimPrefix filename pfx
      let index := stringsIndex delimiter tail
      if 0 ≤ index then
        some
          { ID := meta.ID, CID := bkt.CID, IsDir := true, Bucket := bkt.Name,
            Name := pfx ++ tail.take (index + 1).toNat, Created := creation,
            CreationEpoch := meta.CreationEpoch, ContentType := "", Headers := none,
            Owner := meta.OwnerID, Size := 0, HashSum := meta.PayloadChecksumString }
      else some file
    else some file

end layer

section layerVocabulary

/-- The value of the last attribute with key `k`, which is the value a map
filled in the order of the attributes holds for `k`. -/
def lastAttribute : List Attribute → String → Option String
  | [], _ => none
  | attr :: rest, k =>
    match lastAttribute rest k with
    | some v => some v
    | none => if attr.Key = k then some attr.Value else none

/-- An object named `a--b` with a time stamp and one more attribute. -/
def toyObject : layer.Object :=
  { ID := [2], IDString := "id",
    Attributes :=
      [{ Key := "FileName", Value := "a--b" }, { Key := "Timestamp", Value := "12" },
       { Key := "Content-Type", Value := "text/plain" }, { Key := "x", Value := "y" }],
    PayloadSize := 7, CreationEpoch := 1, OwnerID := [3], PayloadChecksumString := "cs" }

/-- A bucket. -/
def toyBucket : layer.BucketInfo := { Name := "b", CID := [1] }

end layerVocabulary

section degenerateInputs

/-- The key with nil coordinates, by which the key library represents the
point at infinity: it is what `keys.NewPublicKeyFromBytes` returns, with a nil
error, for the single byte 0. -/
def infinityKey : PublicKey := { Curve := Curve.P256, X := none, Y := none }

/-- A box whose owner key is the encoding of the point at infinity, with no
gate. -/
def toyBoxInfinityOwner : AccessBox :=
  { OwnerPublicKey := [0], Gates := [], ContainerPolicy := [] }

/-- The toy box with its owner key replaced by the encoding of the point at
infinity; its two gates are kept. -/
def toyBoxInfinityGates : AccessBox := { toyBox with OwnerPublicKey := [0] }

/-- An object named `f` that carries the attribute key `x` twice. -/
def toyObjectRepeated : layer.Object :=
  { ID := [2], IDString := "id",
    Attributes :=
      [{ Key := "FileName", Value := "f" }, { Key := "x", Value := "1" },
       { Key := "x", Value := "2" }],
    PayloadSize := 7, CreationEpoch := 1, OwnerID := [3], PayloadChecksumString := "cs" }

end degenerateInputs

/-! ## Lemmas on the envelope protocol -/

section lemmas

variable {σ BT ST PP : Type} {L : Lib σ BT ST PP} {Valid : PrivateKey → Prop}

theorem getCipher_comm (hL : L.Laws Valid) {a b : PrivateKey} (ha : Valid a) (hb : Valid b) :
    getCipher L a b.PublicKey = getCipher L b a.PublicKey := by
  have h := hL.ecdh_comm a b ha hb
  simp only [getCipher, generateShared256, hL.valid_curve a ha, hL.valid_curve b hb, h]

theorem getCipher_ok {owner : PrivateKey} {sender : PublicKey} {a : AEAD}
    (h : getCipher L owner sender = .ok a) : ∃ key, L.NewX key = .ok a := by
  unfold getCipher at h
  split at h
  · cases h
  · split at h
    · cases h
    · exact ⟨_, h⟩

/-- Shape of a successful `encrypt`. -/
theorem encrypt_ok (hL : L.Laws Valid) {owner : PrivateKey} {sender : PublicKey}
    {data enc : Bytes} {s s1 : σ} (h : encrypt L owner sender data s = .ok (enc, s1)) :
    ∃ a nonce, getCipher L owner sender = .ok a ∧ nonce.length = a.NonceSize ∧
      enc = nonce ++ a.Seal nonce data [] := by
  unfold encrypt at h
  split at h
  · cases h
  · rename_i a ha
    split at h
    · cases h
    · rename_i nonce s2 hr
      have hlen := hL.rand_length _ _ _ _ hr
      simp only [Except.ok.injEq, Prod.mk.injEq] at h
      exact ⟨a, nonce, ha, hlen, h.1.symm⟩

/-- The recipient opens what the packer sealed for it. -/
theorem decrypt_encrypt (hL : L.Laws Valid) {eph r : PrivateKey} (he : Valid eph)
    (hr : Valid r) {data enc : Bytes} {s s1 : σ}
    (h : encrypt L eph r.PublicKey data s = .ok (enc, s1)) :
    decrypt L r eph.PublicKey enc = .ok data := by
  obtain ⟨a, nonce, ha, hlen, henc⟩ := encrypt_ok hL h
  obtain ⟨key, hkey⟩ := getCipher_ok ha
  have hc : getCipher L r eph.PublicKey = .ok a := by
    rw [← getCipher_comm hL he hr]; exact ha
  subst henc
  unfold decrypt
  simp only [hc, List.length_append, hlen]
  rw [if_neg (by omega), ← hlen, List.take_left, List.drop_left]
  exact hL.aead_open_seal key a hkey nonce data hlen

/-- What `decodeGate` returns on a gate packed for the key pair `k`. -/
theorem decodeGate_packed (hL : L.Laws Valid) {eph k : PrivateKey} (he : Valid eph)
    (hk : Valid k) {secret : Bytes} {g : GateData BT ST} {gate : AccessBox_Gate}
    (hg : PackedGate L eph secret g gate) (hkey : k.PublicKey = g.GateKey)
    {encSession : Bytes} (hs : encSessionOf L g.SessionToken = .ok encSession) :
    decodeGate L gate k eph.PublicKey =
      match L.sessionUnmarshal encSession with
      | .error err => .error err
      | .ok sessionTkn =>
        .ok { AccessKey := hexEncodeToString secret, BearerToken := g.BearerToken,
              SessionToken := some sessionTkn, GateKey := k.PublicKey } := by
  obtain ⟨encBearer, encSession1, s, s1, hb, hs1, henc⟩ := hg
  rw [hs] at hs1
  cases hs1
  unfold encodeGate at henc
  split at henc
  · cases henc
  · rename_i data hm
    split at henc
    · cases henc
    · rename_i encrypted s2 hen
      simp only [Except.ok.injEq, Prod.mk.injEq] at henc
      rw [← hkey] at hen
      have hd := decrypt_encrypt hL he hk hen
      have ht := hL.tokens_roundtrip _ _ hm
      have hbr := hL.bearer_roundtrip _ _ hb
      rw [← henc.1]
      simp only [decodeGate, hd, ht, hbr, NewGateData]

theorem packedGate_key {eph : PrivateKey} {secret : Bytes} {g : GateData BT ST}
    {gate : AccessBox_Gate} (hg : PackedGate L eph secret g gate) :
    gate.GatePublicKey = L.PublicKeyBytes g.GateKey := by
  obtain ⟨encBearer, encSession, s, s1, _, _, henc⟩ := hg
  unfold encodeGate at henc
  split at henc
  · cases henc
  · split at henc
    · cases henc
    · simp only [Except.ok.injEq, Prod.mk.injEq] at henc
      rw [← henc.1]

/-- Shape of a successful run of the loop of `addTokens`. -/
theorem addTokensLoop_ok {eph : PrivateKey} {secret : Bytes} :
    ∀ (gs : List (GateData BT ST)) (i : Nat) (x x1 : AccessBox) (s s1 : σ),
      addTokensLoop L eph secret i gs x s = .ok (x1, s1) →
      x1.OwnerPublicKey = x.OwnerPublicKey ∧ x1.ContainerPolicy = x.ContainerPolicy ∧
        ∃ added, x1.Gates = x.Gates ++ added ∧
          List.Forall₂ (PackedGate L eph secret) gs added := by
  intro gs
  induction gs with
  | nil =>
    intro i x x1 s s1 h
    simp only [addTokensLoop, Except.ok.injEq, Prod.mk.injEq] at h
    rw [← h.1]
    exact ⟨rfl, rfl, [], by simp, List.Forall₂.nil⟩
  | cons g rest ih =>
    intro i x x1 s s1 h
    unfold addTokensLoop at h
    split at h
    · cases h
    · rename_i encBearer hb
      split at h
      · cases h
      · rename_i encSession hs
        simp only at h
        split at h
        · cases h
        · rename_i boxGate s2 henc
          obtain ⟨h1, h2, added, h3, h4⟩ := ih _ _ _ _ _ h
          refine ⟨h1, h2, boxGate :: added, ?_, ?_⟩
          · rw [h3]; simp
          · exact List.Forall₂.cons ⟨encBearer, encSession, s, s2, hb, hs, henc⟩ h4

/-- Shape of a successful `PackTokens`. -/
theorem PackTokens_ok {gatesData : List (GateData BT ST)} {s s3 : σ} {box : AccessBox}
    {secrets : Secrets} (h : PackTokens L gatesData s = .ok (box, secrets, s3)) :
    ∃ eph secret s1 s2, L.NewPrivateKey s = .ok (eph, s1) ∧
      L.randRead 32 s1 = .ok (secret, s2) ∧
      secrets = { AccessKey := hexEncodeToString secret, EphemeralKey := eph } ∧
      box.OwnerPublicKey = L.PublicKeyBytes eph.PublicKey ∧
      box.ContainerPolicy = [] ∧
      List.Forall₂ (PackedGate L eph secret) gatesData box.Gates := by
  unfold PackTokens at h
  split at h
  · cases h
  · rename_i eph s1 hk
    simp only [generateSecret, AccessBox.addTokens] at h
    split at h
    · cases h
    · rename_i secret s2 hr
      split at h
      · cases h
      · rename_i box1 s4 ha
        simp only [Except.ok.injEq, Prod.mk.injEq] at h
        obtain ⟨h1, h2, added, h3, h4⟩ := addTokensLoop_ok _ _ _ _ _ _ ha
        obtain ⟨hbox, hsec, _⟩ := h
        subst hbox
        simp only [List.nil_append] at h3
        rw [← h3] at h4
        exact ⟨eph, secret, s1, s2, hk, hr, hsec.symm, h1, h2, h4⟩

/-- No gate addressed to `ownerKey`: the loop of `GetTokens` decodes nothing. -/
theorem getTokensLoop_no_gate (L : Lib σ BT ST PP) (owner : PrivateKey) (sender : PublicKey)
    (ownerKey : Bytes) :
    ∀ gates : List AccessBox_Gate, ownerKey ∉ gates.map (fun g => g.GatePublicKey) →
      (getTokensLoop L owner sender ownerKey gates : Except Err (GateData BT ST)) =
        .error (Err.noGateData ownerKey) := by
  intro gates
  induction gates with
  | nil => intro _; rfl
  | cons gate rest ih =>
    intro h
    simp only [List.map_cons, List.mem_cons, not_or] at h
    unfold getTokensLoop
    rw [if_pos (fun hh => h.1 hh.symm)]
    exact ih h.2

/-- The loop of `GetTokens` decodes the gate packed for the recipient, when the
recipients have pairwise distinct key bytes; `f` is any change of the gates
that keeps their key bytes. -/
theorem getTokensLoop_packed {eph : PrivateKey} {secret : Bytes} (owner : PrivateKey)
    (sender : PublicKey) (f : AccessBox_Gate → AccessBox_Gate)
    (hf : ∀ gate, (f gate).GatePublicKey = gate.GatePublicKey) :
    ∀ (gs : List (GateData BT ST)) (gates : List AccessBox_Gate),
      List.Forall₂ (PackedGate L eph secret) gs gates →
      (gs.map fun g => L.PublicKeyBytes g.GateKey).Nodup →
      ∀ g ∈ gs, owner.PublicKey = g.GateKey →
      ∃ gate ∈ gates, PackedGate L eph secret g gate ∧
        getTokensLoop L owner sender (L.PublicKeyBytes owner.PublicKey) (gates.map f) =
          match decodeGate L (f gate) owner sender with
          | .error err => .error (Err.failedToDecodeGate err)
          | .ok gateData => .ok gateData := by
  intro gs gates hfa
  induction hfa with
  | nil => intro _ g hg; cases hg
  | @cons g0 gate0 gs0 gates0 h0 _ ih =>
    intro hnd g hg hkey
    simp only [List.map_cons, List.nodup_cons] at hnd
    have hk0 := packedGate_key h0
    rcases List.mem_cons.1 hg with rfl | hmem
    · refine ⟨gate0, List.mem_cons_self _ _, h0, ?_⟩
      simp only [List.map_cons]
      unfold getTokensLoop
      rw [if_neg (by rw [hf, hk0, hkey]; exact fun hh => hh rfl)]
    · obtain ⟨gate, hgm, hp, hres⟩ := ih hnd.2 g hmem hkey
      refine ⟨gate, List.mem_cons_of_mem _ hgm, hp, ?_⟩
      simp only [List.map_cons]
      unfold getTokensLoop
      rw [if_pos, hres]
      rw [hf, hk0, hkey]
      intro hh
      exact hnd.1 (hh ▸ List.mem_map_of_mem (fun g => L.PublicKeyBytes g.GateKey) hmem)

/-- Recipients holding well-formed key pairs with pairwise distinct public
keys have pairwise distinct key bytes. -/
theorem keyBytes_nodup (hL : L.Laws Valid) (gatesData : List (GateData BT ST))
    (hvalid : ∀ g ∈ gatesData, ∃ k, Valid k ∧ k.PublicKey = g.GateKey)
    (hdistinct : (gatesData.map fun g => g.GateKey).Nodup) :
    (gatesData.map fun g => L.PublicKeyBytes g.GateKey).Nodup := by
  have h := List.Nodup.map_on (f := L.PublicKeyBytes) ?_ hdistinct
  · simpa [List.map_map] using h
  · intro x hx y hy hxy
    obtain ⟨g1, hg1, rfl⟩ := List.mem_map.1 hx
    obtain ⟨g2, hg2, rfl⟩ := List.mem_map.1 hy
    obtain ⟨k1, hk1, he1⟩ := hvalid g1 hg1
    obtain ⟨k2, hk2, he2⟩ := hvalid g2 hg2
    have r1 := hL.pub_roundtrip k1 hk1
    have r2 := hL.pub_roundtrip k2 hk2
    simp only at hxy
    rw [he1] at r1
    rw [he2] at r2
    rw [hxy, r2] at r1
    simpa using r1.symm

/-- What `GetTokens` returns to a recipient of a packed box. -/
theorem GetTokens_packed (hL : L.Laws Valid) {gatesData : List (GateData BT ST)} {s s3 : σ}
    {box : AccessBox} {secrets : Secrets}
    (hpack : PackTokens L gatesData s = .ok (box, secrets, s3))
    (hnd : (gatesData.map fun g => L.PublicKeyBytes g.GateKey).Nodup)
    {g : GateData BT ST} (hg : g ∈ gatesData) {r : PrivateKey} (hr : Valid r)
    (hkey : r.PublicKey = g.GateKey) :
    ∃ encSession, encSessionOf L g.SessionToken = .ok encSession ∧
      box.GetTokens L r =
        match L.sessionUnmarshal encSession with
        | .error err => .error (Err.failedToDecodeGate err)
        | .ok sessionTkn =>
          .ok { AccessKey := secrets.AccessKey, BearerToken := g.BearerToken,
                SessionToken := some sessionTkn, GateKey := r.PublicKey } := by
  obtain ⟨eph, secret, s1, s2, hk, _, hsec, hown, _, hgates⟩ := PackTokens_ok hpack
  have he := hL.newKey_valid _ _ _ hk
  obtain ⟨gate, _, hp, hres⟩ :=
    getTokensLoop_packed r eph.PublicKey id (fun _ => rfl) _ _ hgates hnd g hg hkey
  obtain ⟨encBearer, encSession, t, t1, hb, hs, henc⟩ := hp
  refine ⟨encSession, hs, ?_⟩
  have hd := decodeGate_packed hL he hr ⟨encBearer, encSession, t, t1, hb, hs, henc⟩ hkey hs
  unfold AccessBox.GetTokens
  rw [hown, hL.pub_roundtrip eph he]
  simp only [List.map_id, id] at hres
  simp only [hres, hd, hsec]
  cases L.sessionUnmarshal encSession <;> rfl

/-- Round trip for a recipient that was given a session token. -/
theorem roundtrip_with_session (hL : L.Laws Valid)
    {gatesData : List (GateData BT ST)} {s s3 : σ} {box : AccessBox} {secrets : Secrets}
    (hpack : PackTokens L gatesData s = .ok (box, secrets, s3))
    (hnd : (gatesData.map fun g => L.PublicKeyBytes g.GateKey).Nodup)
    {g : GateData BT ST} (hg : g ∈ gatesData) {r : PrivateKey} (hr : Valid r)
    (hkey : r.PublicKey = g.GateKey) {sessionTkn : ST}
    (hsession : g.SessionToken = some sessionTkn) :
    box.GetTokens L r =
      .ok { AccessKey := secrets.AccessKey, BearerToken := g.BearerToken,
            SessionToken := some sessionTkn, GateKey := r.PublicKey } := by
  obtain ⟨encSession, hs, hres⟩ := GetTokens_packed hL hpack hnd hg hr hkey
  rw [hsession] at hs
  rw [hres, hL.session_roundtrip sessionTkn encSession hs]

/-- The key bytes of packed gates are those of the recipients, in order. -/
theorem packedGates_keys {eph : PrivateKey} {secret : Bytes} :
    ∀ (gs : List (GateData BT ST)) (gates : List AccessBox_Gate),
      List.Forall₂ (PackedGate L eph secret) gs gates →
      (gates.map fun gate => gate.GatePublicKey) =
        (gs.map fun g => L.PublicKeyBytes g.GateKey) := by
  intro gs gates h
  induction h with
  | nil => rfl
  | cons h _ ih => simp only [List.map_cons, packedGate_key h, ih]

theorem flipBit_length : ∀ (data : Bytes) (i k : Nat), (flipBit data i k).length = data.length
  | [], _, _ => rfl
  | _ :: _, 0, _ => rfl
  | _ :: rest, i + 1, k => by simp [flipBit, flipBit_length rest i k]

/-- The sealed payload of a packed gate is a nonce followed by the sealed
tokens, under the cipher of the ephemeral key and the recipient. -/
theorem packedGate_tokens (hL : L.Laws Valid) {eph : PrivateKey} {secret : Bytes}
    {g : GateData BT ST} {gate : AccessBox_Gate} (hg : PackedGate L eph secret g gate) :
    ∃ a nonce data, getCipher L eph g.GateKey = .ok a ∧ nonce.length = a.NonceSize ∧
      gate.Tokens = nonce ++ a.Seal nonce data [] := by
  obtain ⟨encBearer, encSession, s, s1, _, _, henc⟩ := hg
  unfold encodeGate at henc
  split at henc
  · cases henc
  · rename_i data hm
    split at henc
    · cases henc
    · rename_i encrypted s2 hen
      simp only [Except.ok.injEq, Prod.mk.injEq] at henc
      obtain ⟨a, nonce, ha, hlen, he⟩ := encrypt_ok hL hen
      refine ⟨a, nonce, data, ha, hlen, ?_⟩
      rw [← henc.1, he]

/-- Result of the loop of `GetPlacementPolicy` when every entry deserialises. -/
theorem getPlacementPolicyLoop_ok (L : Lib σ BT ST PP) :
    ∀ (ps : List AccessBox_ContainerPolicy) (result : List (ContainerPolicy PP)),
      (∀ p ∈ ps, ∃ pp, L.policyUnmarshal p.Policy = .ok pp) →
      ∃ added, getPlacementPolicyLoop L ps result = .ok (result ++ added) ∧
        List.Forall₂ (fun p q => q.LocationConstraint = p.LocationConstraint ∧
          L.policyUnmarshal p.Policy = .ok q.Policy) ps added := by
  intro ps
  induction ps with
  | nil => intro result _; exact ⟨[], by simp [getPlacementPolicyLoop], List.Forall₂.nil⟩
  | cons p rest ih =>
    intro result h
    obtain ⟨pp, hpp⟩ := h p (List.mem_cons_self _ _)
    obtain ⟨added, h1, h2⟩ :=
      ih (result ++ [{ LocationConstraint := p.LocationConstraint, Policy := pp }])
        (fun q hq => h q (List.mem_cons_of_mem _ hq))
    refine ⟨{ LocationConstraint := p.LocationConstraint, Policy := pp } :: added, ?_, ?_⟩
    · unfold getPlacementPolicyLoop
      simp only [hpp, h1, List.append_assoc, List.singleton_append]
    · exact List.Forall₂.cons ⟨rfl, hpp⟩ h2

/-- Result of the loop of `GetPlacementPolicy` when some entry does not
deserialise: the error of such an entry, and no list. -/
theorem getPlacementPolicyLoop_error (L : Lib σ BT ST PP) :
    ∀ (ps : List AccessBox_ContainerPolicy) (result : List (ContainerPolicy PP)),
      (∃ p ∈ ps, ∃ err, L.policyUnmarshal p.Policy = .error err) →
      ∃ err, (∃ p ∈ ps, L.policyUnmarshal p.Policy = .error err) ∧
        getPlacementPolicyLoop L ps result = .error err := by
  intro ps
  induction ps with
  | nil => intro result h; obtain ⟨p, hp, _⟩ := h; cases hp
  | cons p rest ih =>
    intro result h
    unfold getPlacementPolicyLoop
    cases hpp : L.policyUnmarshal p.Policy with
    | error err => exact ⟨err, ⟨p, List.mem_cons_self _ _, hpp⟩, rfl⟩
    | ok pp =>
      obtain ⟨q, hq, e, he⟩ := h
      rcases List.mem_cons.1 hq with rfl | hq
      · rw [hpp] at he; cases he
      · obtain ⟨err, ⟨q1, hq1, he1⟩, hres⟩ :=
          ih (result ++ [{ LocationConstraint := p.LocationConstraint, Policy := pp }])
            ⟨q, hq, e, he⟩
        exact ⟨err, ⟨q1, List.mem_cons_of_mem _ hq1, he1⟩, hres⟩

end lemmas

/-! ## The toy collaborators satisfy the assumptions -/

section toyLaws

theorem beToNat_bigIntBytesAux :
    ∀ (fuel n : Nat) (acc : Bytes), n ≤ fuel →
      (bigIntBytesAux fuel n acc).foldl (fun a b => a * 256 + b.val) 0 =
        acc.foldl (fun a b => a * 256 + b.val) n := by
  intro fuel
  induction fuel with
  | zero =>
    intro n acc h
    have : n = 0 := by omega
    subst this
    rfl
  | succ fuel ih =>
    intro n acc h
    unfold bigIntBytesAux
    by_cases hn : n = 0
    · subst hn; simp
    · rw [if_neg hn, ih _ _ (by omega)]
      simp only [List.foldl_cons]
      congr 1
      omega

theorem beToNat_bigIntBytes (n : Nat) : beToNat (bigIntBytes n) = n := by
  unfold beToNat bigIntBytes
  rw [beToNat_bigIntBytesAux n n [] (Nat.le_refl n)]
  rfl

theorem lpDecode_lpEncode (a rest : Bytes) (h : a.length < 256) :
    lpDecode (lpEncode a ++ rest) = some (a, rest) := by
  simp only [lpEncode, byteOfNat, List.cons_append, lpDecode, Nat.mod_eq_of_lt h,
    List.length_append]
  rw [if_neg (by omega), List.take_left, List.drop_left]

theorem toyOpen_seal (key nonce p : Bytes) :
    toyOpen key nonce (p ++ toyTag key nonce p) = .ok p := by
  have hl : (toyTag key nonce p).length = 16 := by simp [toyTag]
  unfold toyOpen
  simp only [List.length_append, hl]
  rw [if_neg (by omega)]
  simp only [Nat.add_sub_cancel, List.take_left, List.drop_left, if_true]

theorem toyLaws : toyLib.Laws toyValid where
  newKey_valid := by
    intro s k s1 h
    simp only [toyLib, Except.ok.injEq, Prod.mk.injEq] at h
    rw [← h.1]
    rfl
  valid_curve := by
    intro k h
    rw [h]
    rfl
  pub_roundtrip := by
    intro k h
    rw [h]
    have hx : 5 * k.D % 251 % 256 = 5 * k.D % 251 :=
      Nat.mod_eq_of_lt (Nat.lt_trans (Nat.mod_lt _ (by decide)) (by decide))
    simp [toyLib, toyPublicKey, toyPublicKeyBytes, toyNewPublicKeyFromBytes, byteOfNat, hx]
  ecdh_comm := by
    intro a b ha hb
    rw [ha, hb]
    simp only [toyLib, toyPublicKey, toyScalarMult, beToNat_bigIntBytes,
      ScalarResult.returns.injEq, Option.some.injEq]
    rw [Nat.mod_mul_mod, Nat.mod_mul_mod]
    congr 1
    ring
  rand_length := by
    intro n s bs s1 h
    simp only [toyLib, Except.ok.injEq, Prod.mk.injEq] at h
    rw [← h.1, List.length_replicate]
  aead_open_seal := by
    intro key a h nonce p _
    simp only [toyLib] at h
    split at h
    · simp only [Except.ok.injEq] at h
      rw [← h]
      exact toyOpen_seal key nonce p
    · cases h
  tokens_roundtrip := by
    intro t d h
    simp only [toyLib, toyMarshalTokens] at h
    split at h
    · rename_i hlen
      simp only [Except.ok.injEq] at h
      rw [← h]
      simp only [toyLib, toyUnmarshalTokens, lpDecode_lpEncode _ _ hlen.1,
        lpDecode_lpEncode _ _ hlen.2]
    · cases h
  bearer_roundtrip := by
    intro t d h
    simp only [toyLib, Except.ok.injEq] at h
    rw [← h]
    rfl
  session_roundtrip := by
    intro t d h
    simp only [toyLib, Except.ok.injEq] at h
    rw [← h]
    rfl

end toyLaws

section toyTamper

theorem flipBit_append_left : ∀ (l1 l2 : Bytes) (i k : Nat), i < l1.length →
    flipBit (l1 ++ l2) i k = flipBit l1 i k ++ l2
  | [], _, _, _, h => by simp at h
  | _ :: _, _, 0, _, _ => rfl
  | b :: rest, l2, i + 1, k, h => by
    have := flipBit_append_left rest l2 i k (by simpa using h)
    show b :: flipBit (rest ++ l2) i k = _
    rw [this]
    rfl

theorem flipBit_append_right : ∀ (l1 l2 : Bytes) (j k : Nat),
    flipBit (l1 ++ l2) (l1.length + j) k = l1 ++ flipBit l2 j k
  | [], _, _, _ => by simp
  | b :: rest, l2, j, k => by
    have := flipBit_append_right rest l2 j k
    have h : (b :: rest).length + j = (rest.length + j) + 1 := by simp; omega
    rw [h]
    show b :: flipBit (rest ++ l2) (rest.length + j) k = _
    rw [this]
    rfl

set_option maxRecDepth 100000 in
theorem flipByte_ne (b : Byte) (k : Nat) (hk : k < 8) : b ^^^ bitMask k ≠ b := by
  interval_cases k <;> revert b <;> decide

theorem flipBit_sum_ne : ∀ (l : Bytes) (i k : Nat), i < l.length → k < 8 →
    (flipBit l i k).sum ≠ l.sum
  | [], _, _, h, _ => by simp at h
  | b :: rest, 0, k, _, hk => by
    simp only [flipBit, List.sum_cons, ne_eq, add_left_inj]
    exact flipByte_ne b k hk
  | b :: rest, i + 1, k, h, hk => by
    simp only [flipBit, List.sum_cons, ne_eq, add_right_inj]
    exact flipBit_sum_ne rest i k (by simpa using h) hk

theorem flipBit_ne : ∀ (l : Bytes) (i k : Nat), i < l.length → k < 8 → flipBit l i k ≠ l
  | [], _, _, h, _ => by simp at h
  | b :: rest, 0, k, _, hk => by
    simp only [flipBit, ne_eq, List.cons.injEq, and_true]
    exact flipByte_ne b k hk
  | b :: rest, i + 1, k, h, hk => by
    simp only [flipBit, ne_eq, List.cons.injEq, true_and]
    exact flipBit_ne rest i k (by simpa using h) hk

theorem toyOpen_reject (key nonce p tag : Bytes) (hl : tag.length = 16)
    (h : tag ≠ toyTag key nonce p) :
    toyOpen key nonce (p ++ tag) = .error Err.aeadAuthFailed := by
  unfold toyOpen
  simp only [List.length_append, hl]
  rw [if_neg (by omega)]
  simp only [Nat.add_sub_cancel, List.take_left, List.drop_left, if_neg h]

theorem toyTag_length (key nonce p : Bytes) : (toyTag key nonce p).length = 16 := by
  simp [toyTag]

theorem toyTamperEvident : toyLib.TamperEvident := by
  intro key a h nonce p i k hlen hi hk
  simp only [toyLib] at h
  split at h
  swap
  · cases h
  simp only [Except.ok.injEq] at h
  subst h
  simp only [toyAEAD] at hlen hi ⊢
  have htl := toyTag_length key nonce p
  by_cases h1 : i < nonce.length
  · rw [flipBit_append_left _ _ _ _ h1]
    have hfl : (flipBit nonce i k).length = 24 := by rw [flipBit_length, hlen]
    rw [← hfl, List.take_left, List.drop_left]
    apply toyOpen_reject _ _ _ _ htl
    intro heq
    simp only [toyTag, List.cons.injEq, and_true, List.sum_append, add_left_inj,
      add_right_inj] at heq
    exact flipBit_sum_ne nonce i k h1 hk heq.symm
  · obtain ⟨j, rfl⟩ : ∃ j, i = nonce.length + j := ⟨i - nonce.length, by omega⟩
    rw [flipBit_append_right, ← hlen, List.take_left, List.drop_left]
    simp only [List.length_append, htl] at hi
    by_cases h2 : j < p.length
    · rw [flipBit_append_left _ _ _ _ h2]
      apply toyOpen_reject _ _ _ _ htl
      intro heq
      simp only [toyTag, List.cons.injEq, and_true, List.sum_append, add_right_inj] at heq
      exact flipBit_sum_ne p j k h2 hk heq.symm
    · obtain ⟨m, rfl⟩ : ∃ m, j = p.length + m := ⟨j - p.length, by omega⟩
      rw [flipBit_append_right]
      apply toyOpen_reject _ _ _ _ (by rw [flipBit_length, htl])
      exact flipBit_ne _ _ _ (by rw [htl]; omega) hk

end toyTamper

/-! ## The envelope protocol: pack and unpack -/

section envelope

variable {σ BT ST PP : Type}

/-- C1 (round trip).  Under the laws of the collaborators: if `PackTokens`
succeeds on recipients that hold well-formed key pairs with pairwise distinct
public keys, then `GetTokens` with the private key of any recipient that was
given a session token succeeds and returns that recipient's bearer token and
session token, the access key of the returned `Secrets`, and the recipient's
public key as `GateKey`. -/
theorem PackTokens_GetTokens_roundtrip (L : Lib σ BT ST PP) (Valid : PrivateKey → Prop)
    (hL : L.Laws Valid) (gatesData : List (GateData BT ST)) (s s3 : σ) (box : AccessBox)
    (secrets : Secrets) (hpack : PackTokens L gatesData s = .ok (box, secrets, s3))
    (hvalid : ∀ g ∈ gatesData, ∃ k, Valid k ∧ k.PublicKey = g.GateKey)
    (hdistinct : (gatesData.map fun g => g.GateKey).Nodup)
    (g : GateData BT ST) (hg : g ∈ gatesData) (r : PrivateKey) (hr : Valid r)
    (hkey : r.PublicKey = g.GateKey) (sessionTkn : ST)
    (hsession : g.SessionToken = some sessionTkn) :
    box.GetTokens L r =
      .ok { AccessKey := secrets.AccessKey, BearerToken := g.BearerToken,
            SessionToken := some sessionTkn, GateKey := r.PublicKey } := by
  exact roundtrip_with_session hL hpack
    (keyBytes_nodup hL gatesData hvalid hdistinct) hg hr hkey hsession

/-- C2 (shared access key).  Under the laws of the collaborators: a successful
`PackTokens` seals one 32-byte secret into every gate.  For every recipient
there is a gate addressed to it which its private key decrypts to `Tokens`
carrying that secret, every `GateData` that `GetTokens` returns to a recipient
carries the hex form of that secret, which is `Secrets.AccessKey`, and
`GetTokens` does return one to each recipient that was given a session token;
so any two recipients obtain the same `AccessKey`. -/
theorem PackTokens_shared_access_key (L : Lib σ BT ST PP) (Valid : PrivateKey → Prop)
    (hL : L.Laws Valid) (gatesData : List (GateData BT ST)) (s s3 : σ) (box : AccessBox)
    (secrets : Secrets) (hpack : PackTokens L gatesData s = .ok (box, secrets, s3))
    (hvalid : ∀ g ∈ gatesData, ∃ k, Valid k ∧ k.PublicKey = g.GateKey)
    (hdistinct : (gatesData.map fun g => g.GateKey).Nodup) :
    ∃ secret sender, secret.length = 32 ∧ secrets.AccessKey = hexEncodeToString secret ∧
      L.NewPublicKeyFromBytes box.OwnerPublicKey Curve.P256 = .ok sender ∧
      (∀ g ∈ gatesData, ∀ r, Valid r → r.PublicKey = g.GateKey →
        (∃ gate ∈ box.Gates, gate.GatePublicKey = L.PublicKeyBytes r.PublicKey ∧
          ∃ data tokens, decrypt L r sender gate.Tokens = .ok data ∧
            L.unmarshalTokens data = .ok tokens ∧ tokens.AccessKey = secret) ∧
        (∀ gateData, box.GetTokens L r = .ok gateData →
          gateData.AccessKey = hexEncodeToString secret) ∧
        (g.SessionToken ≠ none → ∃ gateData, box.GetTokens L r = .ok gateData)) ∧
      (∀ g1 ∈ gatesData, ∀ g2 ∈ gatesData, ∀ r1 r2, Valid r1 → Valid r2 →
        r1.PublicKey = g1.GateKey → r2.PublicKey = g2.GateKey →
        ∀ d1 d2, box.GetTokens L r1 = .ok d1 → box.GetTokens L r2 = .ok d2 →
          d1.AccessKey = d2.AccessKey) := by
  have hnd := keyBytes_nodup hL gatesData hvalid hdistinct
  obtain ⟨eph, secret, s1, s2, hk, hrand, hsec, hown, _, hgates⟩ := PackTokens_ok hpack
  have he := hL.newKey_valid _ _ _ hk
  have hlen := hL.rand_length _ _ _ _ hrand
  have hkeyOf : ∀ g ∈ gatesData, ∀ r, Valid r → r.PublicKey = g.GateKey →
      ∀ gateData, box.GetTokens L r = .ok gateData →
        gateData.AccessKey = hexEncodeToString secret := by
    intro g hg r hr hkey gateData hres
    obtain ⟨encSession, _, hget⟩ := GetTokens_packed hL hpack hnd hg hr hkey
    rw [hget] at hres
    cases hu : L.sessionUnmarshal encSession with
    | error err => rw [hu] at hres; cases hres
    | ok st =>
      rw [hu] at hres
      simp only [Except.ok.injEq] at hres
      rw [← hres, hsec]
  have hsender : L.NewPublicKeyFromBytes box.OwnerPublicKey Curve.P256 = .ok eph.PublicKey := by
    rw [hown]
    exact hL.pub_roundtrip eph he
  refine ⟨secret, eph.PublicKey, hlen, by rw [hsec], hsender, ?_, ?_⟩
  · intro g hg r hr hkey
    refine ⟨?_, hkeyOf g hg r hr hkey, ?_⟩
    · obtain ⟨gate, hmem, hp, _⟩ :=
        getTokensLoop_packed r eph.PublicKey id (fun _ => rfl) _ _ hgates hnd g hg hkey
      refine ⟨gate, hmem, by rw [packedGate_key hp, hkey], ?_⟩
      obtain ⟨encBearer, encSession, t, t1, _, _, henc⟩ := hp
      unfold encodeGate at henc
      split at henc
      · cases henc
      · rename_i data hm
        split at henc
        · cases henc
        · rename_i encrypted t2 hen
          simp only [Except.ok.injEq, Prod.mk.injEq] at henc
          rw [← hkey] at hen
          refine ⟨data, _, ?_, hL.tokens_roundtrip _ _ hm, rfl⟩
          rw [← henc.1]
          exact decrypt_encrypt hL he hr hen
    · intro hne
      obtain ⟨st, hst⟩ := Option.ne_none_iff_exists'.1 hne
      exact ⟨_, roundtrip_with_session hL hpack hnd hg hr hkey hst⟩
  · intro g1 hg1 g2 hg2 r1 r2 hr1 hr2 hk1 hk2 d1 d2 h1 h2
    rw [hkeyOf g1 hg1 r1 hr1 hk1 d1 h1, hkeyOf g2 hg2 r2 hr2 hk2 d2 h2]

/-- C3 (wrong-key rejection).  For a box produced by `PackTokens` and a private
key whose public-key bytes are the `GatePublicKey` of no gate, `GetTokens` and
`GetBox` fail with the no-gate-data error.  This holds for every library `M`
that encodes and decodes public keys as the packing library does, whatever its
key agreement, key derivation and AEAD are: no gate is decrypted. -/
theorem GetTokens_wrong_key (L M : Lib σ BT ST PP) (Valid : PrivateKey → Prop)
    (hL : L.Laws Valid) (gatesData : List (GateData BT ST)) (s s3 : σ) (box : AccessBox)
    (secrets : Secrets) (hpack : PackTokens L gatesData s = .ok (box, secrets, s3))
    (hbytes : M.PublicKeyBytes = L.PublicKeyBytes)
    (hdecode : M.NewPublicKeyFromBytes = L.NewPublicKeyFromBytes)
    (r : PrivateKey)
    (hr : L.PublicKeyBytes r.PublicKey ∉ box.Gates.map fun gate => gate.GatePublicKey) :
    box.GetTokens M r = .error (Err.noGateData (L.PublicKeyBytes r.PublicKey)) ∧
      box.GetBox M r = .error (Err.noGateData (L.PublicKeyBytes r.PublicKey)) := by
  obtain ⟨eph, secret, s1, s2, hk, _, _, hown, _, _⟩ := PackTokens_ok hpack
  have he := hL.newKey_valid _ _ _ hk
  have h1 : box.GetTokens M r = .error (Err.noGateData (L.PublicKeyBytes r.PublicKey)) := by
    unfold AccessBox.GetTokens
    rw [hdecode, hbytes, hown, hL.pub_roundtrip eph he]
    exact getTokensLoop_no_gate M r eph.PublicKey _ box.Gates hr
  refine ⟨h1, ?_⟩
  unfold AccessBox.GetBox
  rw [h1]

/-- C4 (tamper detection).  Under the laws of the collaborators and the
integrity assumption `TamperEvident` on the AEAD: in a box produced by
`PackTokens` for recipients with well-formed, pairwise distinct keys, flip any
one bit (byte `i`, bit `k`) of the sealed payload of the gate addressed to a
recipient, in the nonce part or after it.  Then `GetTokens` with that
recipient's private key fails with the authentication error of the AEAD
(wrapped as a gate decoding failure) and returns no `GateData`. -/
theorem GetTokens_tampered (L : Lib σ BT ST PP) (Valid : PrivateKey → Prop)
    (hL : L.Laws Valid) (hT : L.TamperEvident) (gatesData : List (GateData BT ST))
    (s s3 : σ) (box : AccessBox) (secrets : Secrets)
    (hpack : PackTokens L gatesData s = .ok (box, secrets, s3))
    (hvalid : ∀ g ∈ gatesData, ∃ k, Valid k ∧ k.PublicKey = g.GateKey)
    (hdistinct : (gatesData.map fun g => g.GateKey).Nodup)
    (g : GateData BT ST) (hg : g ∈ gatesData) (r : PrivateKey) (hr : Valid r)
    (hkey : r.PublicKey = g.GateKey) (i k : Nat) (hk : k < 8)
    (hi : ∀ gate ∈ box.Gates, gate.GatePublicKey = L.PublicKeyBytes r.PublicKey →
      i < gate.Tokens.length) :
    (tamperGate box (L.PublicKeyBytes r.PublicKey) i k).GetTokens L r =
      .error (Err.failedToDecodeGate Err.aeadAuthFailed) := by
  have hnd := keyBytes_nodup hL gatesData hvalid hdistinct
  obtain ⟨eph, secret, s1, s2, hnew, _, _, hown, _, hgates⟩ := PackTokens_ok hpack
  have he := hL.newKey_valid _ _ _ hnew
  obtain ⟨gate, hmem, hp, hres⟩ :=
    getTokensLoop_packed r eph.PublicKey
      (fun gate => if gate.GatePublicKey = L.PublicKeyBytes r.PublicKey then
        { gate with Tokens := flipBit gate.Tokens i k } else gate)
      (fun gate => by by_cases h : gate.GatePublicKey = L.PublicKeyBytes r.PublicKey <;>
        simp [h])
      _ _ hgates hnd g hg hkey
  have hgk : gate.GatePublicKey = L.PublicKeyBytes r.PublicKey := by
    rw [packedGate_key hp, hkey]
  obtain ⟨a, nonce, data, ha, hlen, htok⟩ := packedGate_tokens hL hp
  obtain ⟨key, hnewx⟩ := getCipher_ok ha
  have hc : getCipher L r eph.PublicKey = .ok a := by
    rw [← getCipher_comm hL he hr, hkey]; exact ha
  have hil := hi gate hmem hgk
  rw [htok] at hil
  have hopen := hT key a hnewx nonce data i k hlen hil hk
  have hdec : decrypt L r eph.PublicKey (flipBit gate.Tokens i k) =
      .error Err.aeadAuthFailed := by
    unfold decrypt
    simp only [hc, flipBit_length]
    rw [if_neg (by rw [htok, List.length_append]; omega), htok]
    exact hopen
  unfold AccessBox.GetTokens
  simp only [tamperGate, hown, hL.pub_roundtrip eph he]
  rw [hres]
  simp only [hgk, if_true, decodeGate, hdec]

/-- C5, as the code has it.  Under the laws of the collaborators: for a
recipient packed with a nil session token, `GetTokens` with that recipient's
private key deserialises the empty session bytes of the sealed `Tokens`.  When
that deserialisation yields a token, the returned `GateData` carries this
token as a non-nil `SessionToken` (next to the shared access key, the bearer
token and the recipient's key); when it fails, `GetTokens` fails.  In no case
is a `GateData` with a nil `SessionToken` returned. -/
theorem GetTokens_nil_session (L : Lib σ BT ST PP) (Valid : PrivateKey → Prop)
    (hL : L.Laws Valid) (gatesData : List (GateData BT ST)) (s s3 : σ) (box : AccessBox)
    (secrets : Secrets) (hpack : PackTokens L gatesData s = .ok (box, secrets, s3))
    (hvalid : ∀ g ∈ gatesData, ∃ k, Valid k ∧ k.PublicKey = g.GateKey)
    (hdistinct : (gatesData.map fun g => g.GateKey).Nodup)
    (g : GateData BT ST) (hg : g ∈ gatesData) (r : PrivateKey) (hr : Valid r)
    (hkey : r.PublicKey = g.GateKey) (hsession : g.SessionToken = none) :
    (box.GetTokens L r =
      match L.sessionUnmarshal [] with
      | .error err => .error (Err.failedToDecodeGate err)
      | .ok sessionTkn =>
        .ok { AccessKey := secrets.AccessKey, BearerToken := g.BearerToken,
              SessionToken := some sessionTkn, GateKey := r.PublicKey }) ∧
      ∀ gateData, box.GetTokens L r = .ok gateData → gateData.SessionToken ≠ none := by
  obtain ⟨encSession, hs, hres⟩ :=
    GetTokens_packed hL hpack (keyBytes_nodup hL gatesData hvalid hdistinct) hg hr hkey
  rw [hsession] at hs
  simp only [encSessionOf, Except.ok.injEq] at hs
  subst hs
  refine ⟨hres, ?_⟩
  intro gateData hgd
  rw [hres] at hgd
  cases hu : L.sessionUnmarshal [] with
  | error err => rw [hu] at hgd; cases hgd
  | ok st =>
    rw [hu] at hgd
    simp only [Except.ok.injEq] at hgd
    rw [← hgd]
    simp

/-- C8 (policy passthrough).  If every entry of `ContainerPolicy`
deserialises, `GetPlacementPolicy` returns a list that matches the entries one
by one in order (hence of the same length): the same `LocationConstraint`, and
as `Policy` the deserialisation of the entry's policy bytes.  `GetBox` returns
exactly this list with every private key for which `GetTokens` succeeds. -/
theorem GetPlacementPolicy_passthrough (L : Lib σ BT ST PP) (x : AccessBox)
    (hall : ∀ p ∈ x.ContainerPolicy, ∃ pp, L.policyUnmarshal p.Policy = .ok pp) :
    ∃ policies, x.GetPlacementPolicy L = .ok policies ∧
      policies.length = x.ContainerPolicy.length ∧
      List.Forall₂ (fun p q => q.LocationConstraint = p.LocationConstraint ∧
        L.policyUnmarshal p.Policy = .ok q.Policy) x.ContainerPolicy policies ∧
      (∀ owner gateData, x.GetTokens L owner = .ok gateData →
        x.GetBox L owner = .ok { Gate := gateData, Policies := policies }) ∧
      (∀ owner b, x.GetBox L owner = .ok b → b.Policies = policies) := by
  obtain ⟨added, h1, h2⟩ := getPlacementPolicyLoop_ok L x.ContainerPolicy [] hall
  simp only [List.nil_append] at h1
  have hget : x.GetPlacementPolicy L = .ok added := h1
  refine ⟨added, hget, h2.length_eq.symm, h2, ?_, ?_⟩
  · intro owner gateData ht
    unfold AccessBox.GetBox
    rw [ht, hget]
  · intro owner b hb
    unfold AccessBox.GetBox at hb
    rw [hget] at hb
    cases ht : x.GetTokens L owner with
    | error err => rw [ht] at hb; cases hb
    | ok gd =>
      rw [ht] at hb
      simp only [Except.ok.injEq] at hb
      rw [← hb]

/-- C9 (the policy list is atomic).  If some entry of `ContainerPolicy` does
not deserialise, `GetPlacementPolicy` returns the error of such an entry and
no list, and `GetBox` returns no `Box` for any private key: it fails with that
same error whenever the gate for the key decodes successfully, and with the
error of `GetTokens` when `GetTokens` itself fails. -/
theorem GetPlacementPolicy_atomic (L : Lib σ BT ST PP) (x : AccessBox)
    (hbad : ∃ p ∈ x.ContainerPolicy, ∃ err, L.policyUnmarshal p.Policy = .error err) :
    ∃ err, (∃ p ∈ x.ContainerPolicy, L.policyUnmarshal p.Policy = .error err) ∧
      x.GetPlacementPolicy L = .error err ∧
      (∀ owner gateData, x.GetTokens L owner = .ok gateData →
        x.GetBox L owner = .error err) ∧
      (∀ owner err1, x.GetTokens L owner = .error err1 →
        x.GetBox L owner = .error err1) ∧
      (∀ owner b, x.GetBox L owner ≠ .ok b) := by
  obtain ⟨err, hmem, hres⟩ := getPlacementPolicyLoop_error L x.ContainerPolicy [] hbad
  have hget : x.GetPlacementPolicy L = .error err := hres
  refine ⟨err, hmem, hget, ?_, ?_, ?_⟩
  · intro owner gateData ht
    unfold AccessBox.GetBox
    rw [ht, hget]
  · intro owner err1 ht
    unfold AccessBox.GetBox
    rw [ht]
  · intro owner b hb
    unfold AccessBox.GetBox at hb
    rw [hget] at hb
    cases ht : x.GetTokens L owner with
    | error err1 => rw [ht] at hb; cases hb
    | ok gd => rw [ht] at hb; cases hb

/-- C10 (shape of the packed box).  If `PackTokens` succeeds on `N` recipients,
the box has exactly `N` gates, the `GatePublicKey` of the i-th gate is the byte
encoding of the public key of the i-th recipient, and `ContainerPolicy` is
empty. -/
theorem PackTokens_shape (L : Lib σ BT ST PP) (gatesData : List (GateData BT ST))
    (s s3 : σ) (box : AccessBox) (secrets : Secrets)
    (hpack : PackTokens L gatesData s = .ok (box, secrets, s3)) :
    box.Gates.length = gatesData.length ∧
      (box.Gates.map fun gate => gate.GatePublicKey) =
        (gatesData.map fun g => L.PublicKeyBytes g.GateKey) ∧
      box.ContainerPolicy = [] := by
  obtain ⟨eph, secret, s1, s2, _, _, _, _, hpol, hgates⟩ := PackTokens_ok hpack
  exact ⟨hgates.length_eq.symm, packedGates_keys _ _ hgates, hpol⟩

end envelope

/-! ## The credential store -/

section store

variable {σ BT ST PP β : Type}

/-- C6 (store preconditions).  With an empty key list `Put` fails with
`ErrEmptyPublicKeys`, and with a non-empty key list and a nil box it fails with
`ErrEmptyBearerToken`; in both cases the backend and the buffer pool are left
as they were, for every backend: `PutObject` is not called. -/
theorem Put_preconditions (L : Lib σ BT ST PP) (c : cred β) (now : Int) (cid : ContainerID)
    (issuer : OwnerID) (box : Option AccessBox) (key : PublicKey) (keys : List PublicKey)
    (w : World β) :
    c.Put L now cid issuer box [] w = (.error Err.ErrEmptyPublicKeys, w) ∧
      c.Put L now cid issuer none (key :: keys) w = (.error Err.ErrEmptyBearerToken, w) := by
  constructor
  · simp [cred.Put]
  · simp [cred.Put]

/-- C7, as the code has it.  From the same state, `cred.GetTokens` and
`cred.GetBox` leave the same state behind; whenever `GetBox` succeeds,
`GetTokens` succeeds with the `Gate` of that box; whenever `GetTokens` fails,
`GetBox` fails with the same error.  When `GetTokens` succeeds, `GetBox`
succeeds exactly when every container policy of the fetched box deserialises:
`GetTokens` does not look at the container policies. -/
theorem cred_GetTokens_GetBox (L : Lib σ BT ST PP) (c : cred β) (address : Address)
    (w : World β) :
    (c.GetTokens L address w).2 = (c.GetBox L address w).2 ∧
      (∀ b, (c.GetBox L address w).1 = .ok b → (c.GetTokens L address w).1 = .ok b.Gate) ∧
      (∀ err, (c.GetTokens L address w).1 = .error err →
        (c.GetBox L address w).1 = .error err) ∧
      (∀ gateData, (c.GetTokens L address w).1 = .ok gateData →
        ∃ x, (c.getAccessBox L address w).1 = .ok x ∧
          (c.GetBox L address w).1 =
            match x.GetPlacementPolicy L with
            | .error err => .error err
            | .ok policy => .ok { Gate := gateData, Policies := policy }) := by
  unfold cred.GetTokens cred.GetBox
  rcases hbox : c.getAccessBox L address w with ⟨res, w1⟩
  cases res with
  | error err =>
    refine ⟨rfl, ?_, ?_, ?_⟩
    · intro b hb; cases hb
    · intro err1 h
      simp only [Except.error.injEq] at h ⊢
      exact h
    · intro gd h; cases h
  | ok x =>
    refine ⟨rfl, ?_, ?_, ?_⟩
    · intro b hb
      simp only [AccessBox.GetBox] at hb
      show x.GetTokens L c.key = .ok b.Gate
      cases ht : x.GetTokens L c.key with
      | error err => rw [ht] at hb; cases hb
      | ok gd =>
        rw [ht] at hb
        cases hp : x.GetPlacementPolicy L with
        | error err => rw [hp] at hb; cases hb
        | ok policy =>
          rw [hp] at hb
          simp only [Except.ok.injEq] at hb
          rw [← hb]
    · intro err h
      have h1 : x.GetTokens L c.key = .error err := h
      show x.GetBox L c.key = .error err
      simp only [AccessBox.GetBox, h1]
    · intro gd h
      have h1 : x.GetTokens L c.key = .ok gd := h
      refine ⟨x, rfl, ?_⟩
      show x.GetBox L c.key = _
      simp only [AccessBox.GetBox, h1]

end store

/-! ## The theorems on the toy instance -/

section instances

set_option maxRecDepth 1000000 in
theorem toy_pack : PackTokens toyLib [toyGate1, toyGate2] 0 = .ok (toyBox, toySecrets, 4) := by
  rfl

theorem toy_valid :
    ∀ g ∈ [toyGate1, toyGate2], ∃ k, toyValid k ∧ k.PublicKey = g.GateKey := by
  intro g hg
  simp only [List.mem_cons, List.mem_singleton, List.not_mem_nil, or_false] at hg
  rcases hg with rfl | rfl
  · exact ⟨toyKey 7, rfl, rfl⟩
  · exact ⟨toyKey 11, rfl, rfl⟩

theorem toy_distinct : ([toyGate1, toyGate2].map fun g => g.GateKey).Nodup := by
  decide

/-- Witness of C1: the first toy recipient gets its tokens back. -/
theorem PackTokens_GetTokens_roundtrip_witness :
    PackTokens toyLib [toyGate1, toyGate2] 0 = .ok (toyBox, toySecrets, 4) ∧
      toyBox.GetTokens toyLib (toyKey 7) =
        .ok { AccessKey := toySecrets.AccessKey, BearerToken := [1, 2, 3],
              SessionToken := some [9], GateKey := toyPublicKey 7 } :=
  ⟨toy_pack,
    PackTokens_GetTokens_roundtrip toyLib toyValid toyLaws [toyGate1, toyGate2] 0 4 toyBox
      toySecrets toy_pack toy_valid toy_distinct toyGate1 (List.mem_cons_self _ _)
      (toyKey 7) rfl rfl [9] rfl⟩

set_option maxRecDepth 1000000 in
/-- Witness of C2: both toy recipients obtain the same access key. -/
theorem PackTokens_shared_access_key_witness :
    PackTokens toyLib [toyGate1, toyGate2] 0 = .ok (toyBox, toySecrets, 4) ∧
      ∃ d1 d2, toyBox.GetTokens toyLib (toyKey 7) = .ok d1 ∧
        toyBox.GetTokens toyLib (toyKey 11) = .ok d2 ∧ d1.AccessKey = d2.AccessKey := by
  obtain ⟨_, _, _, _, _, _, hsame⟩ :=
    PackTokens_shared_access_key toyLib toyValid toyLaws [toyGate1, toyGate2] 0 4 toyBox
      toySecrets toy_pack toy_valid toy_distinct
  exact ⟨toy_pack, _, _, rfl, rfl,
    hsame toyGate1 (List.mem_cons_self _ _) toyGate2
      (List.mem_cons_of_mem _ (List.mem_cons_self _ _)) (toyKey 7) (toyKey 11) rfl rfl rfl rfl
      _ _ rfl rfl⟩

/-- Witness of C3: a key that is no recipient of the toy box is told that
there is no gate for it, even by a library whose AEAD opens everything. -/
theorem GetTokens_wrong_key_witness :
    PackTokens toyLib [toyGate1, toyGate2] 0 = .ok (toyBox, toySecrets, 4) ∧
      toyBox.GetTokens toyLibOpenAll (toyKey 12) = .error (Err.noGateData [2, 60]) ∧
      toyBox.GetBox toyLibOpenAll (toyKey 12) = .error (Err.noGateData [2, 60]) :=
  ⟨toy_pack,
    GetTokens_wrong_key toyLib toyLibOpenAll toyValid toyLaws [toyGate1, toyGate2] 0 4 toyBox
      toySecrets toy_pack rfl rfl (toyKey 12) (by decide)⟩

/-- Witness of C4: bit 2 of byte 30 of the first toy gate is flipped. -/
theorem GetTokens_tampered_witness :
    PackTokens toyLib [toyGate1, toyGate2] 0 = .ok (toyBox, toySecrets, 4) ∧
      (tamperGate toyBox [2, 35] 30 2).GetTokens toyLib (toyKey 7) =
        .error (Err.failedToDecodeGate Err.aeadAuthFailed) :=
  ⟨toy_pack,
    GetTokens_tampered toyLib toyValid toyLaws toyTamperEvident [toyGate1, toyGate2] 0 4
      toyBox toySecrets toy_pack toy_valid toy_distinct toyGate1 (List.mem_cons_self _ _)
      (toyKey 7) rfl rfl 30 2 (by decide) (by decide)⟩

/-- Witness of the amended C5: the second toy recipient, packed without a
session token, receives the token deserialised from the empty bytes. -/
theorem GetTokens_nil_session_witness :
    toyGate2.SessionToken = none ∧
      toyBox.GetTokens toyLib (toyKey 11) =
        .ok { AccessKey := toySecrets.AccessKey, BearerToken := [4],
              SessionToken := some [], GateKey := toyPublicKey 11 } :=
  ⟨rfl,
    (GetTokens_nil_session toyLib toyValid toyLaws [toyGate1, toyGate2] 0 4 toyBox toySecrets
      toy_pack toy_valid toy_distinct toyGate2
      (List.mem_cons_of_mem _ (List.mem_cons_self _ _)) (toyKey 11) rfl rfl rfl).1⟩

set_option maxRecDepth 1000000 in
/-- Counterexample to C5 as stated: the second toy recipient is packed with a
nil session token, and `GetTokens` with its private key returns a `GateData`
whose `SessionToken` is not nil. -/
theorem GetTokens_nil_session_counterexample :
    toyGate2.SessionToken = none ∧
      PackTokens toyLib [toyGate1, toyGate2] 0 = .ok (toyBox, toySecrets, 4) ∧
      (toyKey 11).PublicKey = toyGate2.GateKey ∧
      ¬ ∃ gateData, toyBox.GetTokens toyLib (toyKey 11) = .ok gateData ∧
        gateData.SessionToken = none := by
  refine ⟨rfl, toy_pack, rfl, ?_⟩
  have h : toyBox.GetTokens toyLib (toyKey 11) =
      .ok { AccessKey := toySecrets.AccessKey, BearerToken := [4],
            SessionToken := some [], GateKey := toyPublicKey 11 } := rfl
  rintro ⟨gateData, hg, hnone⟩
  rw [h] at hg
  simp only [Except.ok.injEq] at hg
  rw [← hg] at hnone
  cases hnone

set_option maxRecDepth 1000000 in
/-- Counterexample to C7 as stated: the stored toy box has a malformed
container policy; `cred.GetTokens` succeeds on it and `cred.GetBox` fails. -/
theorem cred_GetTokens_GetBox_counterexample :
    (toyCred.GetTokens toyLib toyAddress toyWorldBadPolicy).1 =
        .ok { AccessKey := toySecrets.AccessKey, BearerToken := [4],
              SessionToken := some [], GateKey := toyPublicKey 11 } ∧
      (toyCred.GetBox toyLib toyAddress toyWorldBadPolicy).1 =
        .error (Err.lib "malformed placement policy") :=
  ⟨rfl, rfl⟩

/-- Witness of C8: the two policies of `toyBoxPolicies` come back in order. -/
theorem GetPlacementPolicy_passthrough_witness :
    toyBoxPolicies.GetPlacementPolicy toyLib =
        .ok [{ LocationConstraint := "ru", Policy := [1, 2] },
             { LocationConstraint := "eu", Policy := [3] }] ∧
      ∃ policies, toyBoxPolicies.GetPlacementPolicy toyLib = .ok policies ∧
        policies.length = toyBoxPolicies.ContainerPolicy.length ∧
        List.Forall₂ (fun p q => q.LocationConstraint = p.LocationConstraint ∧
          toyLib.policyUnmarshal p.Policy = .ok q.Policy)
          toyBoxPolicies.ContainerPolicy policies ∧
        (∀ owner gateData, toyBoxPolicies.GetTokens toyLib owner = .ok gateData →
          toyBoxPolicies.GetBox toyLib owner = .ok { Gate := gateData, Policies := policies }) ∧
        (∀ owner b, toyBoxPolicies.GetBox toyLib owner = .ok b → b.Policies = policies) :=
  ⟨rfl,
    GetPlacementPolicy_passthrough toyLib toyBoxPolicies (by
      intro p hp
      simp only [toyBoxPolicies, List.mem_cons, List.mem_singleton, List.not_mem_nil,
        or_false] at hp
      rcases hp with rfl | rfl
      · exact ⟨[1, 2], rfl⟩
      · exact ⟨[3], rfl⟩)⟩

set_option maxRecDepth 1000000 in
/-- Witness of C9: with the malformed policy of `toyBoxBadPolicy`, `GetBox`
fails with the policy error although the gate of the recipient decodes. -/
theorem GetPlacementPolicy_atomic_witness :
    toyBoxBadPolicy.GetPlacementPolicy toyLib = .error (Err.lib "malformed placement policy") ∧
      toyBoxBadPolicy.GetTokens toyLib (toyKey 11) =
        .ok { AccessKey := toySecrets.AccessKey, BearerToken := [4],
              SessionToken := some [], GateKey := toyPublicKey 11 } ∧
      toyBoxBadPolicy.GetBox toyLib (toyKey 11) =
        .error (Err.lib "malformed placement policy") := by
  obtain ⟨err, _, hget, hbox, _, _⟩ :=
    GetPlacementPolicy_atomic toyLib toyBoxBadPolicy
      ⟨{ LocationConstraint := "eu", Policy := [255] },
        List.mem_cons_of_mem _ (List.mem_cons_self _ _), _, rfl⟩
  have h1 : toyBoxBadPolicy.GetPlacementPolicy toyLib =
      .error (Err.lib "malformed placement policy") := rfl
  have h2 : toyBoxBadPolicy.GetTokens toyLib (toyKey 11) =
      .ok { AccessKey := toySecrets.AccessKey, BearerToken := [4],
            SessionToken := some [], GateKey := toyPublicKey 11 } := rfl
  rw [h1] at hget
  simp only [Except.error.injEq] at hget
  subst hget
  exact ⟨h1, h2, hbox _ _ h2⟩

/-- Witness of C10: the toy box has one gate per recipient, in order. -/
theorem PackTokens_shape_witness :
    PackTokens toyLib [toyGate1, toyGate2] 0 = .ok (toyBox, toySecrets, 4) ∧
      toyBox.Gates.length = 2 ∧
      (toyBox.Gates.map fun gate => gate.GatePublicKey) = [[2, 35], [2, 55]] ∧
      toyBox.ContainerPolicy = [] :=
  ⟨toy_pack, PackTokens_shape toyLib [toyGate1, toyGate2] 0 4 toyBox toySecrets toy_pack⟩

end instances

/-! ## Pack results, key agreement and payload layout -/

section packResults

variable {σ BT ST PP : Type} {L : Lib σ BT ST PP}

/-- The loop of `addTokens` in the two views: it returns an error exactly when
the in-place loop does, and otherwise the changed receiver. -/
theorem addTokensLoop_eq_go {eph : PrivateKey} {secret : Bytes} :
    ∀ (gs : List (GateData BT ST)) (i : Nat) (x : AccessBox) (s : σ),
      addTokensLoop L eph secret i gs x s =
        match addTokensGo L eph secret i gs x s with
        | (_, some err, _) => .error err
        | (x1, none, s1) => .ok (x1, s1) := by
  intro gs
  induction gs with
  | nil => intro i x s; rfl
  | cons g rest ih =>
    intro i x s
    unfold addTokensLoop addTokensGo
    cases L.bearerMarshal g.BearerToken with
    | error e => rfl
    | ok encBearer =>
      cases encSessionOf L g.SessionToken with
      | error e => rfl
      | ok encSession =>
        simp only
        cases encodeGate L eph g.GateKey
            { AccessKey := secret, BearerToken := encBearer, SessionToken := encSession } s with
        | error e => rfl
        | ok r => exact ih _ _ _

/-- The in-place loop over a list that starts with a successful part. -/
theorem addTokensGo_append {eph : PrivateKey} {secret : Bytes} :
    ∀ (pre rest : List (GateData BT ST)) (i : Nat) (x x1 : AccessBox) (s s1 : σ),
      addTokensGo L eph secret i pre x s = (x1, none, s1) →
      addTokensGo L eph secret i (pre ++ rest) x s =
        addTokensGo L eph secret (i + pre.length) rest x1 s1 := by
  intro pre
  induction pre with
  | nil =>
    intro rest i x x1 s s1 h
    simp only [addTokensGo, Prod.mk.injEq] at h
    obtain ⟨rfl, _, rfl⟩ := h
    rfl
  | cons g pre ih =>
    intro rest i x x1 s s1 h
    unfold addTokensGo at h
    simp only [List.cons_append]
    rw [addTokensGo]
    cases hb : L.bearerMarshal g.BearerToken with
    | error e => rw [hb] at h; simp at h
    | ok encBearer =>
      rw [hb] at h
      cases hs : encSessionOf L g.SessionToken with
      | error e => rw [hs] at h; simp at h
      | ok encSession =>
        rw [hs] at h
        simp only at h ⊢
        cases he : encodeGate L eph g.GateKey
            { AccessKey := secret, BearerToken := encBearer, SessionToken := encSession } s with
        | error e => rw [he] at h; simp at h
        | ok r =>
          rw [he] at h
          simp only at h ⊢
          rw [ih rest _ _ _ _ _ h]
          congr 1
          simp only [List.length_cons]
          omega

/-- Number of gates in the receiver after a successful in-place loop. -/
theorem addTokensGo_length {eph : PrivateKey} {secret : Bytes} :
    ∀ (gs : List (GateData BT ST)) (i : Nat) (x x1 : AccessBox) (s s1 : σ),
      addTokensGo L eph secret i gs x s = (x1, none, s1) →
      x1.Gates.length = x.Gates.length + gs.length := by
  intro gs i x x1 s s1 h
  have h1 := @addTokensLoop_eq_go σ BT ST PP L eph secret gs i x s
  rw [h] at h1
  obtain ⟨_, _, added, h3, h4⟩ := addTokensLoop_ok gs i x x1 s s1 h1
  rw [h3, List.length_append, h4.length_eq]

/-- A failing step makes `encodeGate` or the serialisation before it fail, and
the in-place loop returns its error, leaving the receiver as it is. -/
theorem addTokensGo_step_fails {eph : PrivateKey} {secret : Bytes} (i : Nat)
    (g : GateData BT ST) (post : List (GateData BT ST)) (x : AccessBox) (s : σ) (err : Err)
    (h : GateStepFails L eph secret i g s err) :
    addTokensGo L eph secret i (g :: post) x s = (x, some err, s) := by
  unfold addTokensGo
  rcases h with ⟨e, hb, rfl⟩ | ⟨encBearer, e, hb, hs, rfl⟩ | ⟨encBearer, encSession, hb, hs, h⟩
  · rw [hb]
  · rw [hb, hs]
  · rw [hb, hs]
    have henc : encodeGate L eph g.GateKey
        { AccessKey := secret, BearerToken := encBearer, SessionToken := encSession } s =
        .error err := by
      unfold encodeGate
      rcases h with hm | ⟨data, hm, hc | ⟨enc, hc, hr⟩⟩
      · rw [hm]
      · rw [hm]
        simp only [encrypt, hc]
      · rw [hm]
        simp only [encrypt, hc, hr]
    simp only [henc]

end packResults
section packClaims

variable {σ BT ST PP : Type}

/-- C11 (pack is all-or-nothing).  With the three results as Go returns them,
`PackTokens` either returns a box with one gate per recipient, the secrets and
a nil error, or a nil box, nil secrets and an error.  It returns the latter
when key generation fails, when secret generation fails, and when for the
recipient at any index a step fails (serialising a token or the `Tokens`,
building the cipher, for which a failing key agreement suffices, or reading
the nonce) after the recipients before it were processed: the receiver of
`addTokens` then holds the gates of that prefix, and it is not returned. -/
theorem PackTokens_all_or_nothing (L : Lib σ BT ST PP) (gatesData : List (GateData BT ST))
    (s : σ) :
    ((∃ box secrets s3, PackTokensGo L gatesData s = (some box, some secrets, none) ∧
        PackTokens L gatesData s = .ok (box, secrets, s3) ∧
        box.Gates.length = gatesData.length) ∨
      (∃ err, PackTokensGo L gatesData s = (none, none, some err) ∧
        PackTokens L gatesData s = .error err)) ∧
    (∀ err, L.NewPrivateKey s = .error err →
      PackTokensGo L gatesData s = (none, none, some err)) ∧
    (∀ eph s1 err, L.NewPrivateKey s = .ok (eph, s1) → generateSecret L s1 = .error err →
      PackTokensGo L gatesData s = (none, none, some (Err.failedToGenerateAccessKey err))) ∧
    (∀ eph s1 secret s2 pre g post x s3 err,
      L.NewPrivateKey s = .ok (eph, s1) → generateSecret L s1 = .ok (secret, s2) →
      gatesData = pre ++ g :: post →
      addTokensGo L eph secret 0 pre
        { OwnerPublicKey := L.PublicKeyBytes eph.PublicKey, Gates := [], ContainerPolicy := [] }
        s2 = (x, none, s3) →
      GateStepFails L eph secret pre.length g s3 err →
      x.Gates.length = pre.length ∧
        PackTokensGo L gatesData s = (none, none, some (Err.failedToAddTokens err))) ∧
    (∀ prv pub err, generateShared256 L prv pub = .error err →
      getCipher L prv pub = .error err) := by
  refine ⟨?_, ?_, ?_, ?_, ?_⟩
  · unfold PackTokensGo PackTokens
    cases L.NewPrivateKey s with
    | error e => exact Or.inr ⟨e, rfl, rfl⟩
    | ok r =>
      obtain ⟨eph, s1⟩ := r
      simp only
      cases generateSecret L s1 with
      | error e => exact Or.inr ⟨_, rfl, rfl⟩
      | ok r =>
        obtain ⟨secret, s2⟩ := r
        simp only [AccessBox.addTokens]
        rw [addTokensLoop_eq_go]
        rcases hgo : addTokensGo L eph secret 0 gatesData
            { OwnerPublicKey := L.PublicKeyBytes eph.PublicKey, Gates := [],
              ContainerPolicy := [] } s2 with ⟨x1, oerr, s3⟩
        cases oerr with
        | some e => exact Or.inr ⟨_, rfl, rfl⟩
        | none =>
          have hlen := addTokensGo_length _ _ _ _ _ _ hgo
          simp only [List.length_nil, Nat.zero_add] at hlen
          exact Or.inl ⟨x1, _, s3, rfl, rfl, hlen⟩
  · intro err h
    unfold PackTokensGo
    rw [h]
  · intro eph s1 err h1 h2
    unfold PackTokensGo
    rw [h1]
    simp only [h2]
  · intro eph s1 secret s2 pre g post x s3 err h1 h2 hsplit hpre hfail
    have hlen := addTokensGo_length _ _ _ _ _ _ hpre
    simp only [List.length_nil, Nat.zero_add] at hlen
    refine ⟨hlen, ?_⟩
    unfold PackTokensGo
    rw [h1]
    simp only [h2, hsplit]
    rw [addTokensGo_append pre (g :: post) 0 _ x s2 s3 hpre, Nat.zero_add,
      addTokensGo_step_fails pre.length g post x s3 err hfail]
  · intro prv pub err h
    unfold getCipher
    rw [h]

end packClaims

section keyClaims

variable {σ BT ST PP : Type}

theorem hexChars_length : ∀ b : Bytes, (hexChars b).length = 2 * b.length
  | [] => rfl
  | _ :: rest => by simp only [hexChars, List.length_cons, hexChars_length rest]; omega

theorem hexDigit_mem (n : Nat) (h : n < 16) : hexDigit n ∈ "0123456789abcdef".toList := by
  interval_cases n <;> decide

theorem hexChars_mem : ∀ (b : Bytes) (c : Char), c ∈ hexChars b →
    c ∈ "0123456789abcdef".toList
  | [], c, h => by simp [hexChars] at h
  | x :: rest, c, h => by
    simp only [hexChars, List.mem_cons] at h
    rcases h with rfl | rfl | h
    · exact hexDigit_mem _ (Nat.div_lt_of_lt_mul (by have := x.isLt; omega))
    · exact hexDigit_mem _ (Nat.mod_lt _ (by decide))
    · exact hexChars_mem rest c h

/-- C12 (the secrets fit the box).  If reads from the random source fill the
slice, then after a successful `PackTokens` the `OwnerPublicKey` of the box is
the byte encoding of the public key of `Secrets.EphemeralKey`, and
`Secrets.AccessKey` is the hex encoding, 64 characters out of
`0123456789abcdef`, of a 32-byte secret that is the `AccessKey` of the `Tokens`
sealed into every gate. -/
theorem PackTokens_secrets (L : Lib σ BT ST PP)
    (hrand : ∀ n s bs s1, L.randRead n s = .ok (bs, s1) → bs.length = n)
    (gatesData : List (GateData BT ST)) (s s3 : σ) (box : AccessBox) (secrets : Secrets)
    (hpack : PackTokens L gatesData s = .ok (box, secrets, s3)) :
    box.OwnerPublicKey = L.PublicKeyBytes secrets.EphemeralKey.PublicKey ∧
      ∃ secret : Bytes, secret.length = 32 ∧
        secrets.AccessKey = hexEncodeToString secret ∧
        secrets.AccessKey.length = 64 ∧
        (∀ c ∈ secrets.AccessKey.toList, c ∈ "0123456789abcdef".toList) ∧
        List.Forall₂ (PackedGate L secrets.EphemeralKey secret) gatesData box.Gates := by
  obtain ⟨eph, secret, s1, s2, _, hr, hsec, hown, _, hgates⟩ := PackTokens_ok hpack
  have hlen := hrand _ _ _ _ hr
  subst hsec
  refine ⟨hown, secret, hlen, rfl, ?_, ?_, hgates⟩
  · show (hexChars secret).length = 64
    rw [hexChars_length, hlen]
  · intro c hc
    exact hexChars_mem secret c hc

/-- C13 (key agreement is symmetric).  Under the laws of the collaborators,
for two well-formed key pairs `a` and `b`: `generateShared256` yields the same
result for (`a`, public key of `b`) and (`b`, public key of `a`); so do the key
that `getCipher` derives from it with `deriveKey` and hands to the AEAD, and
`getCipher` itself; and the cipher of the recipient `b` with the sender key
decoded from the owner key bytes of `a` is the cipher of the packer. -/
theorem key_agreement_symmetric (L : Lib σ BT ST PP) (Valid : PrivateKey → Prop)
    (hL : L.Laws Valid) (a b : PrivateKey) (ha : Valid a) (hb : Valid b) :
    generateShared256 L a b.PublicKey = generateShared256 L b a.PublicKey ∧
      getCipherKey L a b.PublicKey = getCipherKey L b a.PublicKey ∧
      getCipher L a b.PublicKey = getCipher L b a.PublicKey ∧
      (∀ owner sender, getCipher L owner sender =
        match getCipherKey L owner sender with
        | .error err => .error err
        | .ok key => L.NewX key) ∧
      (∀ sender, L.NewPublicKeyFromBytes (L.PublicKeyBytes a.PublicKey) Curve.P256 =
          .ok sender →
        getCipherKey L b sender = getCipherKey L a b.PublicKey ∧
          getCipher L b sender = getCipher L a b.PublicKey) := by
  have h := hL.ecdh_comm a b ha hb
  have hg : generateShared256 L a b.PublicKey = generateShared256 L b a.PublicKey := by
    simp only [generateShared256, hL.valid_curve a ha, hL.valid_curve b hb, h]
  have hk : getCipherKey L a b.PublicKey = getCipherKey L b a.PublicKey := by
    simp only [getCipherKey, hg]
  have hc := getCipher_comm hL ha hb
  refine ⟨hg, hk, hc, ?_, ?_⟩
  · intro owner sender
    unfold getCipher getCipherKey
    cases generateShared256 L owner sender with
    | error e => rfl
    | ok secret =>
      rfl
  · intro sender hs
    rw [hL.pub_roundtrip a ha] at hs
    simp only [Except.ok.injEq] at hs
    subst hs
    exact ⟨hk.symm, hc.symm⟩

theorem beToNat_zeros (n : Nat) (l : Bytes) :
    beToNat (List.replicate n (0 : Byte) ++ l) = beToNat l := by
  unfold beToNat
  induction n with
  | zero => rfl
  | succ n ih =>
    rw [List.replicate_succ, List.cons_append, List.foldl_cons]
    simpa using ih

theorem bigIntBytesAux_head :
    ∀ (fuel n : Nat) (acc : Bytes), n ≤ fuel → n ≠ 0 →
      (bigIntBytesAux fuel n acc).head? ≠ some 0 := by
  intro fuel
  induction fuel with
  | zero => intro n acc h hn; omega
  | succ fuel ih =>
    intro n acc h hn
    unfold bigIntBytesAux
    rw [if_neg hn]
    by_cases hq : n / 256 = 0
    · have hlt : n < 256 := by
        by_contra hge
        have : 1 ≤ n / 256 := Nat.div_pos (by omega) (by decide)
        omega
      rw [hq]
      have : bigIntBytesAux fuel 0 (⟨n % 256, Nat.mod_lt _ (by decide)⟩ :: acc) =
          ⟨n % 256, Nat.mod_lt _ (by decide)⟩ :: acc := by
        cases fuel <;> simp [bigIntBytesAux]
      rw [this]
      simp only [List.head?_cons, ne_eq, Option.some.injEq]
      intro h0
      have := congrArg Fin.val h0
      simp only [Fin.val_zero] at this
      rw [Nat.mod_eq_of_lt hlt] at this
      exact hn this
    · exact ih _ _ (by omega) hq

/-- The encoding `bigIntBytes` has no leading zero byte. -/
theorem bigIntBytes_head (n : Nat) : (bigIntBytes n).head? ≠ some 0 := by
  unfold bigIntBytes
  by_cases hn : n = 0
  · subst hn; simp [bigIntBytesAux]
  · exact bigIntBytesAux_head n n [] (Nat.le_refl n) hn

/-- C14 (encoding of the shared secret).  Whenever `generateShared256`
succeeds, the scalar multiplication returned an x-coordinate `x`, and the
result has exactly 32 bytes: zero bytes followed by the minimal big-endian
encoding of `x` (which has no leading zero byte and at most 32 bytes); read as
a big-endian integer the result is `x`. -/
theorem generateShared256_encoding (L : Lib σ BT ST PP) (prv : PrivateKey) (pub : PublicKey)
    (sk : Bytes) (h : generateShared256 L prv pub = .ok sk) :
    sk.length = 32 ∧
      ∃ x, L.ScalarMult pub.Curve pub.X pub.Y (bigIntBytes prv.D) = .returns (some x) ∧
        beToNat sk = x ∧
        (bigIntBytes x).length ≤ 32 ∧
        (bigIntBytes x).head? ≠ some 0 ∧
        beToNat (bigIntBytes x) = x ∧
        sk = List.replicate (32 - (bigIntBytes x).length) (0 : Byte) ++ bigIntBytes x := by
  unfold generateShared256 at h
  split at h
  · cases h
  · split at h
    · cases h
    · cases h
    · rename_i x hx
      simp only at h
      split at h
      · rename_i hle
        simp only [Except.ok.injEq] at h
        subst h
        refine ⟨?_, x, hx, ?_, hle, bigIntBytes_head x, beToNat_bigIntBytes x, rfl⟩
        · rw [List.length_append, List.length_replicate]
          omega
        · rw [beToNat_zeros, beToNat_bigIntBytes]
      · cases h

/-- The two checks of `generateShared256`, for every library, thus whatever
its scalar multiplication does: if the curve of the public key of `prv`
differs from the curve of `pub`, `generateShared256` fails with the
not-equal-curves error; if the curves agree and the scalar multiplication
returns a nil x-coordinate, it fails with the point-at-infinity error.  A
shared secret is returned only when the curves agree and the multiplication
returns an x-coordinate. -/
theorem generateShared256_failures (L : Lib σ BT ST PP) (prv : PrivateKey) (pub : PublicKey) :
    (prv.PublicKey.Curve ≠ pub.Curve →
      generateShared256 L prv pub = .error Err.notEqualCurves) ∧
    (prv.PublicKey.Curve = pub.Curve →
      L.ScalarMult pub.Curve pub.X pub.Y (bigIntBytes prv.D) = .returns none →
      generateShared256 L prv pub = .error Err.pointAtInfinity) ∧
    (∀ sk, generateShared256 L prv pub = .ok sk →
      prv.PublicKey.Curve = pub.Curve ∧
        ∃ x, L.ScalarMult pub.Curve pub.X pub.Y (bigIntBytes prv.D) = .returns (some x)) := by
  refine ⟨?_, ?_, ?_⟩
  · intro h
    unfold generateShared256
    rw [if_pos h]
  · intro h hm
    unfold generateShared256
    rw [if_neg (fun hne => hne h), hm]
  · intro sk h
    unfold generateShared256 at h
    split at h
    · cases h
    · rename_i hc
      refine ⟨not_not.1 hc, ?_⟩
      split at h
      · cases h
      · cases h
      · rename_i x hx
        exact ⟨x, hx⟩

end keyClaims

section payloadClaims

variable {σ BT ST PP : Type}

/-- C16 (layout of the sealed payload).  If reads from the random source fill
the slice and the AEAD has the sizes of XChaCha20-Poly1305, then whenever
`encrypt` succeeds on the plaintext `p` its output is the nonce, which is the
24 bytes this call read from the random source, followed by the plaintext
sealed under that nonce with no associated data; the output has
`24 + len(p) + 16` bytes, and where `decrypt` splits it, after the first 24
bytes, it finds that nonce and the sealed message. -/
theorem encrypt_layout (L : Lib σ BT ST PP)
    (hrand : ∀ n s bs s1, L.randRead n s = .ok (bs, s1) → bs.length = n)
    (hshape : L.XChaChaShape) (owner : PrivateKey) (sender : PublicKey) (p out : Bytes)
    (s s1 : σ) (h : encrypt L owner sender p s = .ok (out, s1)) :
    ∃ enc nonce, getCipher L owner sender = .ok enc ∧ enc.NonceSize = 24 ∧
      L.randRead 24 s = .ok (nonce, s1) ∧ nonce.length = 24 ∧
      out = nonce ++ enc.Seal nonce p [] ∧
      out.length = 24 + p.length + 16 ∧
      out.take 24 = nonce ∧
      out.take enc.NonceSize = nonce ∧ out.drop enc.NonceSize = enc.Seal nonce p [] := by
  unfold encrypt at h
  split at h
  · cases h
  · rename_i enc hc
    obtain ⟨key, hkey⟩ := getCipher_ok hc
    obtain ⟨hns, hov, hseal⟩ := hshape key enc hkey
    split at h
    · cases h
    · rename_i nonce s2 hr
      simp only [Except.ok.injEq, Prod.mk.injEq] at h
      obtain ⟨hout, hs⟩ := h
      subst hs
      have hlen := hrand _ _ _ _ hr
      rw [hns] at hr hlen
      subst hout
      refine ⟨enc, nonce, hc, hns, hr, hlen, rfl, ?_, ?_, ?_, ?_⟩
      · rw [List.length_append, hseal, hov, hlen]
        omega
      · rw [← hlen, List.take_left]
      · rw [hns, ← hlen, List.take_left]
      · rw [hns, ← hlen, List.drop_left]

/-- The loop of `GetTokens` stops at the first gate addressed to the key. -/
theorem getTokensLoop_first (L : Lib σ BT ST PP) (owner : PrivateKey) (sender : PublicKey)
    (ownerKey : Bytes) (gate : AccessBox_Gate) (post : List AccessBox_Gate)
    (hgate : gate.GatePublicKey = ownerKey) :
    ∀ pre : List AccessBox_Gate, (∀ g ∈ pre, g.GatePublicKey ≠ ownerKey) →
      getTokensLoop L owner sender ownerKey (pre ++ gate :: post) =
        match decodeGate L gate owner sender with
        | .error err => .error (Err.failedToDecodeGate err)
        | .ok gateData => .ok gateData := by
  intro pre
  induction pre with
  | nil =>
    intro _
    simp only [List.nil_append]
    unfold getTokensLoop
    rw [if_neg (fun h => h hgate)]
  | cons g pre ih =>
    intro h
    simp only [List.cons_append]
    unfold getTokensLoop
    rw [if_pos (h g (List.mem_cons_self _ _))]
    exact ih (fun g1 hg1 => h g1 (List.mem_cons_of_mem _ hg1))

/-- C17, as the code has it.  Let the owner key of the box decode, let `gate`
be the first gate addressed to the supplied key, and let the cipher for the
key and the sender be `dec`.  If the sealed payload is shorter than the nonce,
`decrypt` does not call the AEAD and `GetTokens` fails with the wrong-data-size
error, wrapped as a gate decoding failure.  Otherwise the payload is split
after the nonce and handed to `Open` (with an empty sealed part when the
payload is exactly the nonce), and when `Open` fails `GetTokens` fails with the
error of `Open`, wrapped in the same way; that error is the authentication
error when this is the only error `Open` returns.  Whatever makes decoding the
gate fail, the failure of `GetTokens` is the wrapped decoding error, never the
no-gate-data error. -/
theorem GetTokens_open_failure (L : Lib σ BT ST PP) (x : AccessBox) (owner : PrivateKey)
    (sender : PublicKey) (dec : AEAD) (pre post : List AccessBox_Gate) (gate : AccessBox_Gate)
    (hsender : L.NewPublicKeyFromBytes x.OwnerPublicKey Curve.P256 = .ok sender)
    (hgates : x.Gates = pre ++ gate :: post)
    (hpre : ∀ g ∈ pre, g.GatePublicKey ≠ L.PublicKeyBytes owner.PublicKey)
    (hgate : gate.GatePublicKey = L.PublicKeyBytes owner.PublicKey)
    (hdec : getCipher L owner sender = .ok dec) :
    (gate.Tokens.length < dec.NonceSize →
      x.GetTokens L owner =
        .error (Err.failedToDecodeGate
          (Err.wrongDataSize gate.Tokens.length dec.NonceSize))) ∧
    (dec.NonceSize ≤ gate.Tokens.length →
      ∀ err, dec.Open (gate.Tokens.take dec.NonceSize) (gate.Tokens.drop dec.NonceSize) [] =
          .error err →
        x.GetTokens L owner = .error (Err.failedToDecodeGate err) ∧
          (L.OpenErrors → err = Err.aeadAuthFailed)) ∧
    (∀ err, decodeGate L gate owner sender = .error err →
      x.GetTokens L owner = .error (Err.failedToDecodeGate err)) ∧
    x.GetTokens L owner ≠ .error (Err.noGateData (L.PublicKeyBytes owner.PublicKey)) := by
  have hget : x.GetTokens L owner =
      match decodeGate L gate owner sender with
      | .error err => .error (Err.failedToDecodeGate err)
      | .ok gateData => .ok gateData := by
    unfold AccessBox.GetTokens
    rw [hsender, hgates]
    exact getTokensLoop_first L owner sender _ gate post hgate pre hpre
  refine ⟨?_, ?_, ?_, ?_⟩
  · intro hlt
    rw [hget]
    simp only [decodeGate, decrypt, hdec, if_pos hlt]
  · intro hle err hopen
    refine ⟨?_, ?_⟩
    · rw [hget]
      simp only [decodeGate, decrypt, hdec, if_neg (Nat.not_lt.2 hle), hopen]
    · intro hO
      obtain ⟨key, hkey⟩ := getCipher_ok hdec
      exact hO key dec hkey _ _ _ _ hopen
  · intro err herr
    rw [hget, herr]
  · rw [hget]
    cases decodeGate L gate owner sender with
    | error e => simp
    | ok gd => simp

/-- The check of the owner key.  If the key library rejects the owner key of
the box with an error, `GetTokens` and `GetBox` fail for every private key with
the owner-key error wrapping that error, whatever the gates are: also when no
gate is addressed to the key and when there is no gate at all. -/
theorem GetTokens_malformed_owner (L : Lib σ BT ST PP) (x : AccessBox) (err : Err)
    (h : L.NewPublicKeyFromBytes x.OwnerPublicKey Curve.P256 = .error err)
    (owner : PrivateKey) :
    x.GetTokens L owner = .error (Err.unmarshalOwnerPublicKey err) ∧
      x.GetBox L owner = .error (Err.unmarshalOwnerPublicKey err) ∧
      (∀ gates policies, L.NewPublicKeyFromBytes x.OwnerPublicKey Curve.P256 = .error err →
        ({ x with Gates := gates, ContainerPolicy := policies } : AccessBox).GetTokens L owner =
          .error (Err.unmarshalOwnerPublicKey err)) := by
  have h1 : x.GetTokens L owner = .error (Err.unmarshalOwnerPublicKey err) := by
    unfold AccessBox.GetTokens
    rw [h]
  refine ⟨h1, ?_, ?_⟩
  · unfold AccessBox.GetBox
    rw [h1]
  · intro gates policies h2
    unfold AccessBox.GetTokens
    simp only [h2]

end payloadClaims

section storeClaims

variable {σ BT ST PP β : Type}

/-- C19 (what `Put` stores and returns).  Whenever `Put` succeeds at the clock
reading `now`, the box is not nil, `PutObject` was called on the backend with
the object of the given container and owner that carries the attributes
`FileName` (the decimal string of `now` followed by `_access.box`) and
`Timestamp` (the decimal string of `now`) and with the marshalled box as
payload, and the returned address is the given container with the object id
the backend returned; the backend is left as `PutObject` left it and the
buffer pool is untouched. -/
theorem Put_stores (L : Lib σ BT ST PP) (c : cred β) (now : Int) (cid : ContainerID)
    (issuer : OwnerID) (box : Option AccessBox) (keys : List PublicKey) (w w1 : World β)
    (address : Address) (h : c.Put L now cid issuer box keys w = (.ok address, w1)) :
    ∃ b data oid backend1, box = some b ∧ keys ≠ [] ∧ L.marshalAccessBox b = .ok data ∧
      c.pool.PutObject w.backend
        { Object :=
            { ContainerID := cid, OwnerID := issuer,
              Attributes :=
                [{ Key := "FileName", Value := formatInt now ++ "_access.box" },
                 { Key := "Timestamp", Value := formatInt now }] },
          Payload := data } = (.ok oid, backend1) ∧
      address = { ContainerID := cid, ObjectID := oid } ∧
      w1 = { backend := backend1, bufferPool := w.bufferPool } := by
  unfold cred.Put at h
  simp only at h
  split at h
  · cases h
  · rename_i hk
    split at h
    · cases h
    · rename_i b
      split at h
      · cases h
      · rename_i data hm
        split at h
        · cases h
        · rename_i oid backend1 hp
          simp only [Prod.mk.injEq, Except.ok.injEq] at h
          refine ⟨b, data, oid, backend1, rfl, ?_, hm, hp, h.1.symm, h.2.symm⟩
          intro hnil
          exact hk (by rw [hnil]; rfl)

/-- C20 (buffer hygiene).  `getAccessBox` takes one buffer out of the pool (or
a new one when the pool is empty) and, whether the backend fails,
deserialisation fails or the box is returned, leaves the pool as it was after
taking, plus one buffer of length 0; `GetTokens` and `GetBox` leave the world
as `getAccessBox` does; `Put` does not touch the pool.  So each of them keeps
the invariant that every buffer in the pool has length 0, and under this
invariant the bytes handed to deserialisation are exactly the payload. -/
theorem getAccessBox_buffers (L : Lib σ BT ST PP) (c : cred β) (address : Address)
    (w : World β) :
    (c.getAccessBox L address w).2.bufferPool = [] :: w.bufferPool.tail ∧
      (c.acquireBuffer w).2.bufferPool = w.bufferPool.tail ∧
      (c.GetTokens L address w).2 = (c.getAccessBox L address w).2 ∧
      (c.GetBox L address w).2 = (c.getAccessBox L address w).2 ∧
      (∀ now cid issuer box keys,
        (c.Put L now cid issuer box keys w).2.bufferPool = w.bufferPool) ∧
      ((∀ b ∈ w.bufferPool, b.length = 0) →
        (∀ b ∈ (c.getAccessBox L address w).2.bufferPool, b.length = 0) ∧
        (∀ b ∈ (c.GetTokens L address w).2.bufferPool, b.length = 0) ∧
        (∀ b ∈ (c.GetBox L address w).2.bufferPool, b.length = 0) ∧
        (c.acquireBuffer w).1 = []) := by
  have hacq : (c.acquireBuffer w).2.bufferPool = w.bufferPool.tail := by
    unfold cred.acquireBuffer
    cases hp : w.bufferPool with
    | nil => simp [hp]
    | cons b rest => simp
  have hbackend : (c.acquireBuffer w).2.backend = w.backend := by
    unfold cred.acquireBuffer
    cases w.bufferPool <;> rfl
  have hget : (c.getAccessBox L address w).2.bufferPool = [] :: w.bufferPool.tail := by
    unfold cred.getAccessBox
    simp only
    rcases hg : c.pool.GetObject (c.acquireBuffer w).2.backend address with ⟨res, b⟩
    cases res with
    | error e => simp only [cred.releaseBuffer, bufferReset, hacq]
    | ok payload =>
      simp only
      cases L.unmarshalAccessBox ((c.acquireBuffer w).1 ++ payload) <;>
        simp only [cred.releaseBuffer, bufferReset, hacq]
  have htok : (c.GetTokens L address w).2 = (c.getAccessBox L address w).2 := by
    unfold cred.GetTokens
    rcases c.getAccessBox L address w with ⟨res, w1⟩
    cases res <;> rfl
  have hbox : (c.GetBox L address w).2 = (c.getAccessBox L address w).2 := by
    unfold cred.GetBox
    rcases c.getAccessBox L address w with ⟨res, w1⟩
    cases res <;> rfl
  refine ⟨hget, hacq, htok, hbox, ?_, ?_⟩
  · intro now cid issuer box keys
    unfold cred.Put
    simp only
    split
    · rfl
    · split
      · rfl
      · split
        · rfl
        · split <;> rfl
  · intro hinv
    have hall : ∀ b ∈ (c.getAccessBox L address w).2.bufferPool, b.length = 0 := by
      intro b hb
      rw [hget] at hb
      rcases List.mem_cons.1 hb with rfl | hb
      · rfl
      · exact hinv b (List.mem_of_mem_tail hb)
    refine ⟨hall, ?_, ?_, ?_⟩
    · rw [htok]; exact hall
    · rw [hbox]; exact hall
    · unfold cred.acquireBuffer
      cases hp : w.bufferPool with
      | nil => rfl
      | cons b rest =>
        simp only
        exact List.length_eq_zero.1 (hinv b (by rw [hp]; exact List.mem_cons_self _ _))

end storeClaims

/-! ## The further theorems on the toy instance -/

section instances2

set_option maxRecDepth 1000000 in
/-- Witness of C11: the second recipient has a bearer token the toy encoding
of `Tokens` rejects; the first gate is built, and nothing is returned but the
error. -/
theorem PackTokens_all_or_nothing_witness :
    PackTokensGo toyLib [toyGate1, toyGateLong] 0 =
      (none, none, some (Err.failedToAddTokens (Err.lib "field too long"))) :=
  ((PackTokens_all_or_nothing toyLib [toyGate1, toyGateLong] 0).2.2.2.1 (toyKey 1) 1
    (List.replicate 32 1) 2 [toyGate1] toyGateLong []
    { toyBox with Gates := toyBox.Gates.take 1 } 3 (Err.lib "field too long") rfl rfl rfl rfl
    (Or.inr (Or.inr ⟨_, _, rfl, rfl, Or.inl rfl⟩))).2

/-- Witness of C12: the secrets of the toy box. -/
theorem PackTokens_secrets_witness :
    PackTokens toyLib [toyGate1, toyGate2] 0 = .ok (toyBox, toySecrets, 4) ∧
      toyBox.OwnerPublicKey = toyLib.PublicKeyBytes toySecrets.EphemeralKey.PublicKey ∧
      ∃ secret : Bytes, secret.length = 32 ∧
        toySecrets.AccessKey = hexEncodeToString secret ∧
        toySecrets.AccessKey.length = 64 ∧
        (∀ c ∈ toySecrets.AccessKey.toList, c ∈ "0123456789abcdef".toList) ∧
        List.Forall₂ (PackedGate toyLib toySecrets.EphemeralKey secret) [toyGate1, toyGate2]
          toyBox.Gates :=
  ⟨toy_pack,
    PackTokens_secrets toyLib toyLaws.rand_length [toyGate1, toyGate2] 0 4 toyBox toySecrets
      toy_pack⟩

set_option maxRecDepth 1000000 in
/-- Witness of C13: the toy packer key 1 and the toy recipient key 7 agree on
the shared secret. -/
theorem key_agreement_symmetric_witness :
    generateShared256 toyLib (toyKey 1) (toyKey 7).PublicKey =
        .ok (List.replicate 31 0 ++ [35]) ∧
      generateShared256 toyLib (toyKey 7) (toyKey 1).PublicKey =
        .ok (List.replicate 31 0 ++ [35]) := by
  have h := (key_agreement_symmetric toyLib toyValid toyLaws (toyKey 1) (toyKey 7) rfl rfl).1
  have h1 : generateShared256 toyLib (toyKey 1) (toyKey 7).PublicKey =
      .ok (List.replicate 31 0 ++ [35]) := rfl
  exact ⟨h1, h ▸ h1⟩

set_option maxRecDepth 1000000 in
/-- Witness of C14: the toy x-coordinate 35, padded to 32 bytes. -/
theorem generateShared256_encoding_witness :
    generateShared256 toyLib (toyKey 1) (toyPublicKey 7) = .ok (List.replicate 31 0 ++ [35]) ∧
      (List.replicate 31 (0 : Byte) ++ [35]).length = 32 ∧
      beToNat (List.replicate 31 (0 : Byte) ++ [35]) = 35 := by
  have h1 : generateShared256 toyLib (toyKey 1) (toyPublicKey 7) =
      .ok (List.replicate 31 0 ++ [35]) := rfl
  obtain ⟨hlen, x, hx, hval, _⟩ :=
    generateShared256_encoding toyLib (toyKey 1) (toyPublicKey 7) _ h1
  have hx35 : x = 35 := by
    have h2 : toyLib.ScalarMult (toyPublicKey 7).Curve (toyPublicKey 7).X (toyPublicKey 7).Y
        (bigIntBytes (toyKey 1).D) = .returns (some 35) := rfl
    rw [h2] at hx
    exact (Option.some.inj (ScalarResult.returns.inj hx)).symm
  rw [hx35] at hval
  exact ⟨h1, hlen, hval⟩

/-- The two checks on concrete inputs: a public key on another curve, and a
library whose scalar multiplication returns a nil coordinate. -/
theorem generateShared256_failures_witness :
    generateShared256 toyLib (toyKey 1)
        { Curve := Curve.other 1, X := some 35, Y := some 0 } =
        .error Err.notEqualCurves ∧
      generateShared256 toyLibNoPoint (toyKey 1) (toyPublicKey 7) =
        .error Err.pointAtInfinity :=
  ⟨(generateShared256_failures toyLib (toyKey 1)
      { Curve := Curve.other 1, X := some 35, Y := some 0 }).1 (by decide),
    (generateShared256_failures toyLibNoPoint (toyKey 1) (toyPublicKey 7)).2.1 rfl rfl⟩

theorem toyShape : toyLib.XChaChaShape := by
  intro key a h
  simp only [toyLib] at h
  split at h
  · simp only [Except.ok.injEq] at h
    subst h
    refine ⟨rfl, rfl, ?_⟩
    intro nonce p ad
    simp [toyAEAD, toyTag]
  · cases h

theorem toyOpenErrors : toyLib.OpenErrors := by
  intro key a h nonce c ad err hopen
  simp only [toyLib] at h
  split at h
  · simp only [Except.ok.injEq] at h
    subst h
    simp only [toyAEAD, toyOpen] at hopen
    split at hopen
    · cases hopen; rfl
    · split at hopen
      · cases hopen
      · cases hopen; rfl
  · cases h

set_option maxRecDepth 1000000 in
/-- Witness of C16: the toy packer seals three bytes for the toy recipient 7
with the nonce read in the random state 2. -/
theorem encrypt_layout_witness :
    encrypt toyLib (toyKey 1) (toyPublicKey 7) [1, 2, 3] 2 =
        .ok (List.replicate 24 2 ++ ([1, 2, 3] ++ (89 :: List.replicate 15 0)), 3) ∧
      (List.replicate 24 (2 : Byte) ++ ([1, 2, 3] ++ (89 :: List.replicate 15 0))).length =
        24 + 3 + 16 ∧
      (List.replicate 24 (2 : Byte) ++ ([1, 2, 3] ++ (89 :: List.replicate 15 0))).take 24 =
        List.replicate 24 2 := by
  have h1 : encrypt toyLib (toyKey 1) (toyPublicKey 7) [1, 2, 3] 2 =
      .ok (List.replicate 24 2 ++ ([1, 2, 3] ++ (89 :: List.replicate 15 0)), 3) := rfl
  obtain ⟨enc, nonce, _, _, hr, _, _, hlen, htake, _⟩ :=
    encrypt_layout toyLib toyLaws.rand_length toyShape (toyKey 1) (toyPublicKey 7) [1, 2, 3]
      _ 2 3 h1
  have hn : nonce = List.replicate 24 2 := by
    have h2 : toyLib.randRead 24 2 = .ok (List.replicate 24 2, 3) := rfl
    rw [h2] at hr
    simp only [Except.ok.injEq, Prod.mk.injEq] at hr
    exact hr.1.symm
  rw [hn] at htake
  exact ⟨h1, hlen, htake⟩

set_option maxRecDepth 1000000 in
/-- Witness of the amended C17: a sealed payload of 10 bytes is reported as
wrong data size, a payload that is only the nonce as authentication failure. -/
theorem GetTokens_open_failure_witness :
    toyBoxTruncated.GetTokens toyLib (toyKey 7) =
        .error (Err.failedToDecodeGate (Err.wrongDataSize 10 24)) ∧
      toyBoxNonceOnly.GetTokens toyLib (toyKey 7) =
        .error (Err.failedToDecodeGate Err.aeadAuthFailed) :=
  ⟨(GetTokens_open_failure toyLib toyBoxTruncated (toyKey 7) (toyPublicKey 1)
      (toyAEAD (List.replicate 31 0 ++ [35])) [] []
      { GatePublicKey := [2, 35], Tokens := List.replicate 10 2 } rfl rfl
      (fun _ h => nomatch h) rfl rfl).1 (by decide),
    ((GetTokens_open_failure toyLib toyBoxNonceOnly (toyKey 7) (toyPublicKey 1)
      (toyAEAD (List.replicate 31 0 ++ [35])) [] []
      { GatePublicKey := [2, 35], Tokens := List.replicate 24 2 } rfl rfl
      (fun _ h => nomatch h) rfl rfl).2.1 (by decide) Err.aeadAuthFailed rfl).1⟩

set_option maxRecDepth 1000000 in
/-- Counterexample to C17 as stated: the toy box has a valid owner key and a
gate addressed to the key; with the sealed payload cut to 10 bytes, fewer than
the nonce, `GetTokens` reports the wrong-data-size error, which is not the
error it reports for a tag mismatch. -/
theorem GetTokens_open_failure_counterexample :
    toyBoxTruncated.GetTokens toyLib (toyKey 7) =
        .error (Err.failedToDecodeGate (Err.wrongDataSize 10 24)) ∧
      (tamperGate toyBox [2, 35] 30 2).GetTokens toyLib (toyKey 7) =
        .error (Err.failedToDecodeGate Err.aeadAuthFailed) ∧
      toyBoxTruncated.GetTokens toyLib (toyKey 7) ≠
        (tamperGate toyBox [2, 35] 30 2).GetTokens toyLib (toyKey 7) := by
  have h1 : toyBoxTruncated.GetTokens toyLib (toyKey 7) =
      .error (Err.failedToDecodeGate (Err.wrongDataSize 10 24)) := rfl
  have h2 : (tamperGate toyBox [2, 35] 30 2).GetTokens toyLib (toyKey 7) =
      .error (Err.failedToDecodeGate Err.aeadAuthFailed) := rfl
  refine ⟨h1, h2, ?_⟩
  rw [h1, h2]
  intro h
  cases h

/-- The check of the owner key on a concrete input: owner bytes that the key
library rejects, and no gate. -/
theorem GetTokens_malformed_owner_witness :
    toyBoxBadOwner.Gates = [] ∧
      toyBoxBadOwner.GetTokens toyLib (toyKey 7) =
        .error (Err.unmarshalOwnerPublicKey (Err.lib "invalid public key")) ∧
      toyBoxBadOwner.GetBox toyLib (toyKey 7) =
        .error (Err.unmarshalOwnerPublicKey (Err.lib "invalid public key")) :=
  ⟨rfl,
    (GetTokens_malformed_owner toyLib toyBoxBadOwner (Err.lib "invalid public key") rfl
      (toyKey 7)).1,
    (GetTokens_malformed_owner toyLib toyBoxBadOwner (Err.lib "invalid public key") rfl
      (toyKey 7)).2.1⟩

set_option maxRecDepth 1000000 in
/-- Witness of C19: the toy store at clock reading 1700000000. -/
theorem Put_stores_witness :
    formatInt 1700000000 = "1700000000" ∧
      ∃ b data oid backend1, some toyBoxBadPolicy = some b ∧ [toyPublicKey 11] ≠ [] ∧
        toyLib.marshalAccessBox b = .ok data ∧
        toyCred.pool.PutObject ([] : List (Address × Bytes))
          { Object :=
              { ContainerID := [7], OwnerID := [8],
                Attributes :=
                  [{ Key := "FileName", Value := formatInt 1700000000 ++ "_access.box" },
                   { Key := "Timestamp", Value := formatInt 1700000000 }] },
            Payload := data } = (.ok oid, backend1) ∧
        toyAddress = { ContainerID := [7], ObjectID := oid } ∧
        toyWorldBadPolicy = { backend := backend1, bufferPool := [] } :=
  ⟨by decide,
    Put_stores toyLib toyCred 1700000000 [7] [8] (some toyBoxBadPolicy) [toyPublicKey 11]
      { backend := [], bufferPool := [] } toyWorldBadPolicy toyAddress rfl⟩

set_option maxRecDepth 1000000 in
/-- Witness of C20: a fetch from a pool of two empty buffers leaves two empty
buffers. -/
theorem getAccessBox_buffers_witness :
    (toyCred.getAccessBox toyLib toyAddress toyWorldTwoBuffers).2.bufferPool = [[], []] ∧
      (toyCred.GetBox toyLib toyAddress toyWorldTwoBuffers).2.bufferPool = [[], []] :=
  ⟨(getAccessBox_buffers toyLib toyCred toyAddress toyWorldTwoBuffers).1,
    ((getAccessBox_buffers toyLib toyCred toyAddress toyWorldTwoBuffers).2.2.2.1).symm ▸
      (getAccessBox_buffers toyLib toyCred toyAddress toyWorldTwoBuffers).1⟩

end instances2

section firstGate

variable {σ BT ST PP β : Type}

/-- C24 (the first matching gate decides).  Let the owner key of the box
decode and let `gate` be the first gate whose `GatePublicKey` is byte-equal to
the public-key bytes of the private key.  Then the result of `GetTokens` is the
result of decoding that gate, success or failure (the failure wrapped as a gate
decoding failure), and it stays the same whatever gates follow: replacing the
gates after it by any others does not change it. -/
theorem GetTokens_first_gate (L : Lib σ BT ST PP) (x : AccessBox) (owner : PrivateKey)
    (sender : PublicKey) (pre post : List AccessBox_Gate) (gate : AccessBox_Gate)
    (hsender : L.NewPublicKeyFromBytes x.OwnerPublicKey Curve.P256 = .ok sender)
    (hgates : x.Gates = pre ++ gate :: post)
    (hpre : ∀ g ∈ pre, g.GatePublicKey ≠ L.PublicKeyBytes owner.PublicKey)
    (hgate : gate.GatePublicKey = L.PublicKeyBytes owner.PublicKey) :
    (x.GetTokens L owner =
      match decodeGate L gate owner sender with
      | .error err => .error (Err.failedToDecodeGate err)
      | .ok gateData => .ok gateData) ∧
    ∀ later : List AccessBox_Gate,
      ({ x with Gates := pre ++ gate :: later } : AccessBox).GetTokens L owner =
        x.GetTokens L owner := by
  have h1 : ∀ later : List AccessBox_Gate,
      ({ x with Gates := pre ++ gate :: later } : AccessBox).GetTokens L owner =
        match decodeGate L gate owner sender with
        | .error err => .error (Err.failedToDecodeGate err)
        | .ok gateData => .ok gateData := by
    intro later
    unfold AccessBox.GetTokens
    simp only [hsender]
    exact getTokensLoop_first L owner sender _ gate later hgate pre hpre
  have h2 : x.GetTokens L owner =
      match decodeGate L gate owner sender with
      | .error err => .error (Err.failedToDecodeGate err)
      | .ok gateData => .ok gateData := by
    have := h1 post
    rw [← hgates] at this
    exact this
  exact ⟨h2, fun later => by rw [h1 later, h2]⟩

/-- C21 (results of fetching a box).  If `GetObject` of the backend fails,
`getAccessBox`, `GetBox` and `GetTokens` return exactly its error, whatever the
library does (nothing is deserialised or decrypted).  If it succeeds and every
buffer in the pool is empty, as every operation leaves the pool, then the
bytes deserialised are exactly the payload the backend wrote: `getAccessBox`
returns the deserialisation error when they are not a box, and the box decoded
from them otherwise. -/
theorem getAccessBox_results (L : Lib σ BT ST PP) (c : cred β) (address : Address)
    (w : World β) (hinv : ∀ b ∈ w.bufferPool, b.length = 0) :
    (∀ err b, c.pool.GetObject w.backend address = (.error err, b) →
      (c.getAccessBox L address w).1 = .error err ∧
        (c.GetBox L address w).1 = .error err ∧
        (c.GetTokens L address w).1 = .error err) ∧
    (∀ payload b err, c.pool.GetObject w.backend address = (.ok payload, b) →
      L.unmarshalAccessBox payload = .error err →
      (c.getAccessBox L address w).1 = .error err ∧
        (c.GetBox L address w).1 = .error err ∧
        (c.GetTokens L address w).1 = .error err) ∧
    (∀ payload b box, c.pool.GetObject w.backend address = (.ok payload, b) →
      L.unmarshalAccessBox payload = .ok box →
      (c.getAccessBox L address w).1 = .ok box ∧
        (c.GetBox L address w).1 = box.GetBox L c.key ∧
        (c.GetTokens L address w).1 = box.GetTokens L c.key) := by
  have hbackend : (c.acquireBuffer w).2.backend = w.backend := by
    unfold cred.acquireBuffer
    cases w.bufferPool <;> rfl
  have hbuf : (c.acquireBuffer w).1 = [] := by
    unfold cred.acquireBuffer
    cases hp : w.bufferPool with
    | nil => rfl
    | cons b rest =>
      exact List.length_eq_zero.1 (hinv b (by rw [hp]; exact List.mem_cons_self _ _))
  refine ⟨?_, ?_, ?_⟩
  · intro err b hget
    have h1 : (c.getAccessBox L address w).1 = .error err := by
      unfold cred.getAccessBox
      simp only [hbackend, hget]
    refine ⟨h1, ?_, ?_⟩
    · unfold cred.GetBox
      rcases hg : c.getAccessBox L address w with ⟨res, w1⟩
      rw [hg] at h1
      simp only at h1
      subst h1
      rfl
    · unfold cred.GetTokens
      rcases hg : c.getAccessBox L address w with ⟨res, w1⟩
      rw [hg] at h1
      simp only at h1
      subst h1
      rfl
  · intro payload b err hget hun
    have h1 : (c.getAccessBox L address w).1 = .error err := by
      unfold cred.getAccessBox
      simp only [hbackend, hget, hbuf, List.nil_append, hun]
    refine ⟨h1, ?_, ?_⟩
    · unfold cred.GetBox
      rcases hg : c.getAccessBox L address w with ⟨res, w1⟩
      rw [hg] at h1
      simp only at h1
      subst h1
      rfl
    · unfold cred.GetTokens
      rcases hg : c.getAccessBox L address w with ⟨res, w1⟩
      rw [hg] at h1
      simp only at h1
      subst h1
      rfl
  · intro payload b box hget hun
    have h1 : (c.getAccessBox L address w).1 = .ok box := by
      unfold cred.getAccessBox
      simp only [hbackend, hget, hbuf, List.nil_append, hun]
    refine ⟨h1, ?_, ?_⟩
    · unfold cred.GetBox
      rcases hg : c.getAccessBox L address w with ⟨res, w1⟩
      rw [hg] at h1
      simp only at h1
      subst h1
      rfl
    · unfold cred.GetTokens
      rcases hg : c.getAccessBox L address w with ⟨res, w1⟩
      rw [hg] at h1
      simp only at h1
      subst h1
      rfl

theorem bigIntBytesAux_length :
    ∀ (fuel n x : Nat) (acc : Bytes), x ≤ fuel → x < 256 ^ n →
      (bigIntBytesAux fuel x acc).length ≤ n + acc.length := by
  intro fuel
  induction fuel with
  | zero =>
    intro n x acc _ _
    simp [bigIntBytesAux]
  | succ fuel ih =>
    intro n x acc hx hn
    unfold bigIntBytesAux
    by_cases h0 : x = 0
    · rw [if_pos h0]; omega
    · rw [if_neg h0]
      cases n with
      | zero => simp at hn; omega
      | succ n =>
        have hdiv : x / 256 < 256 ^ n := by
          rw [Nat.div_lt_iff_lt_mul (by decide)]
          rw [pow_succ] at hn
          exact hn
        have := ih n (x / 256) (⟨x % 256, Nat.mod_lt _ (by decide)⟩ :: acc) (by omega) hdiv
        simp only [List.length_cons] at this
        omega

/-- The minimal encoding of a number below `256 ^ n` has at most `n` bytes. -/
theorem bigIntBytes_length (n x : Nat) (h : x < 256 ^ n) : (bigIntBytes x).length ≤ n := by
  have := bigIntBytesAux_length x n x [] (Nat.le_refl x) h
  simpa [bigIntBytes] using this

/-- C30 (the padding stays in range).  Given that the x-coordinates of P-256
are below 2^256: for a public key on P-256 the x-coordinate `generateShared256`
obtains is below 2^256, its minimal big-endian encoding has at most 32 bytes,
so the slice start `32 - len` is not negative: `generateShared256` never ends
in the slice-bounds panic, and when the curves agree it returns the encoding
padded to 32 bytes, whose big-endian value is the whole of `x`. -/
theorem generateShared256_in_range (L : Lib σ BT ST PP) (hbound : L.P256Coordinates)
    (prv : PrivateKey) (pub : PublicKey) (hcurve : pub.Curve = Curve.P256) :
    generateShared256 L prv pub ≠ .error Err.panicSliceBounds ∧
      ∀ x, L.ScalarMult pub.Curve pub.X pub.Y (bigIntBytes prv.D) = .returns (some x) →
        x < 2 ^ 256 ∧ (bigIntBytes x).length ≤ 32 ∧
        (prv.PublicKey.Curve = pub.Curve →
          generateShared256 L prv pub =
            .ok (List.replicate (32 - (bigIntBytes x).length) (0 : Byte) ++ bigIntBytes x) ∧
          beToNat (List.replicate (32 - (bigIntBytes x).length) (0 : Byte) ++
            bigIntBytes x) = x) := by
  have hlen : ∀ x,
      L.ScalarMult pub.Curve pub.X pub.Y (bigIntBytes prv.D) = .returns (some x) →
      x < 2 ^ 256 ∧ (bigIntBytes x).length ≤ 32 := by
    intro x hx
    rw [hcurve] at hx
    have hb := hbound _ _ _ _ hx
    refine ⟨hb, bigIntBytes_length 32 x ?_⟩
    have : (256 : Nat) ^ 32 = 2 ^ 256 := by norm_num
    rw [this]
    exact hb
  refine ⟨?_, ?_⟩
  · unfold generateShared256
    split
    · intro h; cases h
    · split
      · intro h; cases h
      · intro h; cases h
      · rename_i x hx
        simp only
        rw [if_pos (hlen x hx).2]
        intro h
        cases h
  · intro x hx
    refine ⟨(hlen x hx).1, (hlen x hx).2, ?_⟩
    intro hc
    refine ⟨?_, ?_⟩
    · unfold generateShared256
      rw [if_neg (fun hne => hne hc), hx]
      simp only
      rw [if_pos (hlen x hx).2]
    · rw [beToNat_zeros, beToNat_bigIntBytes]

end firstGate

section apiErrors

open errors

theorem lookup_mem {α β : Type} [BEq α] [LawfulBEq α] (k : α) (v : β) :
    ∀ l : List (α × β), l.lookup k = some v → (k, v) ∈ l
  | [], h => by simp at h
  | (a, b) :: rest, h => by
    rw [List.lookup_cons] at h
    by_cases hk : k == a
    · rw [hk] at h
      simp only [Option.some.injEq] at h
      have := eq_of_beq hk
      subst this
      subst h
      exact List.mem_cons_self _ _
    · simp only [hk] at h
      exact List.mem_cons_of_mem _ (lookup_mem k v rest h)

set_option maxRecDepth 1000000 in
theorem errorCodes_consistent :
    errorCodes.all (fun p => decide (p.2.ErrCode = p.1)) = true := by
  decide

set_option maxRecDepth 1000000 in
theorem errorCodes_internal :
    errorCodes.lookup ErrInternalError =
      some { ErrCode := ErrInternalError, Code := "InternalError",
             Description := "We encountered an internal error, please try again.",
             HTTPStatusCode := 500 } := by
  rfl

set_option maxRecDepth 1000000 in
/-- C23 (lookup of API errors).  If the table `errorCodes` has an entry for
the code `c`, `GetAPIError c` is that entry and its `ErrCode` is `c`; if it has
none, as for `c = 0`, `GetAPIError c` is the entry of `ErrInternalError`: code
`InternalError`, HTTP status 500, and the description of the table. -/
theorem GetAPIError_lookup (c : ErrorCode) :
    (∀ e, errorCodes.lookup c = some e → GetAPIError c = e ∧ e.ErrCode = c) ∧
    (errorCodes.lookup c = none →
      GetAPIError c =
        { ErrCode := ErrInternalError, Code := "InternalError",
          Description := "We encountered an internal error, please try again.",
          HTTPStatusCode := 500 }) ∧
    errorCodes.lookup 0 = none := by
  refine ⟨?_, ?_, ?_⟩
  · intro e h
    refine ⟨?_, ?_⟩
    · unfold GetAPIError
      rw [h]
    · have hm := lookup_mem c e errorCodes h
      have hall := List.all_eq_true.1 errorCodes_consistent (c, e) hm
      simpa using hall
  · intro h
    unfold GetAPIError
    rw [h]
    simp only [toAPIErr, toAPIErrWithErr, errorCodes_internal]
  · rfl

end apiErrors

section nameSplit

open layer

theorem PathSeparator_eq : PathSeparator = [47] := by
  decide

/-- The last index of a one-byte string: -1 without an occurrence, and
otherwise the place of the occurrence that no other follows. -/
theorem stringsLastIndex_byte (c : Byte) :
    ∀ s : GoString,
      (stringsLastIndex [c] s = -1 ∧ c ∉ s) ∨
        ∃ pre post, s = pre ++ c :: post ∧ c ∉ post ∧
          stringsLastIndex [c] s = (pre.length : Int) := by
  intro s
  induction s with
  | nil =>
    left
    simp [stringsLastIndex]
  | cons b rest ih =>
    unfold stringsLastIndex
    rcases ih with ⟨hr, hnot⟩ | ⟨pre, post, hs, hpost, hr⟩
    · simp only [hr]
      rw [if_neg (by decide)]
      by_cases hb : c = b
      · subst hb
        right
        refine ⟨[], rest, rfl, hnot, ?_⟩
        simp [List.isPrefixOf]
      · left
        refine ⟨?_, ?_⟩
        · have : ([c] : GoString).isPrefixOf (b :: rest) = false := by
            simp [List.isPrefixOf, hb]
          simp [this]
        · simp only [List.mem_cons, not_or]
          exact ⟨hb, hnot⟩
    · right
      refine ⟨b :: pre, post, by rw [hs]; rfl, hpost, ?_⟩
      simp only [hr]
      rw [if_pos (by omega)]
      simp

/-- C22 (`NameFromString` splits without loss).  With
`(base, dir) = NameFromString name`: `dir ++ base = name`, `base` holds no path
separator, and `dir` is empty or ends with the path separator; a name without
separator yields `(name, "")`, and a name that ends with the separator yields
an empty base. -/
theorem NameFromString_split (name : GoString) :
    (NameFromString name).2 ++ (NameFromString name).1 = name ∧
      (47 : Byte) ∉ (NameFromString name).1 ∧
      ((NameFromString name).2 = [] ∨ (NameFromString name).2.getLast? = some 47) ∧
      ((47 : Byte) ∉ name → NameFromString name = (name, [])) ∧
      (name.getLast? = some 47 → (NameFromString name).1 = []) ∧
      PathSeparator = [47] := by
  rcases stringsLastIndex_byte 47 name with ⟨hr, hnot⟩ | ⟨pre, post, hs, hpost, hr⟩
  · have hN : NameFromString name = (name, []) := by
      unfold NameFromString
      rw [PathSeparator_eq]
      simp only [hr]
      have h0 : ((-1 : Int) + 1).toNat = 0 := by decide
      rw [h0, List.drop_zero, List.take_zero]
    rw [hN]
    refine ⟨rfl, hnot, Or.inl rfl, fun _ => rfl, ?_, PathSeparator_eq⟩
    intro hlast
    exact absurd (List.mem_of_getLast?_eq_some hlast) hnot
  · have hs2 : name = (pre ++ [47]) ++ post := by rw [hs]; simp
    have hN : NameFromString name = (post, pre ++ [47]) := by
      unfold NameFromString
      rw [PathSeparator_eq]
      simp only [hr]
      have h1 : ((pre.length : Int) + 1).toNat = (pre ++ [47]).length := by
        rw [List.length_append, List.length_singleton]
        omega
      rw [h1, hs2, List.take_left, List.drop_left]
    rw [hN]
    refine ⟨hs2.symm, hpost, Or.inr (by simp), ?_, ?_, PathSeparator_eq⟩
    · intro hnot
      exact absurd (by rw [hs]; simp) hnot
    · intro hlast
      show post = []
      cases post using List.reverseRecOn with
      | nil => rfl
      | append_singleton l a =>
        rw [hs2, ← List.append_assoc, List.getLast?_append] at hlast
        have ha : a = 47 := by simpa [Option.or] using hlast
        subst ha
        exact absurd (by simp) hpost

end nameSplit

section policyClaims

open handler

theorem matchFold :
    ∀ (l : List GoString) (q : policyCondition),
      l.foldl
        (fun q contentType =>
          if !stringsHasPrefix contentType q.Value then { q with Matched := false } else q) q =
        { q with Matched := q.Matched && l.all fun contentType =>
            stringsHasPrefix contentType q.Value } := by
  intro l
  induction l with
  | nil => intro q; simp
  | cons a rest ih =>
    intro q
    rw [List.foldl_cons, List.all_cons]
    cases ha : stringsHasPrefix a q.Value with
    | true =>
      rw [ih]
      simp
    | false =>
      rw [ih]
      simp

set_option maxRecDepth 100000 in
/-- C27 (matching of a policy condition).  `match` returns the value it leaves
in `Matched` and changes no other field.  That value is: whether the value
equals `Value`, when `Matching` is `eq`; whether `Value` is a prefix of the
value, when `Matching` is `starts-with` and `Key` is not the content-type key;
whether `Value` is a prefix of every comma-separated element of the value, when
`Matching` is `starts-with` and `Key` is the content-type key.  For any other
`Matching` the condition is left as it is and its `Matched` is returned. -/
theorem match_result (c : policyCondition) (v : GoString) :
    (c.match_ v).1 = (c.match_ v).2.Matched ∧
      (c.match_ v).2.Matching = c.Matching ∧ (c.match_ v).2.Key = c.Key ∧
      (c.match_ v).2.Value = c.Value ∧
      (c.Matching = goString "eq" → ((c.match_ v).1 = true ↔ v = c.Value)) ∧
      (c.Matching = goString "starts-with" → c.Key ≠ ContentType →
        ((c.match_ v).1 = true ↔ c.Value <+: v)) ∧
      (c.Matching = goString "starts-with" → c.Key = ContentType →
        ((c.match_ v).1 = true ↔ ∀ element ∈ stringsSplit 44 v, c.Value <+: element)) ∧
      (c.Matching ≠ goString "eq" → c.Matching ≠ goString "starts-with" →
        (c.match_ v).2 = c ∧ (c.match_ v).1 = c.Matched) := by
  have hne : goString "starts-with" ≠ goString "eq" := by decide
  by_cases heq : c.Matching = goString "eq"
  · have h : c.match_ v = (decide (c.Value = v), { c with Matched := decide (c.Value = v) }) := by
      simp only [policyCondition.match_, heq, if_true]
    rw [h]
    refine ⟨rfl, rfl, rfl, rfl, ?_, ?_, ?_, ?_⟩
    · intro _
      simp only [decide_eq_true_eq]
      exact eq_comm
    · intro hs; rw [heq] at hs; exact absurd hs.symm hne
    · intro hs; rw [heq] at hs; exact absurd hs.symm hne
    · intro h1; exact absurd heq h1
  · by_cases hsw : c.Matching = goString "starts-with"
    · by_cases hk : c.Key = ContentType
      · have h : c.match_ v =
            ((stringsSplit 44 v).all (fun contentType => stringsHasPrefix contentType c.Value),
              { c with Matched := (stringsSplit 44 v).all fun contentType =>
                  stringsHasPrefix contentType c.Value }) := by
          simp only [policyCondition.match_, hsw, hne, if_false, if_true, hk]
          rw [matchFold]
          simp only [Bool.true_and]
        rw [h]
        refine ⟨rfl, rfl, rfl, rfl, fun h1 => absurd h1 heq, fun _ h2 => absurd hk h2, ?_,
          fun _ h2 => absurd hsw h2⟩
        intro _ _
        simp only [List.all_eq_true, stringsHasPrefix, List.isPrefixOf_iff_prefix]
      · have h : c.match_ v =
            (stringsHasPrefix v c.Value, { c with Matched := stringsHasPrefix v c.Value }) := by
          simp only [policyCondition.match_, hsw, hne, if_false, if_true, hk]
        rw [h]
        refine ⟨rfl, rfl, rfl, rfl, fun h1 => absurd h1 heq, ?_, fun _ h2 => absurd h2 hk,
          fun _ h2 => absurd hsw h2⟩
        intro _ _
        simp only [stringsHasPrefix, List.isPrefixOf_iff_prefix]
    · have h : c.match_ v = (c.Matched, c) := by
        simp only [policyCondition.match_, heq, hsw, if_false]
      rw [h]
      exact ⟨rfl, rfl, rfl, rfl, fun h1 => absurd h1 heq, fun h1 => absurd h1 hsw,
        fun h1 => absurd h1 hsw, fun _ _ => ⟨rfl, rfl⟩⟩

set_option maxRecDepth 100000 in
/-- C26 at a failing input: with the range 1 to 10, the size 5 is refused,
although 1 <= 5 <= 10; with the range 1 to 5, the size 100 is accepted: the
bounds and the size are compared as strings. -/
theorem CheckContentLength_compares_strings :
    postPolicy.CheckContentLength
        { Expiration := 0,
          Conditions :=
            [{ Matching := goString "content-length-range", Key := goString "1",
               Value := goString "10", Matched := false }],
          empty := false } 5 = false ∧
      postPolicy.CheckContentLength
        { Expiration := 0,
          Conditions :=
            [{ Matching := goString "content-length-range", Key := goString "1",
               Value := goString "5", Matched := false }],
          empty := false } 100 = true ∧
      goString (formatInt 5) = goString "5" ∧
      stringLE (goString "5") (goString "10") = false := by
  decide

end policyClaims

section bucketNames

open handler

theorem decodeRune_ascii (b : Byte) (rest : GoString) (h : b.val < 128) :
    decodeRune (b :: rest) = (b.val, 1) := by
  simp [decodeRune, h]

theorem runeShape_cases (s0 sz lo hi : Nat) (h : runeShape s0 = some (sz, lo, hi)) :
    (sz = 2 ∧ 194 ≤ s0 ∧ s0 ≤ 223) ∨ (sz = 3 ∧ s0 = 224 ∧ lo = 160 ∧ hi = 191) ∨
      (sz = 3 ∧ 225 ≤ s0 ∧ s0 ≤ 239) ∨ (sz = 4 ∧ s0 = 240 ∧ lo = 144 ∧ hi = 191) ∨
      (sz = 4 ∧ 241 ≤ s0 ∧ s0 ≤ 244) := by
  unfold runeShape at h
  split_ifs at h <;>
    simp only [Option.some.injEq, Prod.mk.injEq, reduceCtorEq] at h <;> omega

theorem decodeRune_high (b : Byte) (rest : GoString) (h : 128 ≤ b.val) :
    128 ≤ (decodeRune (b :: rest)).1 := by
  have hge : ¬ b.val < 128 := by omega
  simp only [decodeRune, hge, if_false]
  cases hs : runeShape b.val with
  | none => simp [RuneError]
  | some t =>
    obtain ⟨sz, lo, hi⟩ := t
    have hc := runeShape_cases _ _ _ _ hs
    simp only [RuneError]
    generalize (rest.getD 0 0).val = s1
    generalize (rest.getD 1 0).val = s2
    generalize (rest.getD 2 0).val = s3
    generalize b.val = s0 at hc h
    rcases hc with ⟨rfl, h1, h2⟩ | ⟨rfl, rfl, rfl, rfl⟩ | ⟨rfl, h1, h2⟩ | ⟨rfl, rfl, rfl, rfl⟩ |
      ⟨rfl, h1, h2⟩
    · split_ifs <;> simp only <;> omega
    · split_ifs <;> simp only <;> omega
    · split_ifs <;> simp only <;> omega
    · split_ifs <;> simp only <;> omega
    · split_ifs <;> simp only <;> omega

theorem isAlphaNum_lt (r : Nat) (h : isAlphaNum r = true) : r < 128 := by
  simp only [isAlphaNum, Bool.or_eq_true, Bool.and_eq_true, decide_eq_true_eq] at h
  have hz : 'z'.toNat = 122 := by decide
  have h9 : '9'.toNat = 57 := by decide
  omega

theorem byte_eq_45 (b : Byte) : b.val = 45 ↔ b = 45 := by
  constructor
  · intro h; exact Fin.ext h
  · intro h; rw [h]; rfl

/-- What the rune loop of `checkBucketName` checks of a label, from the byte
index `i` on. -/
theorem checkLabelRunes_iff :
    ∀ (fuel i : Nat) (s : GoString), s.length ≤ fuel →
      (checkLabelRunes (i + s.length) fuel i s = true ↔
        (∀ b ∈ s, isAlphaNum b.val = true ∨ b = 45) ∧
          (i = 0 → s.head? ≠ some 45) ∧ s.getLast? ≠ some 45) := by
  intro fuel
  induction fuel with
  | zero =>
    intro i s hs
    have : s = [] := List.length_eq_zero.1 (by omega)
    subst this
    simp [checkLabelRunes]
  | succ fuel ih =>
    intro i s hs
    cases s with
    | nil => simp [checkLabelRunes]
    | cons b rest =>
      have hdash : '-'.toNat = 45 := by decide
      simp only [checkLabelRunes, hdash]
      by_cases hb : 128 ≤ b.val
      · have hr := decodeRune_high b rest hb
        have h1 : isAlphaNum (decodeRune (b :: rest)).1 = false := by
          cases h : isAlphaNum (decodeRune (b :: rest)).1 with
          | false => rfl
          | true => have := isAlphaNum_lt _ h; omega
        have h2 : ((decodeRune (b :: rest)).1 != 45) = true := by
          simp only [bne_iff_ne, ne_eq]
          omega
        simp only [h1, h2, Bool.not_false, Bool.and_self, if_true, Bool.false_eq_true,
          false_iff, not_and]
        intro hall
        have := hall b (List.mem_cons_self _ _)
        rcases this with h | h
        · have := isAlphaNum_lt _ h; omega
        · rw [h] at hb
          exact absurd hb (by decide)
      · have hlt : b.val < 128 := by omega
        rw [decodeRune_ascii b rest hlt]
        simp only [List.drop_one, List.tail_cons, List.length_cons]
        by_cases hok : isAlphaNum b.val = true ∨ b = 45
        · have hc1 : (!isAlphaNum b.val && b.val != 45) = false := by
            rcases hok with h | h
            · simp [h]
            · rw [h]
              decide
          simp only [hc1, Bool.false_eq_true, if_false]
          by_cases hedge : (i = 0 ∨ rest.length = 0) ∧ b = 45
          · have hc2 : ((i == 0 || i == i + (rest.length + 1) - 1) && b.val == 45) = true := by
              obtain ⟨h1, h2⟩ := hedge
              rw [h2]
              simp only [Bool.and_eq_true, Bool.or_eq_true, beq_iff_eq]
              refine ⟨?_, by decide⟩
              rcases h1 with h | h
              · exact Or.inl h
              · exact Or.inr (by omega)
            simp only [hc2, if_true, Bool.false_eq_true, false_iff, not_and]
            intro _ hhead
            obtain ⟨h1, h2⟩ := hedge
            subst h2
            rcases h1 with h | h
            · exact absurd rfl (hhead h)
            · have : rest = [] := List.length_eq_zero.1 h
              subst this
              simp
          · have hc2 : ((i == 0 || i == i + (rest.length + 1) - 1) && b.val == 45) = false := by
              cases hcc : ((i == 0 || i == i + (rest.length + 1) - 1) && b.val == 45) with
              | false => rfl
              | true =>
                simp only [Bool.and_eq_true, Bool.or_eq_true, beq_iff_eq] at hcc
                exfalso
                apply hedge
                refine ⟨?_, (byte_eq_45 b).1 hcc.2⟩
                rcases hcc.1 with h | h
                · exact Or.inl h
                · exact Or.inr (by omega)
            simp only [hc2, Bool.false_eq_true, if_false]
            have hlen : i + (rest.length + 1) = (i + 1) + rest.length := by omega
            rw [hlen, ih (i + 1) rest (by simpa using hs)]
            simp only [List.mem_cons, forall_eq_or_imp, List.head?_cons, ne_eq,
              Option.some.injEq, Nat.add_one_ne_zero, false_implies, true_and]
            constructor
            · rintro ⟨hall, hlast⟩
              refine ⟨⟨hok, hall⟩, ?_, ?_⟩
              · intro hi hb45
                exact hedge ⟨Or.inl hi, hb45⟩
              · cases rest with
                | nil =>
                  simp only [List.getLast?_singleton, Option.some.injEq]
                  intro hb45
                  exact hedge ⟨Or.inr rfl, hb45⟩
                | cons c rest2 =>
                  rw [List.getLast?_cons_cons]
                  exact hlast
            · rintro ⟨⟨_, hall⟩, _, hlast⟩
              refine ⟨hall, ?_⟩
              cases rest with
              | nil => simp
              | cons c rest2 =>
                rw [List.getLast?_cons_cons] at hlast
                exact hlast
        · have hc1 : (!isAlphaNum b.val && b.val != 45) = true := by
            simp only [not_or] at hok
            have h1 : isAlphaNum b.val = false := by simpa using hok.1
            have h2 : b.val ≠ 45 := fun h => hok.2 ((byte_eq_45 b).1 h)
            simp [h1, h2]
          simp only [hc1, if_true, Bool.false_eq_true, false_iff, not_and]
          intro hall
          exact absurd (hall b (List.mem_cons_self _ _)) hok

/-- What the label loop of `checkBucketName` checks. -/
theorem checkLabels_iff :
    ∀ labels : List GoString,
      checkLabels labels = true ↔
        ∀ label ∈ labels, label ≠ [] ∧
          (∀ b ∈ label, isAlphaNum b.val = true ∨ b = 45) ∧
          label.head? ≠ some 45 ∧ label.getLast? ≠ some 45 := by
  intro labels
  induction labels with
  | nil => simp [checkLabels]
  | cons label rest ih =>
    unfold checkLabels
    have hrunes := checkLabelRunes_iff label.length 0 label (Nat.le_refl _)
    simp only [Nat.zero_add, true_implies] at hrunes
    by_cases hl : label.length = 0
    · have : label = [] := List.length_eq_zero.1 hl
      subst this
      simp
    · have hne : label ≠ [] := fun h => hl (by rw [h]; rfl)
      rw [if_neg hl]
      by_cases hr : checkLabelRunes label.length label.length 0 label = true
      · simp only [hr, Bool.not_true, Bool.false_eq_true, if_false, ih, List.mem_cons,
          forall_eq_or_imp]
        constructor
        · intro h
          exact ⟨⟨hne, hrunes.1 hr⟩, h⟩
        · intro h
          exact h.2
      · have hr2 : checkLabelRunes label.length label.length 0 label = false := by
          simpa using hr
        simp only [hr2, Bool.not_false, if_true, Bool.false_eq_true, false_iff, List.mem_cons,
          forall_eq_or_imp, not_and]
        intro h
        exact absurd (hrunes.2 h.2) hr

/-- C25 (`checkBucketName` accepts exactly the well-formed names).
`checkBucketName` returns nil if and only if the name has 3 to 63 bytes, does
not start with `xn--`, does not end with `-s3alias`, is not a textual IP
address, and every label between dots is non-empty, consists of bytes `a-z`,
`0-9` and `-` only, and neither begins nor ends with `-`.  In every other
case it returns the API error of `ErrInvalidBucketName`. -/
theorem checkBucketName_iff (parseIP : GoString → Bool) (s : GoString) :
    (checkBucketName parseIP s = none ↔
      3 ≤ s.length ∧ s.length ≤ 63 ∧
        ¬ goString "xn--" <+: s ∧ ¬ goString "-s3alias" <:+ s ∧
        parseIP s = false ∧
        ∀ label ∈ stringsSplit 46 s, label ≠ [] ∧
          (∀ b ∈ label, isAlphaNum b.val = true ∨ b = 45) ∧
          label.head? ≠ some 45 ∧ label.getLast? ≠ some 45) ∧
    (checkBucketName parseIP s ≠ none →
      checkBucketName parseIP s = some (errors.GetAPIError errors.ErrInvalidBucketName)) := by
  have hlabels := checkLabels_iff (stringsSplit 46 s)
  unfold checkBucketName
  simp only [stringsHasPrefix, stringsHasSuffix]
  refine ⟨?_, ?_⟩
  · split_ifs with h1 h2 h3 h4
    · simp only [reduceCtorEq, false_iff]
      intro h; omega
    · simp only [reduceCtorEq, false_iff]
      intro h
      rcases h2 with h2 | h2
      · exact h.2.2.1 (List.isPrefixOf_iff_prefix.1 h2)
      · exact h.2.2.2.1 (List.isSuffixOf_iff_suffix.1 h2)
    · simp only [reduceCtorEq, false_iff]
      intro h
      rw [h.2.2.2.2.1] at h3
      exact absurd h3 (by decide)
    · simp only [reduceCtorEq, false_iff]
      intro h
      have := hlabels.2 h.2.2.2.2.2
      rw [this] at h4
      exact absurd h4 (by decide)
    · simp only [true_iff]
      simp only [not_or] at h1 h2
      refine ⟨by omega, by omega, ?_, ?_, ?_, ?_⟩
      · exact fun h => h2.1 (List.isPrefixOf_iff_prefix.2 h)
      · exact fun h => h2.2 (List.isSuffixOf_iff_suffix.2 h)
      · simpa using h3
      · apply hlabels.1
        simpa using h4
  · split_ifs <;> simp

end bucketNames

section objectInfo

open layer

theorem mapGet_mapSet (k v k1 : String) :
    ∀ m : StringMap, mapGet (mapSet m k v) k1 = if k = k1 then some v else mapGet m k1
  | [] => by simp [mapSet, mapGet]
  | (a, b) :: rest => by
    have ih := mapGet_mapSet k v k1 rest
    unfold mapSet
    by_cases h : a = k
    · subst h
      simp only [if_true, mapGet]
      by_cases h1 : a = k1 <;> simp [h1]
    · simp only [h, if_false, mapGet, ih]
      by_cases h1 : a = k1
      · subst h1
        simp [Ne.symm h]
      · simp [h1]

theorem mapGet_mapDelete (k k1 : String) :
    ∀ m : StringMap, mapGet (mapDelete m k) k1 = if k = k1 then none else mapGet m k1
  | [] => by simp [mapDelete, mapGet]
  | (a, b) :: rest => by
    have ih := mapGet_mapDelete k k1 rest
    unfold mapDelete
    by_cases h : a = k
    · subst h
      simp only [if_true, ih, mapGet]
      by_cases h1 : a = k1 <;> simp [h1]
    · simp only [h, if_false, mapGet, ih]
      by_cases h1 : a = k1
      · subst h1
        simp [Ne.symm h]
      · simp [h1]

theorem mapGet_fold (k : String) :
    ∀ (attrs : List Attribute) (m : StringMap),
      mapGet (attrs.foldl (fun result attr => mapSet result attr.Key attr.Value) m) k =
        match lastAttribute attrs k with
        | some v => some v
        | none => mapGet m k := by
  intro attrs
  induction attrs with
  | nil => intro m; rfl
  | cons a rest ih =>
    intro m
    rw [List.foldl_cons, ih]
    have hdef : lastAttribute (a :: rest) k =
        match lastAttribute rest k with
        | some v => some v
        | none => if a.Key = k then some a.Value else none := rfl
    rw [hdef]
    cases lastAttribute rest k with
    | some v => rfl
    | none =>
      simp only [mapGet_mapSet]
      by_cases h : a.Key = k <;> simp [h]

/-- The map `userHeaders` holds for every key the value of the last attribute
with that key. -/
theorem mapGet_userHeaders (attrs : List Attribute) (k : String) :
    mapGet (userHeaders attrs) k = lastAttribute attrs k := by
  unfold userHeaders
  rw [mapGet_fold]
  cases lastAttribute attrs k <;> rfl

theorem lastAttribute_none (k : String) :
    ∀ attrs : List Attribute, k ∉ attrs.map (fun a => a.Key) → lastAttribute attrs k = none
  | [], _ => rfl
  | a :: rest, h => by
    simp only [List.map_cons, List.mem_cons, not_or] at h
    have hdef : lastAttribute (a :: rest) k =
        match lastAttribute rest k with
        | some v => some v
        | none => if a.Key = k then some a.Value else none := rfl
    rw [hdef, lastAttribute_none k rest h.2]
    simp [Ne.symm h.1]

/-- With pairwise distinct keys, the last attribute with the key of an
attribute is that attribute. -/
theorem lastAttribute_distinct :
    ∀ attrs : List Attribute, (attrs.map fun a => a.Key).Nodup →
      ∀ a ∈ attrs, lastAttribute attrs a.Key = some a.Value
  | [], _, a, h => by cases h
  | b :: rest, hnd, a, h => by
    simp only [List.map_cons, List.nodup_cons] at hnd
    have hdef : lastAttribute (b :: rest) a.Key =
        match lastAttribute rest a.Key with
        | some v => some v
        | none => if b.Key = a.Key then some b.Value else none := rfl
    rw [hdef]
    rcases List.mem_cons.1 h with rfl | hmem
    · rw [lastAttribute_none _ rest hnd.1]
      simp
    · rw [lastAttribute_distinct rest hnd.2 a hmem]

theorem filenameLoop_eq (name : String) :
    ∀ attrs : List Attribute,
      filenameLoop name attrs =
        match attrs.find? (fun a => decide (a.Key = AttributeFileName)) with
        | some a => a.Value
        | none => name
  | [] => rfl
  | a :: rest => by
    unfold filenameLoop
    rw [List.find?_cons]
    by_cases h : a.Key = AttributeFileName
    · simp [h]
    · simp only [h, if_false, decide_False]
      exact filenameLoop_eq name rest

set_option maxRecDepth 100000 in
/-- C29, as the code has it (filtering and headers of the object info).
`objectInfoFromMeta` returns nil if and only if the file name of the object
does not start with the prefix, where the file name is the value of the first
`FileName` attribute, or the id string without one.  The attributes are
collected in a map, so of the attributes that share a key the last one counts.
In a result that is no directory, `ContentType` is the value of the last
`Content-Type` attribute (empty without one), `Created` is the value of the
last `Timestamp` attribute when that parses as a base-10 `int64`, and `Headers`
holds for each key the value of the last attribute with that key, except for
the keys `FileName`, `Content-Type`, and `Timestamp` when its value parses; a
`Timestamp` that does not parse stays in `Headers`.  With pairwise distinct
keys every attribute is the last of its key. -/
theorem objectInfoFromMeta_headers (bkt : BucketInfo) (meta : Object) (pfx delimiter : GoString) :
    (objectInfoFromMeta bkt meta pfx delimiter = none ↔ ¬ pfx <+: filenameFromObject meta) ∧
    (filenameFromObject meta =
      goString
        (match meta.Attributes.find? (fun a => decide (a.Key = "FileName")) with
        | some a => a.Value
        | none => meta.IDString)) ∧
    (∀ info, objectInfoFromMeta bkt meta pfx delimiter = some info → info.IsDir = false →
      info.ContentType = (lastAttribute meta.Attributes "Content-Type").getD "" ∧
      info.Created = (lastAttribute meta.Attributes "Timestamp").bind parseInt64 ∧
      ∃ headers, info.Headers = some headers ∧
        ∀ k, mapGet headers k =
          if k = "FileName" ∨ k = "Content-Type" ∨
              (k = "Timestamp" ∧
                (lastAttribute meta.Attributes "Timestamp").bind parseInt64 ≠ none) then none
          else lastAttribute meta.Attributes k) ∧
    ((meta.Attributes.map fun a => a.Key).Nodup →
      ∀ a ∈ meta.Attributes, lastAttribute meta.Attributes a.Key = some a.Value) := by
  have hct : mapGet (mapDelete (userHeaders meta.Attributes) AttributeFileName)
      AttributeContentType = lastAttribute meta.Attributes "Content-Type" := by
    rw [mapGet_mapDelete, mapGet_userHeaders]
    rw [if_neg (by decide)]
    rfl
  have hfile : ∀ info : ObjectInfo,
      info =
        { ID := meta.ID, CID := bkt.CID, IsDir := false, Bucket := bkt.Name,
          Name := filenameFromObject meta,
          Created :=
            (mapGet
              (match mapGet (mapDelete (userHeaders meta.Attributes) AttributeFileName)
                  AttributeContentType with
              | some _ =>
                mapDelete (mapDelete (userHeaders meta.Attributes) AttributeFileName)
                  AttributeContentType
              | none => mapDelete (userHeaders meta.Attributes) AttributeFileName)
              AttributeTimestamp).bind parseInt64,
          CreationEpoch := meta.CreationEpoch,
          ContentType :=
            (mapGet (mapDelete (userHeaders meta.Attributes) AttributeFileName)
              AttributeContentType).getD "",
          Headers :=
            some
              (match (mapGet
                  (match mapGet (mapDelete (userHeaders meta.Attributes) AttributeFileName)
                      AttributeContentType with
                  | some _ =>
                    mapDelete (mapDelete (userHeaders meta.Attributes) AttributeFileName)
                      AttributeContentType
                  | none => mapDelete (userHeaders meta.Attributes) AttributeFileName)
                  AttributeTimestamp).bind parseInt64 with
              | some _ =>
                mapDelete
                  (match mapGet (mapDelete (userHeaders meta.Attributes) AttributeFileName)
                      AttributeContentType with
                  | some _ =>
                    mapDelete (mapDelete (userHeaders meta.Attributes) AttributeFileName)
                      AttributeContentType
                  | none => mapDelete (userHeaders meta.Attributes) AttributeFileName)
                  AttributeTimestamp
              | none =>
                match mapGet (mapDelete (userHeaders meta.Attributes) AttributeFileName)
                    AttributeContentType with
                | some _ =>
                  mapDelete (mapDelete (userHeaders meta.Attributes) AttributeFileName)
                    AttributeContentType
                | none => mapDelete (userHeaders meta.Attributes) AttributeFileName),
          Owner := meta.OwnerID, Size := toInt64 meta.PayloadSize,
          HashSum := meta.PayloadChecksumString } →
      info.ContentType = (lastAttribute meta.Attributes "Content-Type").getD "" ∧
      info.Created = (lastAttribute meta.Attributes "Timestamp").bind parseInt64 ∧
      ∃ headers, info.Headers = some headers ∧
        ∀ k, mapGet headers k =
          if k = "FileName" ∨ k = "Content-Type" ∨
              (k = "Timestamp" ∧
                (lastAttribute meta.Attributes "Timestamp").bind parseInt64 ≠ none) then none
          else lastAttribute meta.Attributes k := by
    intro info hinfo
    have hts : mapGet
        (match mapGet (mapDelete (userHeaders meta.Attributes) AttributeFileName)
            AttributeContentType with
        | some _ =>
          mapDelete (mapDelete (userHeaders meta.Attributes) AttributeFileName)
            AttributeContentType
        | none => mapDelete (userHeaders meta.Attributes) AttributeFileName)
        AttributeTimestamp = lastAttribute meta.Attributes "Timestamp" := by
      cases hc : mapGet (mapDelete (userHeaders meta.Attributes) AttributeFileName)
          AttributeContentType with
      | some v =>
        simp only [mapGet_mapDelete, mapGet_userHeaders]
        rw [if_neg (by decide), if_neg (by decide)]
        rfl
      | none =>
        simp only [mapGet_mapDelete, mapGet_userHeaders]
        rw [if_neg (by decide)]
        rfl
    rw [hts, hct] at hinfo
    subst hinfo
    refine ⟨rfl, rfl, _, rfl, ?_⟩
    intro k
    have hF : AttributeFileName = "FileName" := rfl
    have hC : AttributeContentType = "Content-Type" := rfl
    have hT : AttributeTimestamp = "Timestamp" := rfl
    cases hcv : lastAttribute meta.Attributes "Content-Type" with
    | none =>
      have hkc : k ≠ "Content-Type" → True := fun _ => trivial
      cases htv : (lastAttribute meta.Attributes "Timestamp").bind parseInt64 with
      | none =>
        simp only [mapGet_mapDelete, mapGet_userHeaders, hF, ne_eq, not_true_eq_false,
          and_false, or_false]
        by_cases h1 : k = "FileName"
        · simp [h1]
        · by_cases h2 : k = "Content-Type"
          · subst h2
            simp [hcv]
          · simp [h1, h2, Ne.symm h1]
      | some dt =>
        simp only [mapGet_mapDelete, mapGet_userHeaders, hF, hT, ne_eq, reduceCtorEq,
          not_false_eq_true, and_true]
        by_cases h1 : k = "FileName"
        · simp [h1]
        · by_cases h2 : k = "Content-Type"
          · subst h2
            simp [hcv]
          · by_cases h3 : k = "Timestamp"
            · simp [h3]
            · simp [h1, h2, h3, Ne.symm h1, Ne.symm h3]
    | some v =>
      cases htv : (lastAttribute meta.Attributes "Timestamp").bind parseInt64 with
      | none =>
        simp only [mapGet_mapDelete, mapGet_userHeaders, hF, hC, ne_eq, not_true_eq_false,
          and_false, or_false]
        by_cases h1 : k = "FileName"
        · simp [h1]
        · by_cases h2 : k = "Content-Type"
          · simp [h2]
          · simp [h1, h2, Ne.symm h1, Ne.symm h2]
      | some dt =>
        simp only [mapGet_mapDelete, mapGet_userHeaders, hF, hC, hT, ne_eq, reduceCtorEq,
          not_false_eq_true, and_true]
        by_cases h1 : k = "FileName"
        · simp [h1]
        · by_cases h2 : k = "Content-Type"
          · simp [h2]
          · by_cases h3 : k = "Timestamp"
            · simp [h3]
            · simp [h1, h2, h3, Ne.symm h1, Ne.symm h2, Ne.symm h3]
  refine ⟨?_, ?_, ?_, lastAttribute_distinct meta.Attributes⟩
  · unfold objectInfoFromMeta
    simp only [stringsHasPrefix]
    by_cases hp : pfx.isPrefixOf (filenameFromObject meta) = true
    · have hp2 : pfx <+: filenameFromObject meta := List.isPrefixOf_iff_prefix.1 hp
      simp only [hp, Bool.not_true, Bool.false_eq_true, if_false, hp2, not_true_eq_false,
        iff_false]
      split_ifs <;> simp
    · have hp2 : ¬ pfx <+: filenameFromObject meta :=
        fun h => hp (List.isPrefixOf_iff_prefix.2 h)
      have hp3 : pfx.isPrefixOf (filenameFromObject meta) = false :=
        Bool.eq_false_iff.2 hp
      simp [hp3, hp2]
  · unfold filenameFromObject
    rw [filenameLoop_eq]
    rfl
  · intro info hres hdir
    unfold objectInfoFromMeta at hres
    simp only at hres
    split_ifs at hres with h1 h2 h3
    · simp only [Option.some.injEq] at hres
      rw [← hres] at hdir
      cases hdir
    · simp only [Option.some.injEq] at hres
      exact hfile info hres.symm
    · simp only [Option.some.injEq] at hres
      exact hfile info hres.symm

set_option maxRecDepth 1000000 in
/-- C28 at a failing input: the file name `a--b`, the empty prefix and the
delimiter `--`, which occurs in the name.  The directory entry gets the name
`a-`: the tail up to the first byte of the delimiter, not up to its end, so
the name does not end with the delimiter. -/
theorem objectInfoFromMeta_cuts_delimiter :
    filenameFromObject toyObject = goString "a--b" ∧
      stringsIndex (goString "--") (goString "a--b") = 1 ∧
      objectInfoFromMeta toyBucket toyObject [] (goString "--") =
        some
          { ID := [2], CID := [1], IsDir := true, Bucket := "b", Name := goString "a-",
            Created := some 12, CreationEpoch := 1, ContentType := "", Headers := none,
            Owner := [3], Size := 0, HashSum := "cs" } ∧
      ¬ goString "--" <:+ goString "a-" ∧
      goString "a-" ≠ goString "a--" := by
  refine ⟨by rfl, by rfl, by rfl, by decide, by decide⟩

end objectInfo

/-! ## The last theorems on concrete inputs -/

section instances3

open handler layer

set_option maxRecDepth 1000000 in
/-- Witness of C21: the stored toy box is fetched from a world with an empty
buffer pool, and an address the backend does not know yields its error. -/
theorem getAccessBox_results_witness :
    (toyCred.getAccessBox toyLib toyAddress toyWorldBadPolicy).1 = .ok toyBoxBadPolicy ∧
      (toyCred.GetBox toyLib { ContainerID := [7], ObjectID := [9] } toyWorldBadPolicy).1 =
        .error (Err.lib "object not found") := by
  have hinv : ∀ b ∈ toyWorldBadPolicy.bufferPool, b.length = 0 := by
    intro b hb
    cases hb
  have h := getAccessBox_results toyLib toyCred toyAddress toyWorldBadPolicy hinv
  have h2 := getAccessBox_results toyLib toyCred { ContainerID := [7], ObjectID := [9] }
    toyWorldBadPolicy hinv
  have hget : toyCred.pool.GetObject toyWorldBadPolicy.backend toyAddress =
      (.ok ((toyLib.marshalAccessBox toyBoxBadPolicy).toOption.getD []),
        toyWorldBadPolicy.backend) := rfl
  exact ⟨(h.2.2 _ _ toyBoxBadPolicy hget rfl).1,
    (h2.1 (Err.lib "object not found") toyWorldBadPolicy.backend rfl).2.1⟩

set_option maxRecDepth 1000000 in
/-- Witness of C24: a damaged gate in front of the intact gate of the same
recipient decides; the intact gate behind it is not tried. -/
theorem GetTokens_first_gate_witness :
    toyBoxShadowed.Gates.map (fun gate => gate.GatePublicKey) = [[2, 35], [2, 35], [2, 55]] ∧
      toyBoxShadowed.GetTokens toyLib (toyKey 7) =
        .error (Err.failedToDecodeGate Err.aeadAuthFailed) ∧
      toyBox.GetTokens toyLib (toyKey 7) =
        .ok { AccessKey := toySecrets.AccessKey, BearerToken := [1, 2, 3],
              SessionToken := some [9], GateKey := toyPublicKey 7 } := by
  have h := (GetTokens_first_gate toyLib toyBoxShadowed (toyKey 7) (toyPublicKey 1) []
    toyBox.Gates
    { GatePublicKey := [2, 35],
      Tokens := flipBit (List.replicate 24 2 ++ (32 :: List.replicate 32 1 ++ [3, 1, 2, 3, 9]) ++
        (165 :: List.replicate 15 0)) 30 2 }
    rfl rfl (fun _ hg => nomatch hg) rfl).1
  exact ⟨rfl, h.trans rfl, rfl⟩

theorem toyCoordinates : toyLib.P256Coordinates := by
  intro x y k r h
  simp only [toyLib, toyScalarMult] at h
  split at h
  · simp only [ScalarResult.returns.injEq, Option.some.injEq] at h
    rw [← h]
    exact Nat.lt_trans (Nat.mod_lt _ (by decide)) (by norm_num)
  · cases h

set_option maxRecDepth 1000000 in
/-- Witness of C30: the toy key agreement pads the x-coordinate 35. -/
theorem generateShared256_in_range_witness :
    generateShared256 toyLib (toyKey 1) (toyPublicKey 7) ≠ .error Err.panicSliceBounds ∧
      generateShared256 toyLib (toyKey 1) (toyPublicKey 7) =
        .ok (List.replicate 31 0 ++ [35]) :=
  ⟨(generateShared256_in_range toyLib toyCoordinates (toyKey 1) (toyPublicKey 7) rfl).1, rfl⟩

set_option maxRecDepth 1000000 in
/-- Instances of C22. -/
theorem NameFromString_split_witness :
    NameFromString (goString "a/b/c.txt") = (goString "c.txt", goString "a/b/") ∧
      NameFromString (goString "abc") = (goString "abc", []) ∧
      NameFromString (goString "abc/") = ([], goString "abc/") ∧
      (NameFromString (goString "a/b/c.txt")).2 ++ (NameFromString (goString "a/b/c.txt")).1 =
        goString "a/b/c.txt" :=
  ⟨by decide, by decide, by decide, (NameFromString_split (goString "a/b/c.txt")).1⟩

set_option maxRecDepth 1000000 in
/-- Instances of C23: a code of the table, the code 0 and a code beyond the
table. -/
theorem GetAPIError_lookup_witness :
    (errors.GetAPIError errors.ErrInvalidBucketName).Code = "InvalidBucketName" ∧
      (errors.GetAPIError errors.ErrInvalidBucketName).ErrCode = errors.ErrInvalidBucketName ∧
      (errors.GetAPIError 0).Code = "InternalError" ∧
      (errors.GetAPIError 262).HTTPStatusCode = 500 := by
  have h := (GetAPIError_lookup errors.ErrInvalidBucketName).1 _ rfl
  exact ⟨by rw [h.1], h.2, by rw [(GetAPIError_lookup 0).2.1 rfl],
    by rw [(GetAPIError_lookup 262).2.1 rfl]⟩

set_option maxRecDepth 1000000 in
/-- Instances of C25: an accepted name, and names refused for a label that
begins with `-`, for an upper-case letter and for a character outside ASCII. -/
theorem checkBucketName_iff_witness :
    checkBucketName (fun _ => false) (goString "my-bucket.example") = none ∧
      checkBucketName (fun _ => false) (goString "my-bucket.-example") =
        some (errors.GetAPIError errors.ErrInvalidBucketName) ∧
      checkBucketName (fun _ => false) (goString "My-bucket") ≠ none ∧
      checkBucketName (fun _ => false) (goString "abé") ≠ none := by
  have h1 : checkBucketName (fun _ => false) (goString "my-bucket.example") = none := by
    decide
  have h2 : checkBucketName (fun _ => false) (goString "my-bucket.-example") ≠ none := by
    decide
  exact ⟨h1, (checkBucketName_iff (fun _ => false) (goString "my-bucket.-example")).2 h2,
    by decide, by decide⟩

set_option maxRecDepth 1000000 in
/-- Instances of C27: a content-type condition against a list of two types. -/
theorem match_result_witness :
    ((policyCondition.match_
        { Matching := goString "starts-with", Key := ContentType, Value := goString "image/",
          Matched := false } (goString "image/png,image/gif")).1 = true) ∧
      ((policyCondition.match_
        { Matching := goString "starts-with", Key := ContentType, Value := goString "image/",
          Matched := true } (goString "image/png,text/plain")).1 = false) ∧
      ((policyCondition.match_
        { Matching := goString "other", Key := ContentType, Value := goString "image/",
          Matched := true } (goString "x")).1 = true) := by
  have h := (match_result
    { Matching := goString "other", Key := ContentType, Value := goString "image/",
      Matched := true } (goString "x")).2.2.2.2.2.2.2 (by decide) (by decide)
  exact ⟨by decide, by decide, h.2⟩

set_option maxRecDepth 1000000 in
/-- Instances of C29: the toy object under the prefix `a` and under the prefix
`b`. -/
theorem objectInfoFromMeta_headers_witness :
    objectInfoFromMeta toyBucket toyObject (goString "a") [] =
        some
          { ID := [2], CID := [1], IsDir := false, Bucket := "b", Name := goString "a--b",
            Created := some 12, CreationEpoch := 1, ContentType := "text/plain",
            Headers := some [("x", "y")], Owner := [3], Size := 7, HashSum := "cs" } ∧
      objectInfoFromMeta toyBucket toyObject (goString "b") [] = none := by
  have h := (objectInfoFromMeta_headers toyBucket toyObject (goString "b") []).1
  exact ⟨by rfl, h.2 (by decide)⟩

end instances3

/-! ## Degenerate keys and repeated attribute keys -/

section degenerateKeys

variable {σ BT ST PP : Type}

/-- When the curves agree and the scalar multiplication returns the
x-coordinate 0, which is how the curves of the standard library report the
point at infinity, `generateShared256` returns 32 zero bytes and no error. -/
theorem generateShared256_zero_coordinate (L : Lib σ BT ST PP) (prv : PrivateKey)
    (pub : PublicKey) (hc : prv.PublicKey.Curve = pub.Curve)
    (h0 : L.ScalarMult pub.Curve pub.X pub.Y (bigIntBytes prv.D) = .returns (some 0)) :
    generateShared256 L prv pub = .ok (List.replicate 32 0) := by
  unfold generateShared256
  rw [if_neg (fun hne => hne hc), h0]
  rfl

/-- With a curve that never returns a nil coordinate, the point-at-infinity
error of `generateShared256` is never returned. -/
theorem generateShared256_check_dead (L : Lib σ BT ST PP)
    (hnil : ∀ c x y k, L.ScalarMult c x y k ≠ .returns none) (prv : PrivateKey)
    (pub : PublicKey) : generateShared256 L prv pub ≠ .error Err.pointAtInfinity := by
  unfold generateShared256
  split
  · intro h; cases h
  · split
    · intro h; cases h
    · rename_i hx
      exact absurd hx (hnil _ _ _ _)
    · simp only
      split
      · intro h; cases h
      · intro h; cases h

theorem toyScalarMult_not_nil (c : Curve) (x y : Option Nat) (k : Bytes) :
    toyLib.ScalarMult c x y k ≠ .returns none := by
  simp only [toyLib, toyScalarMult]
  split
  · intro h
    cases h
  · intro h
    cases h

/-- The gate loop never reports the owner-key error. -/
theorem getTokensLoop_not_owner_error (L : Lib σ BT ST PP) (owner : PrivateKey)
    (sender : PublicKey) (ownerKey : Bytes) (err : Err) :
    ∀ gates : List AccessBox_Gate,
      getTokensLoop L owner sender ownerKey gates ≠ .error (Err.unmarshalOwnerPublicKey err)
  | [] => by
    intro h
    cases h
  | gate :: rest => by
    unfold getTokensLoop
    split
    · exact getTokensLoop_not_owner_error L owner sender ownerKey err rest
    · split
      · intro h; cases h
      · intro h; cases h

/-- Once the key library has returned a key for the owner bytes, whatever key
it is, `GetTokens` does not report the owner-key error. -/
theorem GetTokens_owner_accepted (L : Lib σ BT ST PP) (x : AccessBox) (sender : PublicKey)
    (h : L.NewPublicKeyFromBytes x.OwnerPublicKey Curve.P256 = .ok sender)
    (owner : PrivateKey) (err : Err) :
    x.GetTokens L owner ≠ .error (Err.unmarshalOwnerPublicKey err) := by
  unfold AccessBox.GetTokens
  rw [h]
  exact getTokensLoop_not_owner_error L owner sender _ err x.Gates

set_option maxRecDepth 1000000 in
/-- C15 at a failing input: the private key with the scalar 0 (and the one
whose scalar is the group order, 251 in the toy group) and a valid public key.
The product is the neutral element, the point at infinity, which the curve
reports as the coordinate 0 and not as a nil pointer: `generateShared256`
returns 32 zero bytes as the shared secret and no error.  With a curve that
never returns a nil coordinate the point-at-infinity error is returned for no
pair of keys. -/
theorem generateShared256_infinity_secret :
    toyLib.ScalarMult Curve.P256 (toyPublicKey 7).X (toyPublicKey 7).Y
        (bigIntBytes (toyKey 0).D) = .returns (some 0) ∧
      generateShared256 toyLib (toyKey 0) (toyPublicKey 7) = .ok (List.replicate 32 0) ∧
      generateShared256 toyLib (toyKey 251) (toyPublicKey 7) = .ok (List.replicate 32 0) ∧
      ∀ prv pub, generateShared256 toyLib prv pub ≠ .error Err.pointAtInfinity :=
  ⟨rfl, generateShared256_zero_coordinate toyLib (toyKey 0) (toyPublicKey 7) rfl rfl,
    generateShared256_zero_coordinate toyLib (toyKey 251) (toyPublicKey 7) rfl rfl,
    generateShared256_check_dead toyLib toyScalarMult_not_nil⟩

set_option maxRecDepth 1000000 in
/-- C18 at a failing input: the owner key is the single byte 0, the encoding
of the point at infinity, which the key library decodes without error to the
key with nil coordinates.  `GetTokens` and `GetBox` go on to the gates: with no
gate they report that no gate data was found, and with a gate addressed to the
key the scalar multiplication is called on the nil coordinates and panics (the
panic is carried as an error value here).  For no private key is the owner-key
error reported. -/
theorem GetTokens_infinity_owner :
    toyLib.NewPublicKeyFromBytes [0] Curve.P256 = .ok infinityKey ∧
      infinityKey.X = none ∧ infinityKey.Y = none ∧
      toyBoxInfinityOwner.GetTokens toyLib (toyKey 7) = .error (Err.noGateData [2, 35]) ∧
      toyBoxInfinityOwner.GetBox toyLib (toyKey 7) = .error (Err.noGateData [2, 35]) ∧
      toyBoxInfinityGates.GetTokens toyLib (toyKey 7) =
        .error (Err.failedToDecodeGate Err.panicScalarMult) ∧
      (∀ owner err,
        toyBoxInfinityOwner.GetTokens toyLib owner ≠ .error (Err.unmarshalOwnerPublicKey err) ∧
        toyBoxInfinityGates.GetTokens toyLib owner ≠
          .error (Err.unmarshalOwnerPublicKey err)) :=
  ⟨rfl, rfl, rfl, rfl, rfl, rfl, fun owner err =>
    ⟨GetTokens_owner_accepted toyLib toyBoxInfinityOwner infinityKey rfl owner err,
      GetTokens_owner_accepted toyLib toyBoxInfinityGates infinityKey rfl owner err⟩⟩

end degenerateKeys

section repeatedKeys

open layer

set_option maxRecDepth 1000000 in
/-- Counterexample to C29 as stated: an object carries the key `x` twice, with
the values `1` and `2`.  `Headers` of its object info holds `x` once, with the
value `2`; the attribute `x` = `1` of the object is not in `Headers`, although
its key is none of `FileName`, `Content-Type` and `Timestamp`. -/
theorem objectInfoFromMeta_repeated_key_counterexample :
    objectInfoFromMeta toyBucket toyObjectRepeated [] [] =
        some
          { ID := [2], CID := [1], IsDir := false, Bucket := "b", Name := goString "f",
            Created := none, CreationEpoch := 1, ContentType := "",
            Headers := some [("x", "2")], Owner := [3], Size := 7, HashSum := "cs" } ∧
      ¬ ∀ (meta : Object) (info : ObjectInfo) (headers : StringMap),
          objectInfoFromMeta toyBucket meta [] [] = some info → info.IsDir = false →
          info.Headers = some headers →
          ∀ a ∈ meta.Attributes, a.Key ≠ "FileName" → a.Key ≠ "Content-Type" →
            a.Key ≠ "Timestamp" → (a.Key, a.Value) ∈ headers := by
  have heval : objectInfoFromMeta toyBucket toyObjectRepeated [] [] =
      some
        { ID := [2], CID := [1], IsDir := false, Bucket := "b", Name := goString "f",
          Created := none, CreationEpoch := 1, ContentType := "",
          Headers := some [("x", "2")], Owner := [3], Size := 7, HashSum := "cs" } := by
    rfl
  refine ⟨heval, ?_⟩
  intro hall
  have h := hall toyObjectRepeated _ [("x", "2")] heval rfl rfl
    { Key := "x", Value := "1" } (by decide) (by decide) (by decide) (by decide)
  revert h
  decide

end repeatedKeys

end AccessBoxModel
